import Mathlib

/-!
# Checkout and payment orchestration of the liquiKart storefront backend

A shallow embedding of `src/services/order.js`, `src/services/stripe-payment.js`,
`src/services/paypal-payment.js` and `src/services/cart.js`, and of the handlers
of `src/controllers` in front of them, over an explicit database state.

Conventions of the embedding

* A Sequelize table is a list of rows; `Model.update(fields, { where })` rewrites
  every row that matches, `Model.increment` and `Model.decrement` add to or
  subtract from the column of every matching row, `Model.destroy` filters rows out.
* `DECIMAL(10, 2)` amounts are exact integers counted in cents.
* `INTEGER` columns that the services do arithmetic on (`quantity`) are `Int`:
  the column is signed and `Model.decrement` has no floor.
* A service that opens `sequelize.transaction()` is a body returning
  `Except Err (result × Db)` wrapped by `transact`: `commit` keeps the new state,
  `rollback` in the `catch` keeps the state the call started from.
* Answers of the remote gateways and the clock are inputs of the operations.
* Every service rethrows with a prefix (`Order creation failed: ...`); `Err` keeps
  the cause only.
-/

namespace LiquiKart

/-! ## Data model (src/models) -/

/-- Column `orders.status`, `models/Order.js`. -/
inductive OrderStatus
  | pending | confirmed | processing | shipped | delivered | cancelled | refunded
  deriving DecidableEq, Repr

/-- Strings the services write to `orders.payment_status` and `payments.status`.
The two columns declare different subsets, see `declaredOrderPaymentStatus`
and `declaredPaymentStatus`. -/
inductive PayStatus
  | pending | paid | succeeded | failed | refunded | cancelled | processing
  deriving DecidableEq, Repr

/-- Values declared for column `orders.payment_status`, `models/Order.js`. -/
def declaredOrderPaymentStatus : PayStatus → Bool
  | .pending | .paid | .failed | .refunded | .cancelled => true
  | .succeeded | .processing => false

/-- Values declared for column `payments.status`, `models/Payment.js`. -/
def declaredPaymentStatus : PayStatus → Bool
  | .pending | .succeeded | .failed | .refunded => true
  | .paid | .cancelled | .processing => false

/-- Column `orders.payment_method`. -/
inductive PaymentMethod
  | stripe | paypal | cash_on_delivery
  deriving DecidableEq, Repr

/-- Column `products.status`, `models/Product.js`. -/
inductive ProductStatus
  | active | inactive | discontinued
  deriving DecidableEq, Repr

/-- Role strings a caller can carry: the literal `'admin'` that `cancelOrder` and
`getOrderById` compare with, the default `'customer'`, and the three values of
`users.role` (`models/User.js`). -/
inductive Role
  | admin | customer | ADMIN | CUSTOMER | VENDOR
  deriving DecidableEq, Repr

/-- Column `orders.cancelled_by`. -/
inductive Actor
  | customer | admin | vendor | system
  deriving DecidableEq, Repr

/-- Row of `products`; only the columns the checkout services read or write. -/
structure Product where
  id : Nat
  status : ProductStatus
  quantity : Int
  price : Int
  online_price : Int
  deriving DecidableEq, Repr

/-- Row of `carts`. -/
structure Cart where
  id : Nat
  user_id : Nat
  deriving DecidableEq, Repr

/-- Row of `cart_items`. -/
structure CartItem where
  id : Nat
  cart_id : Nat
  product_id : Nat
  quantity : Int
  deriving DecidableEq, Repr

/-- Row of `addresses`; the address lines copied into an order are not read by
any operation and are left out. -/
structure Address where
  id : Nat
  user_id : Nat
  deriving DecidableEq, Repr

/-- Row of `orders`, `models/Order.js`. -/
structure Order where
  id : Nat
  user_id : Nat
  order_number : Nat
  status : OrderStatus
  payment_status : PayStatus
  payment_method : PaymentMethod
  subtotal : Int
  tax_amount : Int
  shipping_cost : Int
  total_amount : Int
  cancellation_reason : Option String
  cancellation_notes : Option String
  cancelled_by : Option Actor
  cancelled_at : Option Nat
  created_at : Nat
  deriving DecidableEq, Repr

/-- Row of `order_items`, as written by `OrderItem.bulkCreate` in the services. -/
structure OrderItem where
  order_id : Nat
  product_id : Nat
  quantity : Int
  unit_price : Int
  total_price : Int
  deriving DecidableEq, Repr

/-- Row of `payments`, `models/Payment.js`; the raw `gateway_response` is kept for
audit only and is left out. -/
structure Payment where
  order_id : Nat
  payment_method : PaymentMethod
  amount : Int
  status : PayStatus
  payment_intent_id : Option Nat
  deriving DecidableEq, Repr

/-- Row of `users`; only the key is read by the payment services. -/
structure User where
  id : Nat
  deriving DecidableEq, Repr

/-- The relational store. -/
structure Db where
  users : List User
  products : List Product
  carts : List Cart
  cartItems : List CartItem
  addresses : List Address
  orders : List Order
  orderItems : List OrderItem
  payments : List Payment
  deriving DecidableEq, Repr

/-- Causes of the errors the services throw; `storeFailure` is a statement of the
store that throws. -/
inductive Err
  | userIdRequired
  | cartIdRequired
  | addressIdRequired
  | cartNotFound
  | cartEmpty
  | addressNotFound
  | productNotFound (cartItemId : Nat)
  | productNotAvailable (productId : Nat)
  | insufficientStock (productId : Nat) (available requested : Int)
  | orderNotFound
  | userNotFound
  | invalidStatusTransition (current requested : OrderStatus)
  | cannotCancel (current : OrderStatus)
  | paymentAlreadyProcessed (current : PayStatus)
  | orderCompletionFailed
  | gatewayFailure
  | paymentFailed
  | captureNotCompleted
  | noCaptureFound
  | webhookSignatureFailed
  | orderTotalTooSmall
  | productUnavailable
  | itemNotInCart
  | storeFailure
  deriving DecidableEq, Repr

/-- What a service call leaves behind: its answer and the committed store. -/
structure Outcome (α : Type) where
  result : Except Err α
  db : Db

/-- True when the call returned instead of throwing. -/
def Outcome.succeeded {α : Type} (o : Outcome α) : Bool :=
  match o.result with
  | .ok _ => true
  | .error _ => false

/-- Wrapper `const transaction = await sequelize.transaction(); try { ...;
await transaction.commit() } catch { await transaction.rollback(); throw }`. -/
def transact {α : Type} (db : Db) (body : Except Err (α × Db)) : Outcome α :=
  match body with
  | .ok (a, db') => ⟨.ok a, db'⟩
  | .error e => ⟨.error e, db⟩

/-- Clock and the order-number generator (`utils/orderHelper.js`), as inputs. -/
structure Env where
  now : Nat
  orderNumber : Nat
  deriving DecidableEq, Repr

/-! ## Store primitives -/

/-- Query `Order.findByPk(orderId)` / `Order.findOne({ where: { id } })`. -/
def Db.findOrder (db : Db) (orderId : Nat) : Option Order :=
  db.orders.find? (fun o => o.id = orderId)

/-- Query `Order.findOne({ where: { id, user_id } })`. -/
def Db.findOrderOfUser (db : Db) (orderId userId : Nat) : Option Order :=
  db.orders.find? (fun o => o.id = orderId ∧ o.user_id = userId)

/-- Query `OrderItem.findAll({ where: { order_id } })`, also the `items` include. -/
def Db.itemsOf (db : Db) (orderId : Nat) : List OrderItem :=
  db.orderItems.filter (fun i => i.order_id = orderId)

/-- Query `Payment.findOne({ where: { order_id } })`. -/
def Db.paymentOf (db : Db) (orderId : Nat) : Option Payment :=
  db.payments.find? (fun p => p.order_id = orderId)

/-- Query `Product.findByPk`; the `product` include of a cart item. -/
def Db.findProduct (db : Db) (productId : Nat) : Option Product :=
  db.products.find? (fun p => p.id = productId)

/-- Stock of a product, `none` when no such row exists. -/
def Db.stock (db : Db) (productId : Nat) : Option Int :=
  (db.findProduct productId).map (fun p => p.quantity)

/-- Statement `Order.update(fields, { where: { id: orderId } })`. -/
def Db.updateOrders (db : Db) (orderId : Nat) (f : Order → Order) : Db :=
  { db with orders := db.orders.map (fun o => if o.id = orderId then f o else o) }

/-- Statement `Payment.update(fields, { where: { order_id: orderId } })`. -/
def Db.updatePaymentsOf (db : Db) (orderId : Nat) (f : Payment → Payment) : Db :=
  { db with payments := db.payments.map (fun p => if p.order_id = orderId then f p else p) }

/-- Statement `Product.decrement('quantity', { by, where: { id } })`:
`UPDATE products SET quantity = quantity - by WHERE id = ?`, no floor. -/
def Db.decrementProduct (db : Db) (productId : Nat) (by_ : Int) : Db :=
  { db with
    products := db.products.map
                  (fun p => if p.id = productId then { p with quantity := p.quantity - by_ } else p) }

/-- Statement `Product.increment('quantity', { by, where: { id } })`. -/
def Db.incrementProduct (db : Db) (productId : Nat) (by_ : Int) : Db :=
  { db with
    products := db.products.map
                  (fun p => if p.id = productId then { p with quantity := p.quantity + by_ } else p) }

/-- Loop `for (const item of items) await Product.decrement('quantity', ...)`. -/
def Db.decrementAll (db : Db) (items : List OrderItem) : Db :=
  items.foldl (fun acc it => acc.decrementProduct it.product_id it.quantity) db

/-- Loop `for (const item of items) await Product.increment('quantity', ...)`. -/
def Db.incrementAll (db : Db) (items : List OrderItem) : Db :=
  items.foldl (fun acc it => acc.incrementProduct it.product_id it.quantity) db

/-- Statement `CartItem.destroy({ where: { cart_id } })`. -/
def Db.destroyCartItems (db : Db) (cartId : Nat) : Db :=
  { db with cartItems := db.cartItems.filter (fun ci => ¬ ci.cart_id = cartId) }

/-- Items of a cart: the `cart_items` include. -/
def Db.cartItemsOf (db : Db) (cartId : Nat) : List CartItem :=
  db.cartItems.filter (fun ci => ci.cart_id = cartId)

/-- The `cart_items` include with its nested `product` include: every line with
the product row read at the start of the call (`none` when the row is gone). -/
def Db.cartLines (db : Db) (cartId : Nat) : List (CartItem × Option Product) :=
  (db.cartItemsOf cartId).map (fun ci => (ci, db.findProduct ci.product_id))

/-- Auto-increment key of the next `Order.create`: above every key in use. -/
def Db.nextOrderId (db : Db) : Nat :=
  (db.orders.map (fun o => o.id)).foldl max 0 + 1

/-- Steps 5 of both settlements: `Cart.findOne({ where: { user_id } })` and, when
a cart exists, `CartItem.destroy({ where: { cart_id: cart.id } })`. -/
def Db.clearCartOfUser (db : Db) (userId : Nat) : Db :=
  match db.carts.find? (fun c => c.user_id = userId) with
  | some cart => db.destroyCartItems cart.id
  | none => db

/-! ## Amounts as JavaScript numbers -/

/-- A JavaScript number other than NaN and the infinities, as an IEEE 754 double:
zero (mantissa 0), or `mantissa * 2 ^ exponent` with the 53-bit mantissa between
`2 ^ 52` and `2 ^ 53`, negated when `negative`. The two zeros, equal under
`===`, are one value. Subnormal numbers and overflow are left out: the amounts
of a `DECIMAL(10,2)` column and `INTEGER` quantities keep far from both. -/
structure JsNumber where
  negative : Bool
  mantissa : Nat
  exponent : Int
  deriving DecidableEq, Repr

namespace JsNumber

/-- Least number `k` of doublings, from `k` on, with `2 ^ 52 ≤ n * 2 ^ k / d`. -/
def doublings : Nat → Nat → Nat → Nat → Nat
  | 0, _, _, k => k
  | fuel + 1, n, d, k => if 2 ^ 52 ≤ n * 2 ^ k / d then k else doublings fuel n d (k + 1)

/-- Least number `j` of halvings, from `j` on, with `n / (d * 2 ^ j) < 2 ^ 53`. -/
def halvings : Nat → Nat → Nat → Nat → Nat
  | 0, _, _, j => j
  | fuel + 1, n, d, j => if n / (d * 2 ^ j) < 2 ^ 53 then j else halvings fuel n d (j + 1)

/-- The double nearest to the fraction `n / d`, ties to the even mantissa (the
rounding of every arithmetic operation and of the conversion of a decimal
string to a number). -/
def round (negative : Bool) (n d : Nat) : JsNumber :=
  if n = 0 ∨ d = 0 then ⟨false, 0, 0⟩
  else
    let j := halvings 1100 n d 0
    let k := if j = 0 then doublings 1100 n d 0 else 0
    let num := n * 2 ^ k
    let den := d * 2 ^ j
    let q := num / den
    let r := num % den
    let m := if den < 2 * r ∨ (2 * r = den ∧ q % 2 = 1) then q + 1 else q
    if m = 2 ^ 53 then ⟨negative, 2 ^ 52, (j : Int) - (k : Int) + 1⟩
    else ⟨negative, m, (j : Int) - (k : Int)⟩

/-- The double nearest to `m * 2 ^ e`. -/
def ofScaled (negative : Bool) (m : Nat) (e : Int) : JsNumber :=
  if 0 ≤ e then round negative (m * 2 ^ e.toNat) 1 else round negative m (2 ^ (-e).toNat)

/-- An integer as a number. -/
def ofInt (i : Int) : JsNumber :=
  round (decide (i < 0)) i.natAbs 1

/-- The number a `DECIMAL(10,2)` value converts to, the value given in
hundredths: `"1.10"` is `ofCents 110`. -/
def ofCents (c : Int) : JsNumber :=
  round (decide (c < 0)) c.natAbs 100

/-- Operator `*` on two numbers. -/
def mul (a b : JsNumber) : JsNumber :=
  ofScaled (a.negative != b.negative) (a.mantissa * b.mantissa) (a.exponent + b.exponent)

/-- The integer `x` with `a = x * 2 ^ e`, for `e` at most the exponent of `a`. -/
def scaled (a : JsNumber) (e : Int) : Int :=
  let x : Int := ((a.mantissa * 2 ^ (a.exponent - e).toNat : Nat) : Int)
  if a.negative then -x else x

/-- Operator `+` on two numbers. -/
def add (a b : JsNumber) : JsNumber :=
  let e := min a.exponent b.exponent
  let x := a.scaled e + b.scaled e
  ofScaled (decide (x < 0)) x.natAbs e

end JsNumber

/-! ## Order service (src/services/order.js) -/

namespace orderService

/-- Argument `orderData` of `createOrder`; `payment_method` defaults to
`'cash_on_delivery'`. An id that is `0` stands for a falsy (missing) value. -/
structure OrderData where
  user_id : Nat
  cart_id : Nat
  address_id : Nat
  payment_method : PaymentMethod := PaymentMethod.cash_on_delivery
  deriving DecidableEq, Repr

/-- The `data` of a successful creation: `orderId`, `orderNumber` and `amount`,
the amount as the exact sum in hundredths, which is what the order row stores.
The JavaScript number that `createOrder` puts in `data.amount` is
`orderService.returnedAmount`. -/
structure Created where
  orderId : Nat
  orderNumber : Nat
  amount : Int
  deriving DecidableEq, Repr

/-- Expression `product.online_price || product.price`. The column
`online_price` is `DECIMAL(10,2)` and `allowNull: false`: its value reaches the
code as a string such as `"0.00"`, which is never falsy, so `||` gives the
online price, zero included. -/
def unitPrice (p : Product) : Int :=
  p.online_price

/-- Step 4 of `createOrder`, the loop `for (const cartItem of cart.cart_items)`:
it throws at the first line whose product is missing, not active or short of
stock, and otherwise adds to `subtotal` and pushes one entry of
`orderItemsData` (whose `order_id` is filled in at step 8). -/
def validateLines :
    List (CartItem × Option Product) → Int → List OrderItem → Except Err (Int × List OrderItem)
  | [], subtotal, acc => .ok (subtotal, acc)
  | (cartItem, none) :: _, _, _ => .error (.productNotFound cartItem.id)
  | (cartItem, some product) :: rest, subtotal, acc =>
    if product.status ≠ .active then .error (.productNotAvailable product.id)
    else if product.quantity < cartItem.quantity then
      .error (.insufficientStock product.id product.quantity cartItem.quantity)
    else
      let unit_price := unitPrice product
      let itemTotal := unit_price * cartItem.quantity
      validateLines rest (subtotal + itemTotal)
        (acc ++ [{ order_id := 0, product_id := product.id, quantity := cartItem.quantity,
                   unit_price := unit_price, total_price := itemTotal }])

/-- Body of `createOrder` between `try` and `transaction.commit()`. -/
def createOrderBody (db : Db) (env : Env) (orderData : OrderData) :
    Except Err (Created × Db) :=
  if orderData.user_id = 0 then .error .userIdRequired
  else if orderData.cart_id = 0 then .error .cartIdRequired
  else if orderData.address_id = 0 then .error .addressIdRequired
  else
    match db.carts.find? (fun c => c.id = orderData.cart_id ∧ c.user_id = orderData.user_id) with
    | none => .error .cartNotFound
    | some cart =>
      let cart_items := db.cartLines cart.id
      if cart_items.length = 0 then .error .cartEmpty
      else
        match db.addresses.find?
            (fun a => a.id = orderData.address_id ∧ a.user_id = orderData.user_id) with
        | none => .error .addressNotFound
        | some _ =>
          match validateLines cart_items 0 [] with
          | .error e => .error e
          | .ok (subtotal, orderItemsData) =>
            let taxAmount : Int := 0
            let shippingCost : Int := 0
            let totalAmount := subtotal + taxAmount + shippingCost
            let order : Order :=
              { id := db.nextOrderId, user_id := orderData.user_id,
                order_number := env.orderNumber, status := .pending,
                payment_status := .pending, payment_method := orderData.payment_method,
                subtotal := subtotal, tax_amount := taxAmount, shipping_cost := shippingCost,
                total_amount := totalAmount, cancellation_reason := none,
                cancellation_notes := none, cancelled_by := none, cancelled_at := none,
                created_at := env.now }
            let db1 := { db with orders := db.orders ++ [order] }
            let orderItemsWithOrderId :=
              orderItemsData.map (fun item => { item with order_id := order.id })
            let db2 := { db1 with orderItems := db1.orderItems ++ orderItemsWithOrderId }
            let db3 := db2.decrementAll orderItemsData
            let payment : Payment :=
              { order_id := order.id, payment_method := orderData.payment_method,
                amount := totalAmount, status := .pending, payment_intent_id := none }
            let db4 := { db3 with payments := db3.payments ++ [payment] }
            let db5 := db4.destroyCartItems orderData.cart_id
            .ok ({ orderId := order.id, orderNumber := order.order_number,
                   amount := totalAmount }, db5)

/-- Service `orderService.createOrder`. -/
def createOrder (db : Db) (env : Env) (orderData : OrderData) : Outcome Created :=
  transact db (createOrderBody db env orderData)

/-- The JavaScript number `totalAmount` of `createOrder`, which the call returns
as `amount`: `subtotal` starts at `0`, every line adds
`unit_price * cartItem.quantity` to it, the price a `DECIMAL(10,2)` value that
`*` converts to a number, and `totalAmount = subtotal + taxAmount + shippingCost`
with both `0`. No step rounds to two decimals. A line without product, at which
the loop throws, adds nothing. -/
def totalAmount (cart_items : List (CartItem × Option Product)) : JsNumber :=
  let subtotal := cart_items.foldl (fun subtotal line =>
    match line.2 with
    | none => subtotal
    | some product =>
      let unit_price := JsNumber.ofCents (unitPrice product)
      let itemTotal := unit_price.mul (JsNumber.ofInt line.1.quantity)
      subtotal.add itemTotal) (JsNumber.ofInt 0)
  let taxAmount := JsNumber.ofInt 0
  let shippingCost := JsNumber.ofInt 0
  (subtotal.add taxAmount).add shippingCost

/-- The number in `data.amount` of a `createOrder` that succeeds: `totalAmount`
over the items of the cart read at step 1. -/
def returnedAmount (db : Db) (env : Env) (orderData : OrderData) : Option JsNumber :=
  match (createOrder db env orderData).result,
      db.carts.find? (fun c => c.id = orderData.cart_id ∧ c.user_id = orderData.user_id) with
  | .ok _, some cart => some (totalAmount (db.cartLines cart.id))
  | _, _ => none

/-- Table `validTransitions` of `updateOrderStatus`. -/
def validTransitions : OrderStatus → List OrderStatus
  | .pending => [.confirmed, .cancelled]
  | .confirmed => [.processing, .cancelled]
  | .processing => [.shipped, .cancelled]
  | .shipped => [.delivered]
  | .delivered => [.refunded]
  | .cancelled => []
  | .refunded => []

/-- Body of `updateOrderStatus` up to `transaction.commit()`. The notification
mail sent after the commit is inside its own `try`/`catch` and touches no row. -/
def updateOrderStatusBody (db : Db) (orderId : Nat) (status : OrderStatus) :
    Except Err (Unit × Db) :=
  match db.findOrder orderId with
  | none => .error .orderNotFound
  | some order =>
    let allowedStatuses := validTransitions order.status
    if ¬ allowedStatuses.contains status then
      .error (.invalidStatusTransition order.status status)
    else
      let db1 := db.updateOrders orderId (fun o => { o with status := status })
      let db2 := if status = .cancelled then db1.incrementAll (db1.itemsOf orderId) else db1
      let db3 :=
        if status = .delivered ∧ order.payment_status = .pending then
          (db2.updateOrders orderId (fun o => { o with payment_status := .paid })).updatePaymentsOf
            orderId (fun p => { p with status := .succeeded })
        else db2
      .ok ((), db3)

/-- Service `orderService.updateOrderStatus`. -/
def updateOrderStatus (db : Db) (orderId : Nat) (status : OrderStatus) : Outcome Unit :=
  transact db (updateOrderStatusBody db orderId status)

/-- Body of `updatePaymentStatus`; `paymentStatus` is whatever string the caller
passes (the route admits pending, paid, failed, refunded, cancelled). -/
def updatePaymentStatusBody (db : Db) (orderId : Nat) (paymentStatus : PayStatus) :
    Except Err (Unit × Db) :=
  match db.findOrder orderId with
  | none => .error .orderNotFound
  | some order =>
    let db1 := db.updateOrders orderId (fun o => { o with payment_status := paymentStatus })
    let db2 := db1.updatePaymentsOf orderId
      (fun p => { p with status := if paymentStatus = .paid then .succeeded else paymentStatus })
    let db3 :=
      if paymentStatus = .paid then
        let db2a := db2.decrementAll (db2.itemsOf orderId)
        if order.status = .pending then
          db2a.updateOrders orderId (fun o => { o with status := .confirmed })
        else db2a
      else db2
    let db4 :=
      if paymentStatus = .failed ∧ order.status = .pending then
        let db3a := db3.updateOrders orderId (fun o => { o with status := .cancelled })
        db3a.incrementAll (db3a.itemsOf orderId)
      else db3
    .ok ((), db4)

/-- Service `orderService.updatePaymentStatus`. -/
def updatePaymentStatus (db : Db) (orderId : Nat) (paymentStatus : PayStatus) : Outcome Unit :=
  transact db (updatePaymentStatusBody db orderId paymentStatus)

/-- The query of `cancelOrder`: `whereClause = { id: orderId }`, and
`whereClause.user_id = userId` is added when `userRole !== 'admin'`. -/
def findVisibleOrder (db : Db) (orderId userId : Nat) (userRole : Role) : Option Order :=
  db.orders.find? (fun o => o.id = orderId ∧ (userRole ≠ .admin → o.user_id = userId))

/-- Body of `cancelOrder`; `now` is `new Date()`. -/
def cancelOrderBody (db : Db) (now : Nat) (orderId userId : Nat) (userRole : Role)
    (reason notes : String) : Except Err (Unit × Db) :=
  match findVisibleOrder db orderId userId userRole with
  | none => .error .orderNotFound
  | some order =>
    let cancellableStatuses : List OrderStatus := [.pending, .confirmed, .processing]
    if ¬ cancellableStatuses.contains order.status then .error (.cannotCancel order.status)
    else
      let db1 := db.updateOrders orderId (fun o =>
        { o with status := .cancelled, cancellation_reason := some reason,
                 cancellation_notes := some notes,
                 cancelled_by := some (if userRole = .admin then Actor.admin else Actor.customer),
                 cancelled_at := some now })
      let db2 := db1.incrementAll (db1.itemsOf orderId)
      .ok ((), db2)

/-- Service `orderService.cancelOrder`. -/
def cancelOrder (db : Db) (now : Nat) (orderId userId : Nat) (userRole : Role)
    (reason notes : String) : Outcome Unit :=
  transact db (cancelOrderBody db now orderId userId userRole reason notes)

end orderService

/-! ## Stripe payment service (src/services/stripe-payment.js) -/

namespace stripePaymentService

/-- Field `status` of a Stripe payment intent, as far as the service tells the
values apart; `other` is any remaining status (`requires_payment_method`,
`canceled`, ...). -/
inductive IntentStatus
  | succeeded | requires_action | requires_confirmation | processing | other
  deriving DecidableEq, Repr

/-- The payment intent the gateway answers with. -/
structure PaymentIntent where
  id : Nat
  status : IntentStatus
  client_secret : Nat := 0
  deriving DecidableEq, Repr

/-- The `data` of `confirmPayment` and `handle3DSecureAction`; `clientSecret` is
present in the answers that ask for 3-D Secure. -/
structure Confirmation where
  orderId : Nat
  status : IntentStatus
  paymentIntentId : Nat
  clientSecret : Option Nat := none
  deriving DecidableEq, Repr

/-- Step 3 of `createPaymentOrder`: the same three checks as in
`orderService.createOrder`, with `product.online_price` as the price. -/
def validateLines : List (CartItem × Option Product) → Int → Except Err Int
  | [], subtotal => .ok subtotal
  | (cartItem, none) :: _, _ => .error (.productNotFound cartItem.id)
  | (cartItem, some product) :: rest, subtotal =>
    if product.status ≠ .active then .error (.productNotAvailable product.id)
    else if product.quantity < cartItem.quantity then
      .error (.insufficientStock product.id product.quantity cartItem.quantity)
    else validateLines rest (subtotal + product.online_price * cartItem.quantity)

/-- Step 6 of `createPaymentOrder`: `cart.cart_items.map(cartItem => ...)`; it
runs after the loop above, so every line has its product. -/
def orderItemsData (orderId : Nat) (cart_items : List (CartItem × Option Product)) :
    List OrderItem :=
  cart_items.filterMap (fun line =>
    line.2.map (fun product =>
      { order_id := orderId, product_id := line.1.product_id, quantity := line.1.quantity,
        unit_price := product.online_price,
        total_price := product.online_price * line.1.quantity }))

/-- Body of `createPaymentOrder`: order, items and payment are written, stock and
cart are not touched. -/
def createPaymentOrderBody (db : Db) (env : Env)
    (cartId shippingAddressId billingAddressId userId : Nat) :
    Except Err (orderService.Created × Db) :=
  match db.carts.find? (fun c => c.id = cartId ∧ c.user_id = userId) with
  | none => .error .cartNotFound
  | some cart =>
    let cart_items := db.cartLines cart.id
    if cart_items.length = 0 then .error .cartEmpty
    else
      let shippingAddress :=
        db.addresses.find? (fun a => a.id = shippingAddressId ∧ a.user_id = userId)
      let billingAddress :=
        db.addresses.find? (fun a => a.id = billingAddressId ∧ a.user_id = userId)
      if shippingAddress.isNone ∨ billingAddress.isNone then .error .addressNotFound
      else
        match validateLines cart_items 0 with
        | .error e => .error e
        | .ok subtotal =>
          let taxAmount : Int := 0
          let shippingCost : Int := 0
          let totalAmount := subtotal + taxAmount + shippingCost
          let order : Order :=
            { id := db.nextOrderId, user_id := userId, order_number := env.orderNumber,
              status := .pending, payment_status := .pending, payment_method := .stripe,
              subtotal := subtotal, tax_amount := taxAmount, shipping_cost := shippingCost,
              total_amount := totalAmount, cancellation_reason := none,
              cancellation_notes := none, cancelled_by := none, cancelled_at := none,
              created_at := env.now }
          let db1 := { db with orders := db.orders ++ [order] }
          let db2 := { db1 with orderItems := db1.orderItems ++ orderItemsData order.id cart_items }
          let payment : Payment :=
            { order_id := order.id, payment_method := .stripe, amount := totalAmount,
              status := .pending, payment_intent_id := none }
          let db3 := { db2 with payments := db2.payments ++ [payment] }
          .ok ({ orderId := order.id, orderNumber := order.order_number,
                 amount := totalAmount }, db3)

/-- Service `stripePaymentService.createPaymentOrder`. -/
def createPaymentOrder (db : Db) (env : Env)
    (cartId shippingAddressId billingAddressId userId : Nat) : Outcome orderService.Created :=
  transact db (createPaymentOrderBody db env cartId shippingAddressId billingAddressId userId)

/-- Service `stripePaymentService.completeOrderPayment(orderId, transaction)`: the
settlement transition. It reads no status before it writes. A missing order makes
`order.items` throw before the first write. -/
def completeOrderPayment (db : Db) (orderId : Nat) : Except Err Db :=
  match db.findOrder orderId with
  | none => .error .orderCompletionFailed
  | some order =>
    let db1 := db.decrementAll (db.itemsOf orderId)
    let db2 := db1.updateOrders orderId
      (fun o => { o with status := .confirmed, payment_status := .paid })
    let db3 := db2.updatePaymentsOf orderId (fun p => { p with status := .succeeded })
    .ok (db3.clearCartOfUser order.user_id)

/-- Body of `confirmPayment`. `gateway` is the answer of the Stripe calls of steps
3 and 4 (`none` when one of them throws). -/
def confirmPaymentBody (db : Db) (gateway : Option PaymentIntent) (orderId userId : Nat) :
    Except Err (Confirmation × Db) :=
  match db.findOrderOfUser orderId userId with
  | none => .error .orderNotFound
  | some order =>
    if order.payment_status ≠ .pending then .error (.paymentAlreadyProcessed order.payment_status)
    else
      match db.users.find? (fun u => u.id = userId) with
      | none => .error .userNotFound
      | some _ =>
        match gateway with
        | none => .error .gatewayFailure
        | some paymentIntent =>
          let db1 := db.updatePaymentsOf orderId
            (fun p => { p with payment_intent_id := some paymentIntent.id })
          match paymentIntent.status with
          | .succeeded =>
            match completeOrderPayment db1 orderId with
            | .error e => .error e
            | .ok db2 => .ok (⟨order.id, .succeeded, paymentIntent.id, none⟩, db2)
          | .requires_action =>
            .ok (⟨order.id, .requires_action, paymentIntent.id,
                  some paymentIntent.client_secret⟩, db1)
          | .requires_confirmation =>
            .ok (⟨order.id, .requires_action, paymentIntent.id,
                  some paymentIntent.client_secret⟩, db1)
          | .processing =>
            let db2 := db1.updateOrders orderId (fun o => { o with payment_status := .processing })
            .ok (⟨order.id, .processing, paymentIntent.id, none⟩, db2)
          | .other => .error .paymentFailed

/-- Service `stripePaymentService.confirmPayment`. -/
def confirmPayment (db : Db) (gateway : Option PaymentIntent) (orderId userId : Nat) :
    Outcome Confirmation :=
  transact db (confirmPaymentBody db gateway orderId userId)

/-- Body of `handle3DSecureAction`. `gateway` is the answer of
`stripe.paymentIntents.retrieve(paymentIntentId)` (`none` when it throws). -/
def handle3DSecureActionBody (db : Db) (gateway : Option PaymentIntent) (orderId userId : Nat) :
    Except Err (Confirmation × Db) :=
  match db.findOrderOfUser orderId userId with
  | none => .error .orderNotFound
  | some order =>
    match gateway with
    | none => .error .gatewayFailure
    | some paymentIntent =>
      match paymentIntent.status with
      | .succeeded =>
        match completeOrderPayment db orderId with
        | .error e => .error e
        | .ok db1 => .ok (⟨order.id, .succeeded, paymentIntent.id, none⟩, db1)
      | .processing =>
        let db1 := db.updateOrders orderId (fun o => { o with payment_status := .processing })
        .ok (⟨order.id, .processing, paymentIntent.id, none⟩, db1)
      | .requires_action =>
        .ok (⟨order.id, .requires_action, paymentIntent.id,
              some paymentIntent.client_secret⟩, db)
      | _ => .error .paymentFailed

/-- Service `stripePaymentService.handle3DSecureAction`. -/
def handle3DSecureAction (db : Db) (gateway : Option PaymentIntent) (orderId userId : Nat) :
    Outcome Confirmation :=
  transact db (handle3DSecureActionBody db gateway orderId userId)

/-- Field `type` of a Stripe event, as far as `handleWebhook` tells them apart. -/
inductive EventType
  | payment_intent_succeeded | payment_intent_payment_failed | other
  deriving DecidableEq, Repr

/-- A verified Stripe event: its type, the id of the payment intent it carries
and `metadata.order_id` (`none` when missing). -/
structure Event where
  type : EventType
  paymentIntentId : Nat
  order_id : Option Nat
  deriving DecidableEq, Repr

/-- Service `stripePaymentService.handleWebhook`. `event` is the result of
`stripe.webhooks.constructEvent` (`none` when the signature check throws). No
transaction is opened: `completeOrderPayment(orderId)` is called without one and
the two updates of the failure branch are committed one by one. -/
def handleWebhook (db : Db) (event : Option Event) : Outcome Unit :=
  match event with
  | none => ⟨.error .webhookSignatureFailed, db⟩
  | some event =>
    match event.type, event.order_id with
    | .payment_intent_succeeded, some orderId =>
      match completeOrderPayment db orderId with
      | .error e => ⟨.error e, db⟩
      | .ok db1 => ⟨.ok (), db1⟩
    | .payment_intent_payment_failed, some orderId =>
      let db1 := db.updateOrders orderId
        (fun o => { o with payment_status := .failed, status := .cancelled })
      let db2 : Db :=
        { db1 with
          payments := db1.payments.map (fun p =>
            if p.payment_intent_id = some event.paymentIntentId then
              { p with status := .failed } else p) }
      ⟨.ok (), db2⟩
    | _, _ => ⟨.ok (), db⟩

end stripePaymentService

/-! ## PayPal payment service (src/services/paypal-payment.js) -/

namespace paypalPaymentService

/-- Value of `paypalService.environment` (`PAYPAL_ENVIRONMENT`, default sandbox). -/
inductive Environment
  | sandbox | live
  deriving DecidableEq, Repr

/-- Answer of the capture request: whether `status` is `COMPLETED` and the id of
`purchase_units[0].payments.captures[0]` when there is one. -/
structure CaptureResult where
  completed : Bool
  captureId : Option Nat
  deriving DecidableEq, Repr

/-- The `data` of a successful capture. -/
structure Captured where
  orderId : Nat
  transactionId : Nat
  deriving DecidableEq, Repr

/-- Body of `capturePayPalOrderAndCreateOrder` inside its transaction. `gateway`
is the answer of the capture request (`none` when the request throws). -/
def capturePayPalOrderAndCreateOrderBody (db : Db) (gateway : Option CaptureResult)
    (orderId userId : Nat) : Except Err (Captured × Db) :=
  match db.findOrderOfUser orderId userId with
  | none => .error .orderNotFound
  | some order =>
    if order.payment_status ≠ .pending then .error (.paymentAlreadyProcessed order.payment_status)
    else
      match gateway with
      | none => .error .gatewayFailure
      | some captureResult =>
        if ¬ captureResult.completed then .error .captureNotCompleted
        else
          match captureResult.captureId with
          | none => .error .noCaptureFound
          | some captureId =>
            let db1 := db.decrementAll (db.itemsOf orderId)
            let db2 := db1.updateOrders orderId
              (fun o => { o with status := .confirmed, payment_status := .paid })
            let db3 := db2.updatePaymentsOf orderId (fun p => { p with status := .succeeded })
            .ok (⟨order.id, captureId⟩, db3.clearCartOfUser userId)

/-- The `catch` of `capturePayPalOrderAndCreateOrder` after the rollback: two
updates outside any transaction, selected by `orderId` alone. -/
def markCaptureFailed (db : Db) (orderId : Nat) : Db :=
  (db.updateOrders orderId
      (fun o => { o with payment_status := .failed, status := .cancelled })).updatePaymentsOf
    orderId (fun p => { p with status := .failed })

/-- Service `paypalPaymentService.capturePayPalOrderAndCreateOrder`. -/
def capturePayPalOrderAndCreateOrder (db : Db) (gateway : Option CaptureResult)
    (orderId userId : Nat) : Outcome Captured :=
  match capturePayPalOrderAndCreateOrderBody db gateway orderId userId with
  | .ok (r, db') => ⟨.ok r, db'⟩
  | .error e => ⟨.error e, markCaptureFailed db orderId⟩

/-- Body of `completeOrderPayment(orderId)`, the settlement used by the webhook.
It reads no status before it writes. -/
def completeOrderPaymentBody (db : Db) (orderId : Nat) : Except Err (Unit × Db) :=
  match db.findOrder orderId with
  | none => .error .orderCompletionFailed
  | some order =>
    let db1 := db.decrementAll (db.itemsOf orderId)
    let db2 := db1.updateOrders orderId
      (fun o => { o with status := .confirmed, payment_status := .paid })
    let db3 := db2.updatePaymentsOf orderId (fun p => { p with status := .succeeded })
    .ok ((), db3.clearCartOfUser order.user_id)

/-- Service `paypalPaymentService.completeOrderPayment`. -/
def completeOrderPayment (db : Db) (orderId : Nat) : Outcome Unit :=
  transact db (completeOrderPaymentBody db orderId)

/-- Events of `handleWebhook` whose handling selects rows by order id:
`CHECKOUT.ORDER.APPROVED`, `PAYMENT.CAPTURE.COMPLETED` with its `custom_id`
(`none` when missing), and every unhandled type. -/
inductive Event
  | checkout_order_approved
  | payment_capture_completed (custom_id : Option Nat)
  | unhandled
  deriving DecidableEq, Repr

/-- Service `paypalPaymentService.handleWebhook` on the events above. The
signature is looked at only when the environment is `live`, through
`paypalService.verifyWebhookSignature`, which class `PayPalService` does not
define, so in `live` the call throws before any event is processed. -/
def handleWebhook (db : Db) (environment : Environment) (event : Event) : Outcome Unit :=
  if environment = .live then ⟨.error .webhookSignatureFailed, db⟩
  else
    match event with
    | .checkout_order_approved => ⟨.ok (), db⟩
    | .payment_capture_completed (some orderId) =>
      let settled := completeOrderPayment db orderId
      match settled.result with
      | .ok _ => ⟨.ok (), settled.db⟩
      | .error e => ⟨.error e, settled.db⟩
    | .payment_capture_completed none => ⟨.ok (), db⟩
    | .unhandled => ⟨.ok (), db⟩

/-- Field `status` of a remote PayPal order, as far as step 1 of
`createPaymentOrder` tells the values apart. -/
inductive RemoteStatus
  | created | approved | other
  deriving DecidableEq, Repr

/-- What `createPaymentOrder` gets from outside the declared store:
`paypal_order_id` is the read `payment.paypal_order_id` (`none` for a falsy
value), an attribute the service writes and reads and `models/Payment.js` does not
declare; `lookup` is the answer of `GET /v2/checkout/orders/{id}` and `create`
the id answered by `POST /v2/checkout/orders` (`none` when the request throws). -/
structure Gateway where
  paypal_order_id : Payment → Option Nat
  lookup : Option RemoteStatus
  create : Option Nat

/-- The `data` of `createPaymentOrder`; `retrieved` tells the answer "Order
retrieved successfully" of step 1 from "Order created successfully". -/
structure CreatedOrder where
  orderId : Nat
  orderNumber : Nat
  paypalOrderId : Nat
  amount : Int
  retrieved : Bool
  deriving DecidableEq, Repr

/-- The first query of `createPaymentOrder`: the orders of the user with
payment_status pending, method paypal and a pending payment joined, newest
`created_at` first; of several equally new ones the first row is taken. -/
def existingOrder (db : Db) (userId : Nat) : Option Order :=
  (db.orders.filter (fun o =>
      o.user_id = userId ∧ o.payment_status = .pending ∧ o.payment_method = .paypal ∧
        db.payments.any (fun p => p.order_id = o.id ∧ p.status = .pending))).foldl
    (fun best o =>
      match best with
      | none => some o
      | some b => if b.created_at < o.created_at then some o else some b)
    none

/-- Step 1 of `createPaymentOrder`: the pending order of the last 30 minutes
(`Date.now()` and `created_at` in milliseconds) whose remote order is still
`CREATED` or `APPROVED`, when there is one. -/
def reusableOrder (db : Db) (env : Env) (gateway : Gateway) (userId : Nat) :
    Option CreatedOrder :=
  match existingOrder db userId with
  | none => none
  | some existingOrder =>
    let orderAge : Int := (env.now : Int) - existingOrder.created_at
    let thirtyMinutes : Int := 30 * 60 * 1000
    if orderAge < thirtyMinutes then
      match db.paymentOf existingOrder.id with
      | none => none
      | some payment =>
        match gateway.paypal_order_id payment with
        | none => none
        | some paypalOrderId =>
          match gateway.lookup with
          | some .created | some .approved =>
            some { orderId := existingOrder.id, orderNumber := existingOrder.order_number,
                   paypalOrderId := paypalOrderId, amount := existingOrder.total_amount,
                   retrieved := true }
          | _ => none
    else none

/-- Step 3 of `createPaymentOrder`: the three checks of the other creation paths,
with `parseFloat(product.online_price)` as the price. -/
def validateLines : List (CartItem × Option Product) → Int → Except Err Int
  | [], subtotal => .ok subtotal
  | (cartItem, none) :: _, _ => .error (.productNotFound cartItem.id)
  | (cartItem, some product) :: rest, subtotal =>
    if product.status ≠ .active then .error (.productNotAvailable product.id)
    else if product.quantity < cartItem.quantity then
      .error (.insufficientStock product.id product.quantity cartItem.quantity)
    else validateLines rest (subtotal + product.online_price * cartItem.quantity)

/-- Step 7 of `createPaymentOrder`: `cart.cart_items.map(cartItem => ...)`. -/
def orderItemsData (orderId : Nat) (cart_items : List (CartItem × Option Product)) :
    List OrderItem :=
  cart_items.filterMap (fun line =>
    line.2.map (fun product =>
      { order_id := orderId, product_id := line.1.product_id, quantity := line.1.quantity,
        unit_price := product.online_price,
        total_price := product.online_price * line.1.quantity }))

/-- Body of `createPaymentOrder`. Rounding to two decimals (`toFixed(2)`) is the
identity on amounts in cents, and `totalAmount < 0.01` is `totalAmount < 1`. -/
def createPaymentOrderBody (db : Db) (env : Env) (gateway : Gateway)
    (cartId shippingAddressId billingAddressId userId : Nat) :
    Except Err (CreatedOrder × Db) :=
  match reusableOrder db env gateway userId with
  | some existing => .ok (existing, db)
  | none =>
    match db.carts.find? (fun c => c.id = cartId ∧ c.user_id = userId) with
    | none => .error .cartNotFound
    | some cart =>
      let cart_items := db.cartLines cart.id
      if cart_items.length = 0 then .error .cartEmpty
      else
        let shippingAddress :=
          db.addresses.find? (fun a => a.id = shippingAddressId ∧ a.user_id = userId)
        let billingAddress :=
          db.addresses.find? (fun a => a.id = billingAddressId ∧ a.user_id = userId)
        if shippingAddress.isNone ∨ billingAddress.isNone then .error .addressNotFound
        else
          match validateLines cart_items 0 with
          | .error e => .error e
          | .ok subtotal =>
            let taxAmount : Int := 0
            let shippingCost : Int := 0
            let totalAmount := subtotal + taxAmount + shippingCost
            if totalAmount < 1 then .error .orderTotalTooSmall
            else
              let order : Order :=
                { id := db.nextOrderId, user_id := userId, order_number := env.orderNumber,
                  status := .pending, payment_status := .pending, payment_method := .paypal,
                  subtotal := subtotal, tax_amount := taxAmount,
                  shipping_cost := shippingCost, total_amount := totalAmount,
                  cancellation_reason := none, cancellation_notes := none,
                  cancelled_by := none, cancelled_at := none, created_at := env.now }
              let db1 := { db with orders := db.orders ++ [order] }
              let db2 :=
                { db1 with orderItems := db1.orderItems ++ orderItemsData order.id cart_items }
              match gateway.create with
              | none => .error .gatewayFailure
              | some paypalOrderId =>
                let payment : Payment :=
                  { order_id := order.id, payment_method := .paypal, amount := totalAmount,
                    status := .pending, payment_intent_id := none }
                let db3 := { db2 with payments := db2.payments ++ [payment] }
                .ok ({ orderId := order.id, orderNumber := order.order_number,
                       paypalOrderId := paypalOrderId, amount := totalAmount,
                       retrieved := false }, db3)

/-- Service `paypalPaymentService.createPaymentOrder`. -/
def createPaymentOrder (db : Db) (env : Env) (gateway : Gateway)
    (cartId shippingAddressId billingAddressId userId : Nat) : Outcome CreatedOrder :=
  transact db
    (createPaymentOrderBody db env gateway cartId shippingAddressId billingAddressId userId)

/-- Body of `refundPayment`. `refunded` tells whether the refund request of step 1
went through (it throws otherwise). The payment rows of step 2 are selected by
`order_id` and by `transaction_id`, a column `models/Payment.js` does not declare:
`hasCapture` says which rows the second condition lets through. -/
def refundPaymentBody (db : Db) (refunded : Bool) (hasCapture : Payment → Bool)
    (orderId : Nat) : Except Err (Unit × Db) :=
  if ¬ refunded then .error .gatewayFailure
  else
    let db1 : Db :=
      { db with
        payments := db.payments.map (fun p =>
          if p.order_id = orderId ∧ hasCapture p = true then
            { p with status := .refunded } else p) }
    let db2 := db1.updateOrders orderId
      (fun o => { o with payment_status := .refunded, status := .refunded })
    .ok ((), db2.incrementAll (db2.itemsOf orderId))

/-- Service `paypalPaymentService.refundPayment`. -/
def refundPayment (db : Db) (refunded : Bool) (hasCapture : Payment → Bool)
    (orderId : Nat) : Outcome Unit :=
  transact db (refundPaymentBody db refunded hasCapture orderId)

/-- The event types of `handleWebhook` that select payments by `transaction_id`. -/
inductive CaptureEvent
  | payment_capture_denied | payment_capture_failed | payment_capture_refunded
  deriving DecidableEq, Repr

/-- The branches `PAYMENT.CAPTURE.DENIED`, `PAYMENT.CAPTURE.FAILED` and
`PAYMENT.CAPTURE.REFUNDED` of `handleWebhook` outside `live`: one
`Payment.update({ status }, { where: { transaction_id } })`, with `hasCapture` as
in `refundPaymentBody`. -/
def handleCaptureStatusWebhook (db : Db) (event : CaptureEvent)
    (hasCapture : Payment → Bool) : Outcome Unit :=
  let status : PayStatus :=
    match event with
    | .payment_capture_denied => .failed
    | .payment_capture_failed => .failed
    | .payment_capture_refunded => .refunded
  ⟨.ok (),
    { db with
      payments := db.payments.map (fun p =>
        if hasCapture p = true then { p with status := status } else p) }⟩

end paypalPaymentService

/-! ## Settlement when a write of the store fails -/

/-- Run the writes of a service in order. With `fault = some k` the store throws
at write number `k` (counted from 0) and the writes before it have been made;
with `none` every write goes through. The result is the store reached and whether
a write threw. -/
def runWrites : List (Db → Db) → Option Nat → Db → Db × Bool
  | [], _, db => (db, false)
  | _ :: _, some 0, db => (db, true)
  | w :: ws, some (k + 1), db => runWrites ws (some k) (w db)
  | w :: ws, none, db => runWrites ws none (w db)

/-- The writes of the settlement transition, as all three copies of it make them:
one `Product.decrement` per order line, the order update, the payment update and
the deletion of the cart items of the user. -/
def settlementWrites (items : List OrderItem) (orderId userId : Nat) : List (Db → Db) :=
  items.map (fun orderItem db => db.decrementProduct orderItem.product_id orderItem.quantity) ++
    [fun db => db.updateOrders orderId
        (fun o => { o with status := .confirmed, payment_status := .paid }),
     fun db => db.updatePaymentsOf orderId (fun p => { p with status := .succeeded }),
     fun db => db.clearCartOfUser userId]

namespace stripePaymentService

/-- Function `completeOrderPayment` with a store that may throw: the store reached
and the error rethrown by its `catch`, if any. It opens no transaction of its own. -/
def completeOrderPaymentUnder (fault : Option Nat) (db : Db) (orderId : Nat) :
    Db × Option Err :=
  match db.findOrder orderId with
  | none => (db, some .orderCompletionFailed)
  | some order =>
    let reached := runWrites (settlementWrites (db.itemsOf orderId) orderId order.user_id) fault db
    (reached.1, if reached.2 then some .orderCompletionFailed else none)

/-- Body of `confirmPayment` with a store that may throw during the settlement. -/
def confirmPaymentBodyUnder (fault : Option Nat) (db : Db) (gateway : Option PaymentIntent)
    (orderId userId : Nat) : Except Err (Confirmation × Db) :=
  match db.findOrderOfUser orderId userId with
  | none => .error .orderNotFound
  | some order =>
    if order.payment_status ≠ .pending then .error (.paymentAlreadyProcessed order.payment_status)
    else
      match db.users.find? (fun u => u.id = userId) with
      | none => .error .userNotFound
      | some _ =>
        match gateway with
        | none => .error .gatewayFailure
        | some paymentIntent =>
          let db1 := db.updatePaymentsOf orderId
            (fun p => { p with payment_intent_id := some paymentIntent.id })
          match paymentIntent.status with
          | .succeeded =>
            match completeOrderPaymentUnder fault db1 orderId with
            | (_, some e) => .error e
            | (db2, none) => .ok (⟨order.id, .succeeded, paymentIntent.id, none⟩, db2)
          | .requires_action =>
            .ok (⟨order.id, .requires_action, paymentIntent.id,
                  some paymentIntent.client_secret⟩, db1)
          | .requires_confirmation =>
            .ok (⟨order.id, .requires_action, paymentIntent.id,
                  some paymentIntent.client_secret⟩, db1)
          | .processing =>
            let db2 := db1.updateOrders orderId (fun o => { o with payment_status := .processing })
            .ok (⟨order.id, .processing, paymentIntent.id, none⟩, db2)
          | .other => .error .paymentFailed

/-- Service `confirmPayment` with a store that may throw during the settlement:
the settlement runs inside the transaction of `confirmPayment`. -/
def confirmPaymentUnder (fault : Option Nat) (db : Db) (gateway : Option PaymentIntent)
    (orderId userId : Nat) : Outcome Confirmation :=
  transact db (confirmPaymentBodyUnder fault db gateway orderId userId)

/-- Body of `handle3DSecureAction` with a store that may throw during the
settlement. -/
def handle3DSecureActionBodyUnder (fault : Option Nat) (db : Db)
    (gateway : Option PaymentIntent) (orderId userId : Nat) : Except Err (Confirmation × Db) :=
  match db.findOrderOfUser orderId userId with
  | none => .error .orderNotFound
  | some order =>
    match gateway with
    | none => .error .gatewayFailure
    | some paymentIntent =>
      match paymentIntent.status with
      | .succeeded =>
        match completeOrderPaymentUnder fault db orderId with
        | (_, some e) => .error e
        | (db1, none) => .ok (⟨order.id, .succeeded, paymentIntent.id, none⟩, db1)
      | .processing =>
        let db1 := db.updateOrders orderId (fun o => { o with payment_status := .processing })
        .ok (⟨order.id, .processing, paymentIntent.id, none⟩, db1)
      | .requires_action =>
        .ok (⟨order.id, .requires_action, paymentIntent.id,
              some paymentIntent.client_secret⟩, db)
      | _ => .error .paymentFailed

/-- Service `handle3DSecureAction` with a store that may throw during the
settlement, which runs inside the transaction of the service. -/
def handle3DSecureActionUnder (fault : Option Nat) (db : Db) (gateway : Option PaymentIntent)
    (orderId userId : Nat) : Outcome Confirmation :=
  transact db (handle3DSecureActionBodyUnder fault db gateway orderId userId)

/-- Service `handleWebhook` with a store that may throw during the settlement:
`completeOrderPayment(orderId)` is called without a transaction, so the writes
made before the throw stay. -/
def handleWebhookUnder (fault : Option Nat) (db : Db) (event : Option Event) : Outcome Unit :=
  match event with
  | none => ⟨.error .webhookSignatureFailed, db⟩
  | some event =>
    match event.type, event.order_id with
    | .payment_intent_succeeded, some orderId =>
      match completeOrderPaymentUnder fault db orderId with
      | (db1, some e) => ⟨.error e, db1⟩
      | (db1, none) => ⟨.ok (), db1⟩
    | _, _ => handleWebhook db (some event)

end stripePaymentService

namespace paypalPaymentService

/-- Body of `capturePayPalOrderAndCreateOrder` with a store that may throw during
steps 5 to 8. -/
def capturePayPalOrderAndCreateOrderBodyUnder (fault : Option Nat) (db : Db)
    (gateway : Option CaptureResult) (orderId userId : Nat) : Except Err (Captured × Db) :=
  match db.findOrderOfUser orderId userId with
  | none => .error .orderNotFound
  | some order =>
    if order.payment_status ≠ .pending then .error (.paymentAlreadyProcessed order.payment_status)
    else
      match gateway with
      | none => .error .gatewayFailure
      | some captureResult =>
        if ¬ captureResult.completed then .error .captureNotCompleted
        else
          match captureResult.captureId with
          | none => .error .noCaptureFound
          | some captureId =>
            let reached := runWrites (settlementWrites (db.itemsOf orderId) orderId userId) fault db
            if reached.2 then .error .orderCompletionFailed
            else .ok (⟨order.id, captureId⟩, reached.1)

/-- Service `capturePayPalOrderAndCreateOrder` with a store that may throw during
steps 5 to 8: the transaction is rolled back and the `catch` marks the order. -/
def capturePayPalOrderAndCreateOrderUnder (fault : Option Nat) (db : Db)
    (gateway : Option CaptureResult) (orderId userId : Nat) : Outcome Captured :=
  match capturePayPalOrderAndCreateOrderBodyUnder fault db gateway orderId userId with
  | .ok (r, db') => ⟨.ok r, db'⟩
  | .error e => ⟨.error e, markCaptureFailed db orderId⟩

/-- Service `completeOrderPayment` with a store that may throw: the settlement
runs inside the transaction the function opens. -/
def completeOrderPaymentUnder (fault : Option Nat) (db : Db) (orderId : Nat) : Outcome Unit :=
  transact db
    (match db.findOrder orderId with
     | none => .error .orderCompletionFailed
     | some order =>
       let reached :=
         runWrites (settlementWrites (db.itemsOf orderId) orderId order.user_id) fault db
       if reached.2 then .error .orderCompletionFailed else .ok ((), reached.1))

/-- Service `handleWebhook` with a store that may throw during the settlement. -/
def handleWebhookUnder (fault : Option Nat) (db : Db) (environment : Environment)
    (event : Event) : Outcome Unit :=
  if environment = .live then ⟨.error .webhookSignatureFailed, db⟩
  else
    match event with
    | .payment_capture_completed (some orderId) =>
      let settled := completeOrderPaymentUnder fault db orderId
      match settled.result with
      | .ok _ => ⟨.ok (), settled.db⟩
      | .error e => ⟨.error e, settled.db⟩
    | _ => handleWebhook db environment event

end paypalPaymentService

/-! ## Sequences of operations -/

/-- One call of a service of the core, with its arguments and the answers it gets
from the gateways. -/
inductive Op
  | createOrder (env : Env) (orderData : orderService.OrderData)
  | updateOrderStatus (orderId : Nat) (status : OrderStatus)
  | updatePaymentStatus (orderId : Nat) (paymentStatus : PayStatus)
  | cancelOrder (now orderId userId : Nat) (userRole : Role) (reason notes : String)
  | stripeCreatePaymentOrder (env : Env) (cartId shippingAddressId billingAddressId userId : Nat)
  | stripeConfirmPayment (gateway : Option stripePaymentService.PaymentIntent)
      (orderId userId : Nat)
  | stripeHandle3DSecureAction (gateway : Option stripePaymentService.PaymentIntent)
      (orderId userId : Nat)
  | stripeHandleWebhook (event : Option stripePaymentService.Event)
  | paypalCreatePaymentOrder (env : Env) (gateway : paypalPaymentService.Gateway)
      (cartId shippingAddressId billingAddressId userId : Nat)
  | paypalCapture (gateway : Option paypalPaymentService.CaptureResult) (orderId userId : Nat)
  | paypalHandleWebhook (environment : paypalPaymentService.Environment)
      (event : paypalPaymentService.Event)
  | paypalCaptureStatusWebhook (event : paypalPaymentService.CaptureEvent)
      (hasCapture : Payment → Bool)
  | paypalRefundPayment (refunded : Bool) (hasCapture : Payment → Bool) (orderId : Nat)

/-- The store an operation leaves behind. -/
def Op.run : Op → Db → Db
  | .createOrder env orderData, db => (orderService.createOrder db env orderData).db
  | .updateOrderStatus orderId status, db => (orderService.updateOrderStatus db orderId status).db
  | .updatePaymentStatus orderId paymentStatus, db =>
    (orderService.updatePaymentStatus db orderId paymentStatus).db
  | .cancelOrder now orderId userId userRole reason notes, db =>
    (orderService.cancelOrder db now orderId userId userRole reason notes).db
  | .stripeCreatePaymentOrder env cartId shippingAddressId billingAddressId userId, db =>
    (stripePaymentService.createPaymentOrder db env cartId shippingAddressId billingAddressId
      userId).db
  | .stripeConfirmPayment gateway orderId userId, db =>
    (stripePaymentService.confirmPayment db gateway orderId userId).db
  | .stripeHandle3DSecureAction gateway orderId userId, db =>
    (stripePaymentService.handle3DSecureAction db gateway orderId userId).db
  | .stripeHandleWebhook event, db => (stripePaymentService.handleWebhook db event).db
  | .paypalCreatePaymentOrder env gateway cartId shippingAddressId billingAddressId userId, db =>
    (paypalPaymentService.createPaymentOrder db env gateway cartId shippingAddressId
      billingAddressId userId).db
  | .paypalCapture gateway orderId userId, db =>
    (paypalPaymentService.capturePayPalOrderAndCreateOrder db gateway orderId userId).db
  | .paypalHandleWebhook environment event, db =>
    (paypalPaymentService.handleWebhook db environment event).db
  | .paypalCaptureStatusWebhook event hasCapture, db =>
    (paypalPaymentService.handleCaptureStatusWebhook db event hasCapture).db
  | .paypalRefundPayment refunded hasCapture orderId, db =>
    (paypalPaymentService.refundPayment db refunded hasCapture orderId).db

/-- The store after a sequence of operations, first operation first. -/
def runAll (ops : List Op) (db : Db) : Db :=
  ops.foldl (fun acc op => op.run acc) db

/-- The three operations that create an order. -/
def Op.creates : Op → Bool
  | .createOrder _ _ => true
  | .stripeCreatePaymentOrder _ _ _ _ _ => true
  | .paypalCreatePaymentOrder _ _ _ _ _ _ => true
  | _ => false

/-- The four amounts of an order. -/
def Order.amounts (o : Order) : Int × Int × Int × Int :=
  (o.subtotal, o.tax_amount, o.shipping_cost, o.total_amount)

/-- The equation `total_amount = subtotal + tax_amount + shipping_cost` on every
stored order. -/
def Db.totalsAddUp (db : Db) : Prop :=
  ∀ o ∈ db.orders, o.total_amount = o.subtotal + o.tax_amount + o.shipping_cost

/-- Key and amounts of every stored order, in table order. -/
def Db.orderAmounts (db : Db) : List (Nat × Int × Int × Int × Int) :=
  db.orders.map (fun o => (o.id, o.amounts))

/-- Status of every stored payment, in table order. -/
def Db.paymentStatuses (db : Db) : List PayStatus :=
  db.payments.map (fun p => p.status)

/-- A payment status is left as it is or overwritten with succeeded, failed or
refunded. -/
def statusAdvances (before after : PayStatus) : Prop :=
  after = before ∨ after = .succeeded ∨ after = .failed ∨ after = .refunded

/-- Between two stores the orders keep key and amounts, row by row, and every
payment row keeps its status or gets succeeded, failed or refunded. -/
def Db.Keeps (db db' : Db) : Prop :=
  db'.orderAmounts = db.orderAmounts ∧
    List.Forall₂ statusAdvances db.paymentStatuses db'.paymentStatuses

/-- The operation `updatePaymentStatus`. -/
def Op.isUpdatePaymentStatus : Op → Bool
  | .updatePaymentStatus _ _ => true
  | _ => false

/-! ## Payment status moving forward -/


/-- The changes of a payment status that the specification allows: none, pending
to succeeded, pending to failed, succeeded to refunded. -/
def statusForward (before after : PayStatus) : Prop :=
  after = before ∨ (before = .pending ∧ after = .succeeded) ∨
    (before = .pending ∧ after = .failed) ∨ (before = .succeeded ∧ after = .refunded)

/-- Between two stores every payment row that was there kept its status or moved
forward, and the rows added are pending. -/
def Db.paymentsForward (db db' : Db) : Prop :=
  ∃ kept added, db'.paymentStatuses = kept ++ added ∧
    List.Forall₂ statusForward db.paymentStatuses kept ∧ ∀ s ∈ added, s = PayStatus.pending

/-- Payments follow their orders: the payments of an order whose payment_status is
pending are pending, and every payment belongs to a stored order. -/
def Db.paymentsFollowOrders (db : Db) : Prop :=
  (∀ o ∈ db.orders, o.payment_status = .pending →
    ∀ p ∈ db.payments, p.order_id = o.id → p.status = .pending) ∧
  (∀ p ∈ db.payments, ∃ o ∈ db.orders, o.id = p.order_id)

instance (db : Db) : Decidable db.paymentsFollowOrders := by
  unfold Db.paymentsFollowOrders
  infer_instance

/-- The calls that look at the order before they write a payment status: the three
creation paths, `updateOrderStatus`, `cancelOrder` and `confirmPayment`; a PayPal
capture that passes its own checks (the order is the caller's and its
payment_status is pending); a refund whose payments, the rows of the order that
carry the capture, are succeeded. The webhook handlers, `handle3DSecureAction`
and `updatePaymentStatus` write without such a look. -/
def Op.checksOrderFirst (db : Db) : Op → Bool
  | .createOrder _ _ => true
  | .stripeCreatePaymentOrder _ _ _ _ _ => true
  | .paypalCreatePaymentOrder _ _ _ _ _ _ => true
  | .updateOrderStatus _ _ => true
  | .cancelOrder _ _ _ _ _ _ => true
  | .stripeConfirmPayment _ _ _ => true
  | .paypalCapture _ orderId userId =>
    match db.findOrderOfUser orderId userId with
    | some order => order.payment_status = .pending
    | none => false
  | .paypalRefundPayment _ hasCapture orderId =>
    db.payments.all (fun p =>
      !(decide (p.order_id = orderId) && hasCapture p) || decide (p.status = .succeeded))
  | .updatePaymentStatus _ _ => false
  | .stripeHandle3DSecureAction _ _ _ => false
  | .stripeHandleWebhook _ => false
  | .paypalHandleWebhook _ _ => false
  | .paypalCaptureStatusWebhook _ _ => false

/-- Every call of a sequence looks at the order first, in the store it runs on. -/
def checkedAlong : List Op → Db → Bool
  | [], _ => true
  | op :: rest, db => op.checksOrderFirst db && checkedAlong rest (op.run db)

/-- Every call of a sequence moves the payments of the store it runs on forward. -/
def stepsForward : List Op → Db → Prop
  | [], _ => True
  | op :: rest, db => db.paymentsForward (op.run db) ∧ stepsForward rest (op.run db)

/-! ## Cart service (src/services/cart.js) -/

namespace cartService

/-- Method `getCart`: `Cart.findOne({ where: { user_id } })`. -/
def getCart (db : Db) (userId : Nat) : Option Cart :=
  db.carts.find? (fun c => c.user_id = userId)

/-- Auto-increment key of the next `Cart.create`. -/
def nextCartId (db : Db) : Nat :=
  (db.carts.map (fun c => c.id)).foldl max 0 + 1

/-- Auto-increment key of the next `CartItem` row. -/
def nextCartItemId (db : Db) : Nat :=
  (db.cartItems.map (fun ci => ci.id)).foldl max 0 + 1

/-- Method `getOrCreateCart`: the cart of the user, created when there is none. -/
def getOrCreateCart (db : Db) (userId : Nat) : Cart × Db :=
  match getCart db userId with
  | some cart => (cart, db)
  | none =>
    let cart : Cart := { id := nextCartId db, user_id := userId }
    (cart, { db with carts := db.carts ++ [cart] })

/-- Query of `addItem` and `updateItemQuantity`:
`Product.findOne({ where: { id, status: 'active', quantity: { [Op.gte]: quantity } } })`. -/
def availableProduct (db : Db) (productId : Nat) (quantity : Int) : Option Product :=
  db.products.find? (fun p => p.id = productId ∧ p.status = .active ∧ quantity ≤ p.quantity)

/-- Query `CartItem.findOne({ where: { cart_id, product_id } })`, also the lookup of
`CartItem.findOrCreate`. -/
def findItem (db : Db) (cartId productId : Nat) : Option CartItem :=
  db.cartItems.find? (fun ci => ci.cart_id = cartId ∧ ci.product_id = productId)

/-- Statement `cartItem.quantity = q; await cartItem.save()`: an update by key. -/
def saveQuantity (db : Db) (cartItem : CartItem) (q : Int) : Db :=
  { db with
    cartItems := db.cartItems.map
                   (fun ci => if ci.id = cartItem.id then { ci with quantity := q } else ci) }

/-- Method `addItem(userId, productId, quantity = 1)`. It opens no transaction: a
cart made by `getOrCreateCart` stays when a later step throws. `quantity` is
compared with the stock only: no step compares it with 1. -/
def addItem (db : Db) (userId productId : Nat) (quantity : Int) : Outcome Unit :=
  let (cart, db1) := getOrCreateCart db userId
  match availableProduct db1 productId quantity with
  | none => ⟨.error .productUnavailable, db1⟩
  | some product =>
    match findItem db1 cart.id productId with
    | none =>
      ⟨.ok (),
        { db1 with
          cartItems := db1.cartItems ++
            [{ id := nextCartItemId db1, cart_id := cart.id, product_id := productId,
               quantity := quantity }] }⟩
    | some cartItem =>
      let newQuantity := cartItem.quantity + quantity
      if newQuantity > product.quantity then
        ⟨.error (.insufficientStock product.id product.quantity newQuantity), db1⟩
      else ⟨.ok (), saveQuantity db1 cartItem newQuantity⟩

/-- Method `removeItem`: `CartItem.destroy({ where: { cart_id, product_id } })`. -/
def removeItem (db : Db) (userId productId : Nat) : Outcome Unit :=
  match getCart db userId with
  | none => ⟨.error .cartNotFound, db⟩
  | some cart =>
    ⟨.ok (),
      { db with
        cartItems := db.cartItems.filter
                       (fun ci => ¬ (ci.cart_id = cart.id ∧ ci.product_id = productId)) }⟩

/-- Method `updateItemQuantity`: a quantity below 1 removes the item. -/
def updateItemQuantity (db : Db) (userId productId : Nat) (quantity : Int) : Outcome Unit :=
  match getCart db userId with
  | none => ⟨.error .cartNotFound, db⟩
  | some cart =>
    if quantity < 1 then removeItem db userId productId
    else
      match availableProduct db productId quantity with
      | none => ⟨.error .productUnavailable, db⟩
      | some _ =>
        match findItem db cart.id productId with
        | none => ⟨.error .itemNotInCart, db⟩
        | some cartItem => ⟨.ok (), saveQuantity db cartItem quantity⟩

/-- Method `clearCart`: `CartItem.destroy({ where: { cart_id } })`. -/
def clearCart (db : Db) (userId : Nat) : Outcome Unit :=
  match getCart db userId with
  | none => ⟨.error .cartNotFound, db⟩
  | some cart => ⟨.ok (), db.destroyCartItems cart.id⟩

end cartService

/-! ## Webhook requests -/

namespace stripePaymentService

/-- What `handleWebhook` reads of a request: whether the `stripe-signature` header
verifies against the body, and the event the body carries. -/
structure Request where
  signatureVerifies : Bool
  event : Event
  deriving DecidableEq, Repr

/-- Call `stripe.webhooks.constructEvent(req.body, sig, secret)`: the event when
the signature verifies; it throws otherwise. -/
def constructEvent (req : Request) : Option Event :=
  if req.signatureVerifies then some req.event else none

end stripePaymentService

namespace paypalPaymentService

/-- Body of a PayPal webhook request, by the branch of `handleWebhook` that its
`event_type` selects. -/
inductive Body
  | order (event : Event)
  | capture (event : CaptureEvent) (hasCapture : Payment → Bool)

/-- What reaches `handleWebhook(req)`: whether the signature headers of the request
verify, and the body. -/
structure Request where
  signatureVerifies : Bool
  body : Body

/-- Service `paypalPaymentService.handleWebhook(req)` on a whole request. The
headers are passed to `paypalService.verifyWebhookSignature` only, and only when
the environment is `live`; class `PayPalService` defines no such method, so in
`live` the call throws whatever the headers are, and elsewhere the headers are
not read. -/
def handleWebhookRequest (db : Db) (environment : Environment) (req : Request) :
    Outcome Unit :=
  if environment = .live then ⟨.error .webhookSignatureFailed, db⟩
  else
    match req.body with
    | .order event => handleWebhook db environment event
    | .capture event hasCapture => handleCaptureStatusWebhook db event hasCapture

end paypalPaymentService

/-! ## Controllers (src/controllers, src/app.js) -/

/-- What an endpoint answers: the HTTP status, and the store it leaves behind. -/
structure Response where
  status : Nat
  db : Db

/-- Middleware `authenticate` in front of a router, as in
`app.use('/api/payments', authenticate, paymentRoutes)`: without a bearer token
that verifies it answers 401 and the handler is not run. -/
def authenticate (bearerVerifies : Bool) (db : Db) (handler : Response) : Response :=
  if bearerVerifies then handler else ⟨401, db⟩

namespace orderController

/-- The `try`/`catch` of `createOrder` around the service call: 201 with the
result, 400 with the message of whatever was thrown. -/
def respond (called : Outcome orderService.Created) : Response :=
  match called.result with
  | .ok _ => ⟨201, called.db⟩
  | .error _ => ⟨400, called.db⟩

/-- Handler `createOrder` of `controllers/order.js`: 400 when the validators
reported errors, else the service is called with `user_id` of the caller. -/
def createOrder (db : Db) (env : Env) (validationFailed : Bool)
    (orderData : orderService.OrderData) : Response :=
  if validationFailed then ⟨400, db⟩
  else respond (orderService.createOrder db env orderData)

end orderController

namespace stripePaymentController

/-- The `try`/`catch` of `handleWebhook` in `controllers/stripe-payment.js`: 200
with the result, 400 with the message of whatever was thrown. -/
def respond (called : Outcome Unit) : Response :=
  match called.result with
  | .ok _ => ⟨200, called.db⟩
  | .error _ => ⟨400, called.db⟩

/-- Handler `handleWebhook` of `controllers/stripe-payment.js`, with a store that
may throw during the settlement. -/
def handleWebhook (fault : Option Nat) (db : Db) (req : stripePaymentService.Request) :
    Response :=
  respond (stripePaymentService.handleWebhookUnder fault db
    (stripePaymentService.constructEvent req))

end stripePaymentController

namespace paypalPaymentController

/-- The `try`/`catch` of `handlePayPalWebhook`: 200 with the result, and 200 with
"Webhook received but could not process" for whatever was thrown. -/
def respond (called : Outcome Unit) : Response :=
  match called.result with
  | .ok _ => ⟨200, called.db⟩
  | .error _ => ⟨200, called.db⟩

/-- Handler `handlePayPalWebhook` of `controllers/paypal-payment.js`. -/
def handlePayPalWebhook (db : Db) (environment : paypalPaymentService.Environment)
    (req : paypalPaymentService.Request) : Response :=
  respond (paypalPaymentService.handleWebhookRequest db environment req)

end paypalPaymentController

/-! ## Two calls of `createOrder` at the same time -/

namespace orderService

/-- Steps 1 to 4 of `createOrder`: the reads (cart with its lines and their
products, address) and the validation loop over what was read. Nothing is
written. -/
def createOrderReads (db : Db) (orderData : OrderData) : Except Err (Int × List OrderItem) :=
  if orderData.user_id = 0 then .error .userIdRequired
  else if orderData.cart_id = 0 then .error .cartIdRequired
  else if orderData.address_id = 0 then .error .addressIdRequired
  else
    match db.carts.find? (fun c => c.id = orderData.cart_id ∧ c.user_id = orderData.user_id) with
    | none => .error .cartNotFound
    | some cart =>
      let cart_items := db.cartLines cart.id
      if cart_items.length = 0 then .error .cartEmpty
      else
        match db.addresses.find?
            (fun a => a.id = orderData.address_id ∧ a.user_id = orderData.user_id) with
        | none => .error .addressNotFound
        | some _ => validateLines cart_items 0 []

/-- Steps 5 to 9 of `createOrder` and the commit: the order, its lines, one
`Product.decrement` per line, the payment and the deletion of the cart items,
made from `subtotal` and `orderItemsData` as step 4 left them. No step reads a
product again. -/
def createOrderWrites (db : Db) (env : Env) (orderData : OrderData) (subtotal : Int)
    (orderItemsData : List OrderItem) : Created × Db :=
  let taxAmount : Int := 0
  let shippingCost : Int := 0
  let totalAmount := subtotal + taxAmount + shippingCost
  let order : Order :=
    { id := db.nextOrderId, user_id := orderData.user_id,
      order_number := env.orderNumber, status := .pending,
      payment_status := .pending, payment_method := orderData.payment_method,
      subtotal := subtotal, tax_amount := taxAmount, shipping_cost := shippingCost,
      total_amount := totalAmount, cancellation_reason := none,
      cancellation_notes := none, cancelled_by := none, cancelled_at := none,
      created_at := env.now }
  let db1 := { db with orders := db.orders ++ [order] }
  let orderItemsWithOrderId :=
    orderItemsData.map (fun item => { item with order_id := order.id })
  let db2 := { db1 with orderItems := db1.orderItems ++ orderItemsWithOrderId }
  let db3 := db2.decrementAll orderItemsData
  let payment : Payment :=
    { order_id := order.id, payment_method := orderData.payment_method,
      amount := totalAmount, status := .pending, payment_intent_id := none }
  let db4 := { db3 with payments := db3.payments ++ [payment] }
  let db5 := db4.destroyCartItems orderData.cart_id
  ({ orderId := order.id, orderNumber := order.order_number, amount := totalAmount }, db5)

/-- How far a call of `createOrder` has come. -/
inductive Progress
  | started
  | validated (subtotal : Int) (orderItemsData : List OrderItem)
  | returned (result : Except Err Created)
  deriving Repr

/-- One move of a call of `createOrder` on the committed store: first its reads
and the validation, then its writes and the commit. The transaction is opened
with no isolation level and no query takes a lock, so the writes of another call
may be committed between the two moves. -/
def Progress.step (env : Env) (orderData : OrderData) : Progress → Db → Progress × Db
  | .started, db =>
    match createOrderReads db orderData with
    | .error e => (.returned (.error e), db)
    | .ok (subtotal, orderItemsData) => (.validated subtotal orderItemsData, db)
  | .validated subtotal orderItemsData, db =>
    let written := createOrderWrites db env orderData subtotal orderItemsData
    (.returned (.ok written.1), written.2)
  | .returned result, db => (.returned result, db)

/-- Two calls of `createOrder` under way and the committed store. -/
structure Race where
  first : Progress
  second : Progress
  db : Db
  deriving Repr

/-- Run two calls of `createOrder` in the order given by `turns`: `true` moves the
first call, `false` the second. -/
def race (envA : Env) (a : OrderData) (envB : Env) (b : OrderData) (turns : List Bool)
    (db : Db) : Race :=
  turns.foldl
    (fun s turn =>
      if turn then
        let moved := s.first.step envA a s.db
        { s with first := moved.1, db := moved.2 }
      else
        let moved := s.second.step envB b s.db
        { s with second := moved.1, db := moved.2 })
    { first := .started, second := .started, db := db }

end orderService

/-! ## Vocabulary of the properties -/

/-- Total quantity that a list of (product id, quantity) lines asks of a product. -/
def qtyOf (lines : List (Nat × Int)) (productId : Nat) : Int :=
  ((lines.filter (fun x => x.1 = productId)).map Prod.snd).sum

/-- Total quantity of a product over a list of order lines. -/
def itemQty (items : List OrderItem) (productId : Nat) : Int :=
  qtyOf (items.map (fun i => (i.product_id, i.quantity))) productId

/-- Total quantity of a product over the lines of a cart. -/
def Db.cartQty (db : Db) (cartId productId : Nat) : Int :=
  qtyOf ((db.cartItemsOf cartId).map (fun ci => (ci.product_id, ci.quantity))) productId

/-- A cart line that asks for more than the stock of its product. -/
def overStock (line : CartItem × Option Product) : Bool :=
  match line.2 with
  | some product => decide (product.quantity < line.1.quantity)
  | none => false

/-- A cart line whose product exists and is active. -/
def activeLine (line : CartItem × Option Product) : Bool :=
  match line.2 with
  | some product => decide (product.status = .active)
  | none => false

/-- True for the insufficient-stock error only. -/
def Err.isInsufficientStock : Err → Bool
  | .insufficientStock _ _ _ => true
  | _ => false

/-- The call threw, with an error of the given kind. -/
def Outcome.failedWith {α : Type} (o : Outcome α) (kind : Err → Bool) : Bool :=
  match o.result with
  | .ok _ => false
  | .error e => kind e

/-- The transition table as section 4.3 of the specification words it. -/
def specTransitions : List (OrderStatus × OrderStatus) :=
  [(.pending, .confirmed), (.pending, .cancelled), (.confirmed, .processing),
   (.confirmed, .cancelled), (.processing, .shipped), (.processing, .cancelled),
   (.shipped, .delivered), (.delivered, .refunded)]

/-- Foreign key of `order_items.order_id`: every line belongs to a stored order. -/
def Db.itemsHaveOrders (db : Db) : Prop :=
  ∀ i ∈ db.orderItems, ∃ o ∈ db.orders, o.id = i.order_id

/-- Primary key of `orders`: no two stored orders share an id. -/
def Db.orderKeysUnique (db : Db) : Prop :=
  db.orders.Pairwise (fun a b => a.id ≠ b.id)

/-! ## Scenarios -/

namespace Scenario

/-- Clock and order number used in the scenarios. -/
def env : Env := { now := 7, orderNumber := 1001 }

/-- Section 8: a cart with 2 x product A (10.00, stock 5) and 1 x product B
(25.00, stock 1), amounts in cents. User 1 owns cart 1 and address 1. -/
def shop : Db :=
  { users := [{ id := 1 }],
    products := [{ id := 1, status := .active, quantity := 5, price := 1000, online_price := 1000 },
                 { id := 2, status := .active, quantity := 1, price := 2500, online_price := 2500 }],
    carts := [{ id := 1, user_id := 1 }],
    cartItems := [{ id := 1, cart_id := 1, product_id := 1, quantity := 2 },
                  { id := 2, cart_id := 1, product_id := 2, quantity := 1 }],
    addresses := [{ id := 1, user_id := 1 }],
    orders := [], orderItems := [], payments := [] }

/-- The cash-on-delivery request of user 1 for cart 1. -/
def codRequest : orderService.OrderData := { user_id := 1, cart_id := 1, address_id := 1 }

/-- Store after the cash-on-delivery order of `codRequest` on `shop`. -/
def afterCod : Db := (orderService.createOrder shop env codRequest).db

/-- Store after `createPaymentOrder` of the Stripe service on `shop`: order 1 is
pending, nothing has been taken from stock. -/
def stripePending : Db := (stripePaymentService.createPaymentOrder shop env 1 1 1 1).db

/-- A pending PayPal order 1 of user 1 for the cart of `shop`, as step 6 to 10 of
the PayPal `createPaymentOrder` write it: order, lines and payment pending, stock
and cart untouched. -/
def paypalPending : Db :=
  { shop with
    orders := [{ id := 1, user_id := 1, order_number := 1001, status := .pending,
                 payment_status := .pending, payment_method := .paypal, subtotal := 4500,
                 tax_amount := 0, shipping_cost := 0, total_amount := 4500,
                 cancellation_reason := none, cancellation_notes := none,
                 cancelled_by := none, cancelled_at := none, created_at := 7 }]
    orderItems := [{ order_id := 1, product_id := 1, quantity := 2, unit_price := 1000,
                     total_price := 2000 },
                   { order_id := 1, product_id := 2, quantity := 1, unit_price := 2500,
                     total_price := 2500 }]
    payments := [{ order_id := 1, payment_method := .paypal, amount := 4500,
                   status := .pending, payment_intent_id := none }] }

/-- Store after the synchronous capture settled order 1 of `paypalPending`. -/
def paypalCaptured : Db :=
  (paypalPaymentService.capturePayPalOrderAndCreateOrder paypalPending
    (some { completed := true, captureId := some 55 }) 1 1).db

/-- One unit of product 1 is left; users 1 and 2 each hold it in their cart. -/
def lastUnit : Db :=
  { users := [{ id := 1 }, { id := 2 }],
    products := [{ id := 1, status := .active, quantity := 1, price := 1000, online_price := 1000 }],
    carts := [{ id := 1, user_id := 1 }, { id := 2, user_id := 2 }],
    cartItems := [{ id := 1, cart_id := 1, product_id := 1, quantity := 1 },
                  { id := 2, cart_id := 2, product_id := 1, quantity := 1 }],
    addresses := [{ id := 1, user_id := 1 }, { id := 2, user_id := 2 }],
    orders := [], orderItems := [], payments := [] }

/-- Both users create a card order for the last unit: orders 1 and 2. -/
def lastUnitOrdered : Db :=
  (stripePaymentService.createPaymentOrder
    (stripePaymentService.createPaymentOrder lastUnit env 1 1 1 1).db env 2 2 2 2).db

/-- Both card orders are confirmed, the gateway answering `succeeded` each time. -/
def lastUnitConfirmed : Db :=
  (stripePaymentService.confirmPayment
    (stripePaymentService.confirmPayment lastUnitOrdered
      (some { id := 101, status := .succeeded }) 1 1).db
    (some { id := 102, status := .succeeded }) 2 2).db

/-- Product 1 is inactive and sits first in the cart; the second line asks for 5
units of product 2, of which 1 is in stock. -/
def inactiveFirst : Db :=
  { users := [{ id := 1 }],
    products := [{ id := 1, status := .inactive, quantity := 5, price := 1000, online_price := 1000 },
                 { id := 2, status := .active, quantity := 1, price := 2500, online_price := 2500 }],
    carts := [{ id := 1, user_id := 1 }],
    cartItems := [{ id := 1, cart_id := 1, product_id := 1, quantity := 2 },
                  { id := 2, cart_id := 1, product_id := 2, quantity := 5 }],
    addresses := [{ id := 1, user_id := 1 }],
    orders := [], orderItems := [], payments := [] }

/-- The cart of `shop` with the second line asking for 5 units of product 2. -/
def overAsked : Db :=
  { shop with
    cartItems := [{ id := 1, cart_id := 1, product_id := 1, quantity := 2 },
                  { id := 2, cart_id := 1, product_id := 2, quantity := 5 }] }

/-- The pending PayPal order 1 cancelled by its owner before any capture. -/
def paypalCancelled : Db :=
  (orderService.cancelOrder paypalPending 9 1 1 .customer "changed my mind" "").db

/-- The pending Stripe order 1 cancelled by its owner before any confirmation. -/
def stripeCancelled : Db :=
  (orderService.cancelOrder stripePending 9 1 1 .customer "changed my mind" "").db

/-- The captured PayPal order 1 taken through processing, shipped, delivered and
refunded by `updateOrderStatus`. -/
def paypalRefunded : Db :=
  [OrderStatus.processing, .shipped, .delivered, .refunded].foldl
    (fun db status => (orderService.updateOrderStatus db 1 status).db) paypalCaptured

/-- Order 1 as `afterCod` stores it. -/
def codOrder : Order :=
  { id := 1, user_id := 1, order_number := 1001, status := .pending,
    payment_status := .pending, payment_method := .cash_on_delivery, subtotal := 4500,
    tax_amount := 0, shipping_cost := 0, total_amount := 4500,
    cancellation_reason := none, cancellation_notes := none,
    cancelled_by := none, cancelled_at := none, created_at := 7 }

/-- Order 1 of `afterCod` taken through confirmed, processing, shipped and delivered
by `updateOrderStatus`. -/
def codDelivered : Db :=
  [OrderStatus.confirmed, .processing, .shipped, .delivered].foldl
    (fun db status => (orderService.updateOrderStatus db 1 status).db) afterCod

/-- Order 1 as `codDelivered` stores it: delivered, and paid on delivery. -/
def codDeliveredOrder : Order :=
  { codOrder with status := .delivered, payment_status := .paid }

/-- Order 1 as `stripePending` stores it. -/
def stripeOrder : Order := { codOrder with payment_method := .stripe }

/-- Order 1 as `paypalPending` stores it. -/
def paypalOrder : Order := { codOrder with payment_method := .paypal }

/-- The Stripe gateway asks for 3-D Secure on payment intent 101. -/
def intentRequiresAction : stripePaymentService.PaymentIntent :=
  { id := 101, status := .requires_action, client_secret := 77 }

/-- A PayPal gateway that knows no earlier remote order and creates order 9001. -/
def paypalGateway : paypalPaymentService.Gateway :=
  { paypal_order_id := fun _ => none, lookup := none, create := some 9001 }

/-- Order 1 of `afterCod` taken through confirmed, processing and shipped. -/
def codShipped : Db :=
  [OrderStatus.confirmed, .processing, .shipped].foldl
    (fun db status => (orderService.updateOrderStatus db 1 status).db) afterCod

/-- The captured PayPal order 1 taken through processing and shipped. -/
def paypalShipped : Db :=
  [OrderStatus.processing, .shipped].foldl
    (fun db status => (orderService.updateOrderStatus db 1 status).db) paypalCaptured

/-- A successful capture answer of the PayPal gateway. -/
def captureCompleted : Option paypalPaymentService.CaptureResult :=
  some { completed := true, captureId := some 55 }

/-- The Stripe gateway answers with payment intent 101 in status `succeeded`. -/
def intent : Option stripePaymentService.PaymentIntent :=
  some { id := 101, status := .succeeded }

/-- The verified Stripe event `payment_intent.succeeded` for order 1. -/
def intentSucceeded : Option stripePaymentService.Event :=
  some { type := .payment_intent_succeeded, paymentIntentId := 101, order_id := some 1 }

/-- The pending PayPal order 1 after a capture during which the gateway threw:
order cancelled with payment_status failed, payment failed. -/
def paypalCaptureFailed : Db :=
  (paypalPaymentService.capturePayPalOrderAndCreateOrder paypalPending none 1 1).db

/-- The captured PayPal order 1 refunded through `refundPayment`: order and payment
refunded. -/
def paypalRefundPaid : Db :=
  (paypalPaymentService.refundPayment paypalCaptured true (fun _ => true) 1).db

/-- A cash-on-delivery order is created, confirmed, marked paid and cancelled. -/
def codLife : List Op :=
  [.createOrder env codRequest, .updateOrderStatus 1 .confirmed, .updatePaymentStatus 1 .paid,
   .cancelOrder 9 1 1 .customer "" ""]

/-- A PayPal order is created, captured and refunded. -/
def paypalLife : List Op :=
  [.paypalCreatePaymentOrder env paypalGateway 1 1 1 1, .paypalCapture captureCompleted 1 1,
   .paypalRefundPayment true (fun _ => true) 1]

/-- The store of section 8 with the cart of user 1 emptied. -/
def emptyCart : Db := { shop with cartItems := [] }

/-- User 1 adds product 1 to the empty cart with quantity -3. -/
def negativeLine : Db := (cartService.addItem emptyCart 1 1 (-3)).db

/-- The pending PayPal order 1 of user 1, created at 7 ms, looked at one minute
later: the remote order is still `CREATED` and the gateway would create remote
order 9002. The read of `payment.paypal_order_id` gives nothing, the attribute
not being declared in `models/Payment.js`. -/
def oneMinuteLater : Env := { now := 60007, orderNumber := 1002 }

/-- The gateway of `oneMinuteLater`. -/
def remoteStillCreated : paypalPaymentService.Gateway :=
  { paypal_order_id := fun _ => none, lookup := some .created, create := some 9002 }

/-- Clock and order number of the second of two concurrent requests. -/
def env2 : Env := { now := 7, orderNumber := 1002 }

/-- The cash-on-delivery request of user 2 for cart 2. -/
def codRequest2 : orderService.OrderData := { user_id := 2, cart_id := 2, address_id := 2 }

/-- The first card order of `lastUnitOrdered` confirmed with payment intent 101. -/
def firstConfirmed : Db :=
  (stripePaymentService.confirmPayment lastUnitOrdered
    (some { id := 101, status := .succeeded }) 1 1).db

/-- One product at 1.10 with 5 in stock; the cart of user 1 holds 3 of it. -/
def threeAtOneTen : Db :=
  { users := [{ id := 1 }],
    products := [{ id := 1, status := .active, quantity := 5, price := 110, online_price := 110 }],
    carts := [{ id := 1, user_id := 1 }],
    cartItems := [{ id := 1, cart_id := 1, product_id := 1, quantity := 3 }],
    addresses := [{ id := 1, user_id := 1 }],
    orders := [], orderItems := [], payments := [] }

end Scenario

/-! ## Lemmas on the store primitives -/

theorem Db.decrementAll_cons (db : Db) (it : OrderItem) (rest : List OrderItem) :
    db.decrementAll (it :: rest) =
      (db.decrementProduct it.product_id it.quantity).decrementAll rest := rfl

theorem Db.incrementAll_cons (db : Db) (it : OrderItem) (rest : List OrderItem) :
    db.incrementAll (it :: rest) =
      (db.incrementProduct it.product_id it.quantity).incrementAll rest := rfl

/-- The decrement loop touches `products` only, and takes from every product the
total quantity of the lines that name it. -/
theorem Db.decrementAll_eq (items : List OrderItem) (db : Db) :
    db.decrementAll items =
      { db with
        products := db.products.map
                      (fun p => { p with quantity := p.quantity - itemQty items p.id }) } := by
  induction items generalizing db with
  | nil =>
    simp [Db.decrementAll, itemQty, qtyOf]
  | cons it rest ih =>
    rw [Db.decrementAll_cons, ih]
    simp only [Db.decrementProduct, List.map_map]
    congr 1
    apply List.map_congr_left
    intro p _
    by_cases hp : p.id = it.product_id
    · simp [hp, itemQty, qtyOf, List.filter_cons]
      omega
    · have hp' : ¬ it.product_id = p.id := fun h => hp h.symm
      simp [hp, hp', itemQty, qtyOf, List.filter_cons]

/-- The increment loop touches `products` only, and gives every product the total
quantity of the lines that name it. -/
theorem Db.incrementAll_eq (items : List OrderItem) (db : Db) :
    db.incrementAll items =
      { db with
        products := db.products.map
                      (fun p => { p with quantity := p.quantity + itemQty items p.id }) } := by
  induction items generalizing db with
  | nil =>
    simp [Db.incrementAll, itemQty, qtyOf]
  | cons it rest ih =>
    rw [Db.incrementAll_cons, ih]
    simp only [Db.incrementProduct, List.map_map]
    congr 1
    apply List.map_congr_left
    intro p _
    by_cases hp : p.id = it.product_id
    · simp [hp, itemQty, qtyOf, List.filter_cons]
      omega
    · have hp' : ¬ it.product_id = p.id := fun h => hp h.symm
      simp [hp, hp', itemQty, qtyOf, List.filter_cons]

theorem transact_db_of_error {α : Type} (db : Db) (body : Except Err (α × Db)) (e : Err)
    (h : body = .error e) : (transact db body).db = db ∧ (transact db body).result = .error e := by
  subst h
  exact ⟨rfl, rfl⟩

theorem transact_failed {α : Type} (db : Db) (body : Except Err (α × Db))
    (h : (transact db body).succeeded = false) : (transact db body).db = db := by
  cases body with
  | error e => rfl
  | ok v => simp [transact, Outcome.succeeded] at h

theorem orderService.validateLines_ok (lines : List (CartItem × Option Product)) :
    ∀ (sub : Int) (acc : List OrderItem) (sub' : Int) (items : List OrderItem),
      (∀ l ∈ lines, ∀ p, l.2 = some p → p.id = l.1.product_id) →
      orderService.validateLines lines sub acc = .ok (sub', items) →
      ∃ new, items = acc ++ new ∧
        new.map (fun i => (i.product_id, i.quantity)) =
          lines.map (fun l => (l.1.product_id, l.1.quantity)) ∧
        sub' = sub + (new.map (fun i => i.total_price)).sum ∧
        (∀ i ∈ new, i.total_price = i.unit_price * i.quantity) ∧
        (∀ l ∈ lines, activeLine l = true ∧ overStock l = false) := by
  induction lines with
  | nil =>
    intro sub acc sub' items _ h
    simp [orderService.validateLines] at h
    exact ⟨[], by simp [h.2], by simp, by simp [h.1], by simp, by simp⟩
  | cons l rest ih =>
    intro sub acc sub' items hl h
    obtain ⟨ci, op⟩ := l
    cases op with
    | none => simp [orderService.validateLines] at h
    | some p =>
      have hp : p.id = ci.product_id := hl (ci, some p) (by simp) p rfl
      by_cases hs : p.status = .active
      · by_cases hq : p.quantity < ci.quantity
        · simp [orderService.validateLines, hs, hq] at h
        · simp only [orderService.validateLines, hs, hq, ne_eq, not_true_eq_false, if_false] at h
          obtain ⟨new, hitems, hmap, hsub, htot, hall⟩ :=
            ih _ _ sub' items (fun l hl' => hl l (List.mem_cons_of_mem _ hl')) h
          refine ⟨{ order_id := 0, product_id := p.id, quantity := ci.quantity,
                    unit_price := orderService.unitPrice p,
                    total_price := orderService.unitPrice p * ci.quantity } :: new,
            by simp [hitems], by simp [hmap, hp], ?_, ?_, ?_⟩
          · simp [hsub]
            omega
          · intro i hi
            rcases List.mem_cons.mp hi with rfl | hi
            · rfl
            · exact htot i hi
          · intro l hl'
            rcases List.mem_cons.mp hl' with rfl | hl'
            · simp [activeLine, overStock, hs, hq]
            · exact hall l hl'
      · simp [orderService.validateLines, hs] at h

theorem orderService.validateLines_first_over (pre : List (CartItem × Option Product)) :
    ∀ (sub : Int) (acc : List OrderItem) (ci : CartItem) (p : Product)
      (post : List (CartItem × Option Product)),
      (∀ x ∈ pre, activeLine x = true ∧ overStock x = false) →
      p.status = .active → p.quantity < ci.quantity →
      orderService.validateLines (pre ++ (ci, some p) :: post) sub acc =
        .error (.insufficientStock p.id p.quantity ci.quantity) := by
  induction pre with
  | nil =>
    intro sub acc ci p post _ hs hq
    simp [orderService.validateLines, hs, hq]
  | cons x pre ih =>
    intro sub acc ci p post hpre hs hq
    obtain ⟨xi, xo⟩ := x
    have hx := hpre (xi, xo) (by simp)
    cases xo with
    | none => simp [activeLine] at hx
    | some q =>
      simp [activeLine, overStock] at hx
      simp only [List.cons_append, orderService.validateLines, hx.1, ne_eq, not_true_eq_false,
        if_false, not_lt.mpr hx.2]
      exact ih _ _ ci p post (fun y hy => hpre y (List.mem_cons_of_mem _ hy)) hs hq

theorem foldl_max_ge (l : List Nat) : ∀ init : Nat,
    init ≤ l.foldl max init ∧ ∀ x ∈ l, x ≤ l.foldl max init := by
  induction l with
  | nil => intro init; simp
  | cons a rest ih =>
    intro init
    obtain ⟨h1, h2⟩ := ih (max init a)
    refine ⟨le_trans (le_max_left _ _) h1, ?_⟩
    intro x hx
    rcases List.mem_cons.mp hx with rfl | hx
    · exact le_trans (le_max_right _ _) h1
    · exact h2 x hx

theorem Db.lt_nextOrderId (db : Db) (o : Order) (h : o ∈ db.orders) : o.id < db.nextOrderId := by
  have := (foldl_max_ge (db.orders.map (fun o => o.id)) 0).2 o.id (List.mem_map_of_mem _ h)
  unfold Db.nextOrderId
  omega

/-! ## Lemmas on `orderService.createOrder` -/

/-- What a successful `createOrder` has written, table by table. -/
theorem orderService.createOrder_ok_inv (db : Db) (env : Env) (d : orderService.OrderData)
    (r : orderService.Created) (h : (orderService.createOrder db env d).result = .ok r) :
    ∃ subtotal items,
      orderService.validateLines (db.cartLines d.cart_id) 0 [] = .ok (subtotal, items) ∧
      r = { orderId := db.nextOrderId, orderNumber := env.orderNumber,
            amount := subtotal + 0 + 0 } ∧
      (orderService.createOrder db env d).db =
        { db with
          products := db.products.map
                        (fun p => { p with quantity := p.quantity - itemQty items p.id })
          cartItems := db.cartItems.filter (fun ci => ¬ ci.cart_id = d.cart_id)
          orders := db.orders ++
            [{ id := db.nextOrderId, user_id := d.user_id, order_number := env.orderNumber,
               status := .pending, payment_status := .pending,
               payment_method := d.payment_method, subtotal := subtotal, tax_amount := 0,
               shipping_cost := 0, total_amount := subtotal + 0 + 0,
               cancellation_reason := none, cancellation_notes := none, cancelled_by := none,
               cancelled_at := none, created_at := env.now }]
          orderItems := db.orderItems ++
            items.map (fun item => { item with order_id := db.nextOrderId })
          payments := db.payments ++
            [{ order_id := db.nextOrderId, payment_method := d.payment_method,
               amount := subtotal + 0 + 0, status := .pending, payment_intent_id := none }] } := by
  unfold orderService.createOrder orderService.createOrderBody transact at *
  simp only [Bool.decide_and] at h ⊢
  by_cases h1 : d.user_id = 0
  · simp [h1] at h
  by_cases h2 : d.cart_id = 0
  · simp [h1, h2] at h
  by_cases h3 : d.address_id = 0
  · simp [h1, h2, h3] at h
  simp only [h1, h2, h3, if_false] at h ⊢
  cases hc : db.carts.find?
      (fun c => decide (c.id = d.cart_id) && decide (c.user_id = d.user_id)) with
  | none =>
    simp only [hc] at h
    simp at h
  | some cart =>
    have hcid : cart.id = d.cart_id := by
      have := List.find?_some hc
      simp at this
      exact this.1
    simp only [hc, hcid] at h ⊢
    by_cases h4 : (db.cartLines d.cart_id).length = 0
    · simp [h4] at h
    simp only [h4, if_false] at h ⊢
    cases ha : db.addresses.find?
        (fun a => decide (a.id = d.address_id) && decide (a.user_id = d.user_id)) with
    | none =>
      simp only [ha] at h
      simp at h
    | some a =>
      simp only [ha] at h ⊢
      cases hv : orderService.validateLines (db.cartLines d.cart_id) 0 [] with
      | error e =>
        simp only [hv] at h
        simp at h
      | ok res =>
        obtain ⟨subtotal, items⟩ := res
        simp only [hv] at h ⊢
        refine ⟨subtotal, items, rfl, ?_, ?_⟩
        · simp at h ⊢
          exact h.symm
        · simp [Db.decrementAll_eq, Db.destroyCartItems]

/-- The product joined to a cart line is the product the line names. -/
theorem Db.cartLines_product_id (db : Db) (cartId : Nat) :
    ∀ l ∈ db.cartLines cartId, ∀ p, l.2 = some p → p.id = l.1.product_id := by
  intro l hl p hp
  simp only [Db.cartLines, List.mem_map] at hl
  obtain ⟨ci, _, rfl⟩ := hl
  have := List.find?_some (show db.products.find? _ = some p from hp)
  simpa using this

/-! ## Stock is applied once per order line (C1 to C4) -/

/-- C1, evaluated on the code: the cash-on-delivery order of the section 8 cart
takes its 2 units of product 1 at creation (5 to 3), and `updatePaymentStatus` to
paid takes them a second time (3 to 1), so the line's net effect is minus twice
its quantity; and cancelling a pending Stripe order, whose lines were never taken
from stock, adds them (5 to 7). -/
theorem order_line_applied_twice_or_restored_unsubtracted :
    Scenario.shop.stock 1 = some 5 ∧
    Scenario.afterCod.stock 1 = some 3 ∧
    (orderService.updatePaymentStatus Scenario.afterCod 1 .paid).succeeded = true ∧
    (orderService.updatePaymentStatus Scenario.afterCod 1 .paid).db.stock 1 = some 1 ∧
    Scenario.stripePending.stock 1 = some 5 ∧
    (orderService.cancelOrder Scenario.stripePending 9 1 1 .customer "" "").succeeded = true ∧
    (orderService.cancelOrder Scenario.stripePending 9 1 1 .customer "" "").db.stock 1 =
      some 7 := by
  decide

/-- C2, evaluated on the code: for the pending Stripe order and the pending PayPal
order of the section 8 cart, the first `completeOrderPayment` takes the 2 units of
product 1 (5 to 3) and a second run takes them again (3 to 1); the same happens
when the owner calls `handle3DSecureAction` twice with the intent succeeded. -/
theorem settlement_twice_decrements_twice :
    Scenario.stripePending.stock 1 = some 5 ∧
    (stripePaymentService.handle3DSecureAction Scenario.stripePending Scenario.intent
      1 1).db.stock 1 = some 3 ∧
    (stripePaymentService.handle3DSecureAction
      (stripePaymentService.handle3DSecureAction Scenario.stripePending Scenario.intent
        1 1).db Scenario.intent 1 1).succeeded = true ∧
    (stripePaymentService.handle3DSecureAction
      (stripePaymentService.handle3DSecureAction Scenario.stripePending Scenario.intent
        1 1).db Scenario.intent 1 1).db.stock 1 = some 1 ∧
    (stripePaymentService.completeOrderPayment Scenario.stripePending 1).map
        (fun db => db.stock 1) = .ok (some 3) ∧
    ((stripePaymentService.completeOrderPayment Scenario.stripePending 1).bind
        (fun db => stripePaymentService.completeOrderPayment db 1)).map
        (fun db => db.stock 1) = .ok (some 1) ∧
    Scenario.paypalPending.stock 1 = some 5 ∧
    (paypalPaymentService.completeOrderPayment Scenario.paypalPending 1).succeeded = true ∧
    (paypalPaymentService.completeOrderPayment Scenario.paypalPending 1).db.stock 1 = some 3 ∧
    (paypalPaymentService.completeOrderPayment
      (paypalPaymentService.completeOrderPayment Scenario.paypalPending 1).db 1).succeeded
      = true ∧
    (paypalPaymentService.completeOrderPayment
      (paypalPaymentService.completeOrderPayment Scenario.paypalPending 1).db 1).db.stock 1
      = some 1 :=
  ⟨rfl, rfl, rfl, rfl, rfl, rfl, rfl, rfl, rfl, rfl, rfl⟩

/-- C3, evaluated on the code: order 1 was settled by the synchronous capture
(confirmed, paid, product 1 at 3, product 2 at 0); the sandbox webhook
`PAYMENT.CAPTURE.COMPLETED` naming it succeeds and takes the lines again
(product 1 at 1, product 2 at -1). -/
theorem paypal_webhook_after_capture_changes_stock :
    (Scenario.paypalCaptured.findOrder 1).map (fun o => (o.status, o.payment_status)) =
      some (.confirmed, .paid) ∧
    Scenario.paypalCaptured.stock 1 = some 3 ∧
    Scenario.paypalCaptured.stock 2 = some 0 ∧
    (paypalPaymentService.handleWebhook Scenario.paypalCaptured .sandbox
      (.payment_capture_completed (some 1))).succeeded = true ∧
    (paypalPaymentService.handleWebhook Scenario.paypalCaptured .sandbox
      (.payment_capture_completed (some 1))).db.stock 1 = some 1 ∧
    (paypalPaymentService.handleWebhook Scenario.paypalCaptured .sandbox
      (.payment_capture_completed (some 1))).db.stock 2 = some (-1) := by
  decide

/-- C4, evaluated on the code: one unit of product 1 is in stock, two users
create a card order for it and both orders are confirmed by the gateway; both end
confirmed and paid, and the stock of product 1 is -1. -/
theorem last_unit_confirmed_twice_goes_negative :
    Scenario.lastUnit.stock 1 = some 1 ∧
    Scenario.lastUnitOrdered.stock 1 = some 1 ∧
    Scenario.lastUnitOrdered.orders.map (fun o => (o.id, o.status, o.payment_status)) =
      [(1, .pending, .pending), (2, .pending, .pending)] ∧
    Scenario.lastUnitConfirmed.orders.map (fun o => (o.id, o.status, o.payment_status)) =
      [(1, .confirmed, .paid), (2, .confirmed, .paid)] ∧
    Scenario.lastUnitConfirmed.stock 1 = some (-1) := by
  decide

/-! ## Cash-on-delivery order creation (C5 to C7) -/

/-- A list with an element satisfying `P` splits at the first such element. -/
theorem exists_first_split {α : Type} (P : α → Bool) (l : List α) (h : ∃ x ∈ l, P x = true) :
    ∃ pre x post, l = pre ++ x :: post ∧ (∀ y ∈ pre, P y = false) ∧ P x = true := by
  induction l with
  | nil => simp at h
  | cons a rest ih =>
    by_cases ha : P a = true
    · exact ⟨[], a, rest, rfl, by simp, ha⟩
    · have hrest : ∃ x ∈ rest, P x = true := by
        obtain ⟨x, hx, hp⟩ := h
        rcases List.mem_cons.mp hx with rfl | hx
        · exact absurd hp ha
        · exact ⟨x, hx, hp⟩
      obtain ⟨pre, x, post, hl, hpre, hx⟩ := ih hrest
      refine ⟨a :: pre, x, post, by simp [hl], ?_, hx⟩
      intro y hy
      rcases List.mem_cons.mp hy with rfl | hy
      · simpa using ha
      · exact hpre y hy

/-- With user, cart and address in place and a non-empty cart, an error of the
validation loop is the error of `createOrder`. -/
theorem orderService.createOrder_validate_error (db : Db) (env : Env)
    (d : orderService.OrderData) (e : Err)
    (hu : d.user_id ≠ 0) (hc : d.cart_id ≠ 0) (ha : d.address_id ≠ 0)
    (hcart : ∃ c ∈ db.carts, c.id = d.cart_id ∧ c.user_id = d.user_id)
    (haddr : ∃ a ∈ db.addresses, a.id = d.address_id ∧ a.user_id = d.user_id)
    (hne : db.cartLines d.cart_id ≠ [])
    (hv : orderService.validateLines (db.cartLines d.cart_id) 0 [] = .error e) :
    (orderService.createOrder db env d).result = .error e := by
  unfold orderService.createOrder orderService.createOrderBody transact
  simp only [Bool.decide_and]
  cases hfc : db.carts.find?
      (fun c => decide (c.id = d.cart_id) && decide (c.user_id = d.user_id)) with
  | none =>
    obtain ⟨c, hcm, h1, h2⟩ := hcart
    have := List.find?_eq_none.mp hfc c hcm
    simp [h1, h2] at this
  | some cart =>
    have hcid : cart.id = d.cart_id := by
      have := List.find?_some hfc
      simp at this
      exact this.1
    cases hfa : db.addresses.find?
        (fun a => decide (a.id = d.address_id) && decide (a.user_id = d.user_id)) with
    | none =>
      obtain ⟨a, ham, h1, h2⟩ := haddr
      have := List.find?_eq_none.mp hfa a ham
      simp [h1, h2] at this
    | some a =>
      simp [hu, hc, ha, hcid, hne, hv]

/-- C5 as stated fails: in `Scenario.inactiveFirst` user 1 owns cart 1 and address
1 and the second cart line asks for 5 units of a product with 1 in stock, yet
`createOrder` fails with the not-available error of the first line, which is not
an insufficient-stock error. -/
theorem createOrder_over_stock_not_always_insufficient_stock :
    (Scenario.inactiveFirst.cartLines Scenario.codRequest.cart_id).any overStock = true ∧
    (orderService.createOrder Scenario.inactiveFirst Scenario.env Scenario.codRequest).result =
      .error (.productNotAvailable 1) ∧
    (orderService.createOrder Scenario.inactiveFirst Scenario.env
      Scenario.codRequest).failedWith Err.isInsufficientStock = false :=
  ⟨by decide, rfl, rfl⟩

/-- C5, amended: for a user, cart and address that belong together, if some cart
line asks for more than the stock of its product then `createOrder` fails and the
store is exactly as before (stock, cart items, orders, order items, payments),
wherever the line sits; the error is the insufficient-stock error of the first
such line when that line and every line before it have an existing, active
product, in particular when every product of the cart is active. -/
theorem createOrder_over_stock_fails_and_rolls_back (db : Db) (env : Env)
    (d : orderService.OrderData)
    (hu : d.user_id ≠ 0) (hc : d.cart_id ≠ 0) (ha : d.address_id ≠ 0)
    (hcart : ∃ c ∈ db.carts, c.id = d.cart_id ∧ c.user_id = d.user_id)
    (haddr : ∃ a ∈ db.addresses, a.id = d.address_id ∧ a.user_id = d.user_id)
    (hover : ∃ l ∈ db.cartLines d.cart_id, overStock l = true) :
    (orderService.createOrder db env d).succeeded = false ∧
    (orderService.createOrder db env d).db = db ∧
    (∀ pre ci p post, db.cartLines d.cart_id = pre ++ (ci, some p) :: post →
      (∀ x ∈ pre, activeLine x = true ∧ overStock x = false) →
      p.status = .active → p.quantity < ci.quantity →
      (orderService.createOrder db env d).result =
        .error (.insufficientStock p.id p.quantity ci.quantity)) ∧
    ((∀ l ∈ db.cartLines d.cart_id, activeLine l = true) →
      (orderService.createOrder db env d).failedWith Err.isInsufficientStock = true) := by
  have hfail : (orderService.createOrder db env d).succeeded = false := by
    cases hres : (orderService.createOrder db env d).result with
    | error e => simp [Outcome.succeeded, hres]
    | ok r =>
      obtain ⟨subtotal, items, hv, _, _⟩ := orderService.createOrder_ok_inv db env d r hres
      obtain ⟨_, _, _, _, _, hall⟩ :=
        orderService.validateLines_ok _ 0 [] subtotal items (db.cartLines_product_id d.cart_id) hv
      obtain ⟨l, hl, hlo⟩ := hover
      have := (hall l hl).2
      rw [hlo] at this
      cases this
  have hprecise : ∀ pre ci p post, db.cartLines d.cart_id = pre ++ (ci, some p) :: post →
      (∀ x ∈ pre, activeLine x = true ∧ overStock x = false) →
      p.status = .active → p.quantity < ci.quantity →
      (orderService.createOrder db env d).result =
        .error (.insufficientStock p.id p.quantity ci.quantity) := by
    intro pre ci p post hsplit hpre hs hq
    apply orderService.createOrder_validate_error db env d _ hu hc ha hcart haddr
    · rw [hsplit]
      simp
    · rw [hsplit]
      exact orderService.validateLines_first_over pre 0 [] ci p post hpre hs hq
  refine ⟨hfail, transact_failed _ _ hfail, hprecise, ?_⟩
  intro hactive
  obtain ⟨pre, x, post, hsplit, hpre, hx⟩ := exists_first_split overStock _ hover
  obtain ⟨ci, op⟩ := x
  have hxa : activeLine (ci, op) = true := hactive _ (by rw [hsplit]; simp)
  cases op with
  | none => simp [overStock] at hx
  | some p =>
    have hres := hprecise pre ci p post hsplit
      (fun y hy => ⟨hactive y (by rw [hsplit]; simp [hy]), hpre y hy⟩)
      (by simpa [activeLine] using hxa) (by simpa [overStock] using hx)
    simp [Outcome.failedWith, hres, Err.isInsufficientStock]

/-- Witness of C5 amended: in `Scenario.overAsked` the second line of the cart
asks for 5 units of product 2, of which 1 is in stock. -/
theorem createOrder_over_stock_fails_and_rolls_back_witness :
    (orderService.createOrder Scenario.overAsked Scenario.env Scenario.codRequest).succeeded
      = false ∧
    (orderService.createOrder Scenario.overAsked Scenario.env Scenario.codRequest).db =
      Scenario.overAsked ∧
    (orderService.createOrder Scenario.overAsked Scenario.env
      Scenario.codRequest).failedWith Err.isInsufficientStock = true :=
  have h := createOrder_over_stock_fails_and_rolls_back Scenario.overAsked Scenario.env
    Scenario.codRequest (by decide) (by decide) (by decide) (by decide) (by decide) (by decide)
  ⟨h.1, h.2.1, h.2.2.2 (by decide)⟩

/-- The lines written by a successful `createOrder` ask of every product what the
cart asked of it. -/
theorem orderService.validateLines_itemQty (db : Db) (cartId : Nat) (subtotal : Int)
    (items : List OrderItem)
    (hv : orderService.validateLines (db.cartLines cartId) 0 [] = .ok (subtotal, items))
    (productId : Nat) : itemQty items productId = db.cartQty cartId productId := by
  obtain ⟨new, hitems, hmap, _, _, _⟩ :=
    orderService.validateLines_ok _ 0 [] subtotal items (db.cartLines_product_id cartId) hv
  simp only [List.nil_append] at hitems
  subst hitems
  unfold itemQty Db.cartQty
  rw [hmap]
  simp [Db.cartLines, List.map_map, Function.comp_def]

/-- Reading the stock of a product after every row had its quantity rewritten. -/
theorem Db.stock_map_quantity (db db' : Db) (f : Nat → Int → Int)
    (h : db'.products = db.products.map (fun p => { p with quantity := f p.id p.quantity }))
    (productId : Nat) : db'.stock productId = (db.stock productId).map (f productId) := by
  unfold Db.stock Db.findProduct
  rw [h, List.find?_map]
  simp only [Function.comp_def, Option.map_map]
  cases hf : db.products.find? (fun p => decide (p.id = productId)) with
  | none => rfl
  | some p =>
    have hp : p.id = productId := by simpa using List.find?_some hf
    simp [hp]

/-- C6: after a successful cash-on-delivery `createOrder` every product row has
its stock from before the call minus the quantity the cart asked of it, so a
product the cart does not name keeps its stock, and the cart has no items left. -/
theorem createOrder_takes_stock_and_empties_cart (db : Db) (env : Env)
    (d : orderService.OrderData) (r : orderService.Created)
    (h : (orderService.createOrder db env d).result = .ok r) :
    (orderService.createOrder db env d).db.products =
      db.products.map (fun p => { p with quantity := p.quantity - db.cartQty d.cart_id p.id }) ∧
    (∀ productId, (orderService.createOrder db env d).db.stock productId =
      (db.stock productId).map (fun q => q - db.cartQty d.cart_id productId)) ∧
    (∀ productId, (∀ ci ∈ db.cartItemsOf d.cart_id, ci.product_id ≠ productId) →
      (orderService.createOrder db env d).db.stock productId = db.stock productId) ∧
    (orderService.createOrder db env d).db.cartItemsOf d.cart_id = [] := by
  obtain ⟨subtotal, items, hv, _, hdb⟩ := orderService.createOrder_ok_inv db env d r h
  have hq := orderService.validateLines_itemQty db d.cart_id subtotal items hv
  have hprod : (orderService.createOrder db env d).db.products =
      db.products.map
        (fun p => { p with quantity := p.quantity - db.cartQty d.cart_id p.id }) := by
    rw [hdb]
    simp only [hq]
  have hstock := Db.stock_map_quantity db (orderService.createOrder db env d).db
    (fun productId q => q - db.cartQty d.cart_id productId) hprod
  refine ⟨hprod, hstock, ?_, ?_⟩
  · intro productId hnot
    rw [hstock]
    have hzero : db.cartQty d.cart_id productId = 0 := by
      unfold Db.cartQty qtyOf
      rw [List.filter_eq_nil_iff.mpr]
      · rfl
      · intro x hx
        simp only [List.mem_map] at hx
        obtain ⟨ci, hci, rfl⟩ := hx
        simpa using hnot ci hci
    simp [hzero]
  · rw [hdb]
    simp [Db.cartItemsOf, List.filter_filter]

/-- Witness of C6, the scenario of section 8: 2 x A (stock 5) and 1 x B (stock 1)
leave A at 3 and B at 0, and the cart empty. -/
theorem createOrder_takes_stock_and_empties_cart_witness :
    (orderService.createOrder Scenario.shop Scenario.env Scenario.codRequest).result =
      .ok { orderId := 1, orderNumber := 1001, amount := 4500 } ∧
    (orderService.createOrder Scenario.shop Scenario.env Scenario.codRequest).db.stock 1 =
      some 3 ∧
    (orderService.createOrder Scenario.shop Scenario.env Scenario.codRequest).db.stock 2 =
      some 0 ∧
    (orderService.createOrder Scenario.shop Scenario.env Scenario.codRequest).db.cartItemsOf 1 =
      [] :=
  have h := createOrder_takes_stock_and_empties_cart Scenario.shop Scenario.env
    Scenario.codRequest { orderId := 1, orderNumber := 1001, amount := 4500 } rfl
  ⟨rfl, h.2.1 1, h.2.1 2, h.2.2.2⟩

/-- After a successful cash-on-delivery `createOrder` on a store whose order
lines all belong to stored orders, the order with the returned id is stored, the
total prices of its lines add up to its subtotal, every line's total price is its
unit price times its quantity, and its total is its subtotal. -/
theorem orderService.createOrder_stored_totals (db : Db) (env : Env) (d : orderService.OrderData)
    (r : orderService.Created) (hfk : db.itemsHaveOrders)
    (h : (orderService.createOrder db env d).result = .ok r) :
    ∃ order, (orderService.createOrder db env d).db.findOrder r.orderId = some order ∧
      (((orderService.createOrder db env d).db.itemsOf r.orderId).map
        (fun i => i.total_price)).sum = order.subtotal ∧
      (∀ i ∈ (orderService.createOrder db env d).db.itemsOf r.orderId,
        i.total_price = i.unit_price * i.quantity) ∧
      order.total_amount = order.subtotal := by
  obtain ⟨subtotal, items, hv, hr, hdb⟩ := orderService.createOrder_ok_inv db env d r h
  obtain ⟨new, hitems, _, hsub, htot, _⟩ :=
    orderService.validateLines_ok _ 0 [] subtotal items (db.cartLines_product_id d.cart_id) hv
  simp only [List.nil_append] at hitems
  subst hitems
  have hfresh : db.orders.find? (fun o => decide (o.id = db.nextOrderId)) = none := by
    rw [List.find?_eq_none]
    intro o ho
    have := db.lt_nextOrderId o ho
    simp
    omega
  have hold : db.orderItems.filter (fun i => decide (i.order_id = db.nextOrderId)) = [] := by
    rw [List.filter_eq_nil_iff]
    intro i hi
    obtain ⟨o, ho, hoi⟩ := hfk i hi
    have := db.lt_nextOrderId o ho
    simp
    omega
  have hitemsOf : (orderService.createOrder db env d).db.itemsOf r.orderId =
      items.map (fun item => { item with order_id := db.nextOrderId }) := by
    rw [hdb, hr]
    simp only [Db.itemsOf, List.filter_append, hold, List.nil_append]
    rw [List.filter_eq_self]
    intro i hi
    simp only [List.mem_map] at hi
    obtain ⟨j, _, rfl⟩ := hi
    simp
  refine ⟨{ id := db.nextOrderId, user_id := d.user_id, order_number := env.orderNumber,
             status := .pending, payment_status := .pending,
             payment_method := d.payment_method, subtotal := subtotal, tax_amount := 0,
             shipping_cost := 0, total_amount := subtotal + 0 + 0,
             cancellation_reason := none, cancellation_notes := none, cancelled_by := none,
             cancelled_at := none, created_at := env.now }, ?_, ?_, ?_, ?_⟩
  · rw [hdb, hr]
    simp only [Db.findOrder, List.find?_append, hfresh, Option.none_or]
    simp [List.find?]
  · rw [hitemsOf]
    simp [List.map_map, Function.comp_def, hsub]
  · rw [hitemsOf]
    intro i hi
    simp only [List.mem_map] at hi
    obtain ⟨j, hj, rfl⟩ := hi
    exact htot j hj
  · simp

/-- C7, evaluated on the code: with 3 units at 1.10 in the cart `createOrder`
succeeds and stores one line, unit price 1.10, quantity 3, total 3.30, and an
order of subtotal and total 3.30 (the rows in hundredths). The number it returns
as `amount` is `1.1 * 3`, the double `3.3000000000000003` of mantissa
7430939385161319, and not the double `3.3` of mantissa 7430939385161318 that the
stored total `3.30` reads as. On the scenario of section 8 the returned number
is 45, the stored total. -/
theorem createOrder_returns_unrounded_amount :
    (orderService.createOrder Scenario.threeAtOneTen Scenario.env
      Scenario.codRequest).succeeded = true ∧
    ((orderService.createOrder Scenario.threeAtOneTen Scenario.env
      Scenario.codRequest).db.itemsOf 1).map
        (fun i => (i.unit_price, i.quantity, i.total_price)) = [(110, 3, 330)] ∧
    ((orderService.createOrder Scenario.threeAtOneTen Scenario.env
      Scenario.codRequest).db.findOrder 1).map
        (fun o => (o.subtotal, o.total_amount)) = some (330, 330) ∧
    orderService.returnedAmount Scenario.threeAtOneTen Scenario.env Scenario.codRequest =
      some ⟨false, 7430939385161319, -51⟩ ∧
    JsNumber.ofCents 330 = ⟨false, 7430939385161318, -51⟩ ∧
    orderService.returnedAmount Scenario.threeAtOneTen Scenario.env Scenario.codRequest ≠
      some (JsNumber.ofCents 330) ∧
    ((orderService.createOrder Scenario.shop Scenario.env Scenario.codRequest).db.findOrder
      1).map (fun o => o.total_amount) = some 4500 ∧
    orderService.returnedAmount Scenario.shop Scenario.env Scenario.codRequest =
      some (JsNumber.ofCents 4500) := by
  decide

/-! ## Order status machine and cancellation (C8 to C10) -/

/-- C8: for an existing order, `updateOrderStatus` succeeds exactly when the pair
(current status, requested status) is one of the eight transitions of section
4.3; for every other pair it fails with the invalid-status-transition error and
leaves the whole store (status, payment_status, payment, stock) as it was. -/
theorem updateOrderStatus_follows_table (db : Db) (orderId : Nat) (status : OrderStatus)
    (order : Order) (hfind : db.findOrder orderId = some order) :
    ((orderService.updateOrderStatus db orderId status).succeeded = true ↔
      (order.status, status) ∈ specTransitions) ∧
    ((order.status, status) ∉ specTransitions →
      (orderService.updateOrderStatus db orderId status).result =
        .error (.invalidStatusTransition order.status status) ∧
      (orderService.updateOrderStatus db orderId status).db = db) := by
  unfold orderService.updateOrderStatus orderService.updateOrderStatusBody
  rw [hfind]
  cases hs : order.status <;> cases status <;>
    simp [hs, orderService.validTransitions, specTransitions, transact, Outcome.succeeded]

/-- Witness of C8: the pending order 1 of `Scenario.afterCod` can be confirmed,
and once delivered it cannot go back to processing nor be delivered again. -/
theorem updateOrderStatus_follows_table_witness :
    (orderService.updateOrderStatus Scenario.afterCod 1 .confirmed).succeeded = true ∧
    (orderService.updateOrderStatus Scenario.codDelivered 1 .processing).result =
      .error (.invalidStatusTransition .delivered .processing) ∧
    (orderService.updateOrderStatus Scenario.codDelivered 1 .processing).db =
      Scenario.codDelivered ∧
    (orderService.updateOrderStatus Scenario.codDelivered 1 .delivered).succeeded = false :=
  have h1 := updateOrderStatus_follows_table Scenario.afterCod 1 .confirmed
    Scenario.codOrder rfl
  have h2 := updateOrderStatus_follows_table Scenario.codDelivered 1 .processing
    Scenario.codDeliveredOrder rfl
  have h3 := updateOrderStatus_follows_table Scenario.codDelivered 1 .delivered
    Scenario.codDeliveredOrder rfl
  ⟨h1.1.mpr (by decide), (h2.2 (by decide)).1, (h2.2 (by decide)).2,
    by
      cases hb : (orderService.updateOrderStatus Scenario.codDelivered 1 .delivered).succeeded
      · rfl
      · exact absurd (h3.1.mp hb) (by decide)⟩

/-- C9, evaluated on the code: a PayPal order cancelled by its owner (its
payment_status stays pending) becomes confirmed when it is captured or when the
sandbox webhook `PAYMENT.CAPTURE.COMPLETED` names it; a cancelled Stripe order
becomes confirmed on the `payment_intent.succeeded` webhook; and a refunded
order becomes cancelled when its owner calls the PayPal capture on it again. -/
theorem terminal_status_is_overwritten :
    (Scenario.paypalCancelled.findOrder 1).map (fun o => o.status) = some .cancelled ∧
    ((paypalPaymentService.capturePayPalOrderAndCreateOrder Scenario.paypalCancelled
      Scenario.captureCompleted 1 1).db.findOrder 1).map (fun o => o.status) =
      some .confirmed ∧
    ((paypalPaymentService.handleWebhook Scenario.paypalCancelled .sandbox
      (.payment_capture_completed (some 1))).db.findOrder 1).map (fun o => o.status) =
      some .confirmed ∧
    (Scenario.stripeCancelled.findOrder 1).map (fun o => o.status) = some .cancelled ∧
    ((stripePaymentService.handleWebhook Scenario.stripeCancelled
      Scenario.intentSucceeded).db.findOrder 1).map (fun o => o.status) = some .confirmed ∧
    (Scenario.paypalRefunded.findOrder 1).map (fun o => o.status) = some .refunded ∧
    ((paypalPaymentService.capturePayPalOrderAndCreateOrder Scenario.paypalRefunded
      Scenario.captureCompleted 1 1).db.findOrder 1).map (fun o => o.status) =
      some .cancelled := by
  decide

/-- The row updates of the services keep the key and the owner of an order, so
the query of `cancelOrder` finds the rewritten order. -/
theorem orderService.findVisibleOrder_updateOrders (db : Db) (orderId userId : Nat)
    (role : Role) (f : Order → Order) (order : Order)
    (hf : ∀ o, (f o).id = o.id ∧ (f o).user_id = o.user_id)
    (hfind : orderService.findVisibleOrder db orderId userId role = some order) :
    orderService.findVisibleOrder (db.updateOrders orderId f) orderId userId role =
      some (f order) := by
  unfold orderService.findVisibleOrder at *
  have hid : order.id = orderId := by
    have := List.find?_some hfind
    simp at this
    exact this.1
  simp only [Db.updateOrders, List.find?_map]
  have hpred : ((fun o : Order => decide (o.id = orderId ∧ (role ≠ .admin → o.user_id = userId))) ∘
      fun o => if o.id = orderId then f o else o) =
      fun o : Order => decide (o.id = orderId ∧ (role ≠ .admin → o.user_id = userId)) := by
    funext o
    by_cases ho : o.id = orderId
    · simp [ho, (hf o).1, (hf o).2]
    · simp [ho]
  rw [hpred, hfind]
  simp [hid]

/-- C10: for an order the caller can see, `cancelOrder` succeeds exactly when its
status is pending, confirmed or processing; the order is then stored as cancelled
with the reason, the notes, the actor (admin for role admin, customer otherwise)
and the time of the call; in status shipped, delivered, cancelled or refunded the
call fails and the whole store, stock included, is as before. -/
theorem cancelOrder_only_while_cancellable (db : Db) (now orderId userId : Nat) (role : Role)
    (reason notes : String) (order : Order)
    (hfind : orderService.findVisibleOrder db orderId userId role = some order) :
    ((orderService.cancelOrder db now orderId userId role reason notes).succeeded = true ↔
      order.status ∈ [OrderStatus.pending, .confirmed, .processing]) ∧
    (order.status ∈ [OrderStatus.pending, .confirmed, .processing] →
      orderService.findVisibleOrder
          (orderService.cancelOrder db now orderId userId role reason notes).db
          orderId userId role =
        some { order with
               status := .cancelled, cancellation_reason := some reason,
               cancellation_notes := some notes,
               cancelled_by := some (if role = .admin then Actor.admin else Actor.customer),
               cancelled_at := some now }) ∧
    (order.status ∈ [OrderStatus.shipped, .delivered, .cancelled, .refunded] →
      (orderService.cancelOrder db now orderId userId role reason notes).result =
        .error (.cannotCancel order.status) ∧
      (orderService.cancelOrder db now orderId userId role reason notes).db = db) := by
  have hupd := orderService.findVisibleOrder_updateOrders db orderId userId role
    (fun o => { o with
                status := .cancelled, cancellation_reason := some reason,
                cancellation_notes := some notes,
                cancelled_by := some (if role = .admin then Actor.admin else Actor.customer),
                cancelled_at := some now }) order (fun _ => ⟨rfl, rfl⟩) hfind
  unfold orderService.cancelOrder orderService.cancelOrderBody
  rw [hfind]
  cases hs : order.status <;>
    simp [hs, transact, Outcome.succeeded, Db.incrementAll_eq] <;>
    simpa [orderService.findVisibleOrder, hs] using hupd

/-- Witness of C10: the owner cancels the pending order 1 of `Scenario.afterCod`
at time 9, and cannot cancel it once it is delivered. -/
theorem cancelOrder_only_while_cancellable_witness :
    (orderService.cancelOrder Scenario.afterCod 9 1 1 .customer "changed my mind" "").succeeded
      = true ∧
    orderService.findVisibleOrder
        (orderService.cancelOrder Scenario.afterCod 9 1 1 .customer "changed my mind" "").db
        1 1 .customer =
      some { Scenario.codOrder with
             status := .cancelled, cancellation_reason := some "changed my mind",
             cancellation_notes := some "", cancelled_by := some Actor.customer,
             cancelled_at := some 9 } ∧
    (orderService.cancelOrder Scenario.codDelivered 9 1 1 .customer "changed my mind" "").result
      = .error (.cannotCancel .delivered) ∧
    (orderService.cancelOrder Scenario.codDelivered 9 1 1 .customer "changed my mind" "").db =
      Scenario.codDelivered :=
  have h1 := cancelOrder_only_while_cancellable Scenario.afterCod 9 1 1 .customer
    "changed my mind" "" Scenario.codOrder rfl
  have h2 := cancelOrder_only_while_cancellable Scenario.codDelivered 9 1 1 .customer
    "changed my mind" "" Scenario.codDeliveredOrder rfl
  ⟨h1.1.mpr (by decide), h1.2.1 (by decide), (h2.2.2 (by decide)).1, (h2.2.2 (by decide)).2⟩

/-! ## Lemmas on reads after writes -/

/-- Looking an order up by its key after an update that keeps keys. -/
theorem Db.findOrder_updateOrders (db : Db) (orderId : Nat) (f : Order → Order)
    (hf : ∀ o, (f o).id = o.id) :
    (db.updateOrders orderId f).findOrder orderId = (db.findOrder orderId).map f := by
  unfold Db.findOrder Db.updateOrders
  simp only [List.find?_map]
  have hpred : ((fun o : Order => decide (o.id = orderId)) ∘
      fun o => if o.id = orderId then f o else o) = fun o : Order => decide (o.id = orderId) := by
    funext o
    by_cases ho : o.id = orderId
    · simp [ho, hf o]
    · simp [ho]
  rw [hpred]
  cases hfo : db.orders.find? (fun o => decide (o.id = orderId)) with
  | none => rfl
  | some o =>
    have ho : o.id = orderId := by simpa using List.find?_some hfo
    simp [ho]

/-- Looking an order of a user up after an update that keeps key and owner. -/
theorem Db.findOrderOfUser_updateOrders (db : Db) (orderId userId : Nat) (f : Order → Order)
    (hf : ∀ o, (f o).id = o.id ∧ (f o).user_id = o.user_id) :
    (db.updateOrders orderId f).findOrderOfUser orderId userId =
      (db.findOrderOfUser orderId userId).map f := by
  unfold Db.findOrderOfUser Db.updateOrders
  simp only [List.find?_map]
  have hpred : ((fun o : Order => decide (o.id = orderId ∧ o.user_id = userId)) ∘
      fun o => if o.id = orderId then f o else o) =
      fun o : Order => decide (o.id = orderId ∧ o.user_id = userId) := by
    funext o
    by_cases ho : o.id = orderId
    · simp [ho, (hf o).1, (hf o).2]
    · simp [ho]
  rw [hpred]
  cases hfo : db.orders.find? (fun o => decide (o.id = orderId ∧ o.user_id = userId)) with
  | none => rfl
  | some o =>
    have ho : o.id = orderId := by
      have := List.find?_some hfo
      simp at this
      exact this.1
    simp [ho]

/-- In a list of orders with distinct keys, the first order with a key is the
first order with that key and a given owner, when there is one. -/
theorem find?_key_of_find?_key_owner (l : List Order) (orderId userId : Nat) (order : Order)
    (hpk : l.Pairwise (fun a b => a.id ≠ b.id))
    (hfind : l.find? (fun o => decide (o.id = orderId ∧ o.user_id = userId)) = some order) :
    l.find? (fun o => decide (o.id = orderId)) = some order := by
  induction l with
  | nil => simp at hfind
  | cons a rest ih =>
    have hrest := (List.pairwise_cons.mp hpk).2
    have hhead := (List.pairwise_cons.mp hpk).1
    by_cases ha : a.id = orderId
    · by_cases hu : a.user_id = userId
      · simp [List.find?, ha, hu] at hfind ⊢
        exact hfind
      · simp only [List.find?, ha, hu, and_false, decide_False] at hfind
        have hmem := List.mem_of_find?_eq_some hfind
        have hid : order.id = orderId := by
          have := List.find?_some hfind
          simp at this
          exact this.1
        exact absurd (ha.trans hid.symm) (hhead order hmem)
    · simp only [List.find?, ha, false_and, decide_False] at hfind ⊢
      exact ih hrest hfind

/-- With unique keys the lookup by key finds the order the lookup by key and
owner finds. -/
theorem Db.findOrder_of_findOrderOfUser (db : Db) (orderId userId : Nat) (order : Order)
    (hpk : db.orderKeysUnique)
    (hfind : db.findOrderOfUser orderId userId = some order) :
    db.findOrder orderId = some order :=
  find?_key_of_find?_key_owner db.orders orderId userId order hpk hfind

/-- The user lookup of `confirmPayment` finds a stored user. -/
theorem find?_user_isSome (db : Db) (userId : Nat) (h : ∃ u ∈ db.users, u.id = userId) :
    ∃ u, db.users.find? (fun u => decide (u.id = userId)) = some u := by
  cases hf : db.users.find? (fun u => decide (u.id = userId)) with
  | some u => exact ⟨u, rfl⟩
  | none =>
    obtain ⟨u, hu, hid⟩ := h
    have := List.find?_eq_none.mp hf u hu
    simp [hid] at this

/-- After the cart of a user was cleared, the cart the settlement looks up has no
items. -/
theorem Db.clearCartOfUser_cartItemsOf (db : Db) (userId : Nat) (cart : Cart)
    (hcart : db.carts.find? (fun c => decide (c.user_id = userId)) = some cart) :
    (db.clearCartOfUser userId).cartItemsOf cart.id = [] := by
  unfold Db.clearCartOfUser
  rw [hcart]
  simp [Db.destroyCartItems, Db.cartItemsOf, List.filter_filter]

/-! ## Card payment confirmation (C14 to C16) -/

/-- C14: for an order of the calling user whose payment_status is pending, when
the gateway answers `confirmPayment` with `requires_action` the call returns
status requires_action with the id and the client secret of the payment intent,
and the store differs from the one before only in the payment rows of the order,
which now carry the payment-intent id: orders, payment statuses, stock and cart
items are as before. -/
theorem confirmPayment_requires_action_only_records_intent (db : Db) (orderId userId : Nat)
    (order : Order) (paymentIntent : stripePaymentService.PaymentIntent)
    (hfind : db.findOrderOfUser orderId userId = some order)
    (hpay : order.payment_status = .pending)
    (huser : ∃ u ∈ db.users, u.id = userId)
    (hst : paymentIntent.status = .requires_action) :
    (stripePaymentService.confirmPayment db (some paymentIntent) orderId userId).result =
      .ok { orderId := order.id, status := .requires_action,
            paymentIntentId := paymentIntent.id,
            clientSecret := some paymentIntent.client_secret } ∧
    (stripePaymentService.confirmPayment db (some paymentIntent) orderId userId).db =
      { db with
        payments := db.payments.map (fun p =>
          if p.order_id = orderId then
            { p with payment_intent_id := some paymentIntent.id } else p) } ∧
    ((stripePaymentService.confirmPayment db (some paymentIntent) orderId userId).db.payments.map
        (fun p => p.status)) = db.payments.map (fun p => p.status) ∧
    (stripePaymentService.confirmPayment db (some paymentIntent) orderId userId).db.findOrderOfUser
        orderId userId = some order := by
  obtain ⟨u, hu⟩ := find?_user_isSome db userId huser
  have hres : stripePaymentService.confirmPaymentBody db (some paymentIntent) orderId userId =
      .ok ({ orderId := order.id, status := .requires_action,
             paymentIntentId := paymentIntent.id,
             clientSecret := some paymentIntent.client_secret },
           db.updatePaymentsOf orderId
             (fun p => { p with payment_intent_id := some paymentIntent.id })) := by
    unfold stripePaymentService.confirmPaymentBody
    simp only [hfind, hpay, hu, hst]
    simp
  unfold stripePaymentService.confirmPayment
  rw [hres]
  refine ⟨rfl, rfl, ?_, ?_⟩
  · simp only [transact, Db.updatePaymentsOf, List.map_map]
    apply List.map_congr_left
    intro p _
    by_cases hp : p.order_id = orderId <;> simp [hp]
  · simpa [transact, Db.updatePaymentsOf, Db.findOrderOfUser] using hfind

/-- C15: for an order of the calling user whose payment_status is pending, in a
store with unique order keys, when the gateway answers `confirmPayment` with
`succeeded` the call succeeds and afterwards every product has lost the total
quantity of the order lines that name it, the order is confirmed and paid, the
payment rows of the order are succeeded, and the cart of the user has no items. -/
theorem confirmPayment_succeeded_settles_order (db : Db) (orderId userId : Nat)
    (order : Order) (paymentIntent : stripePaymentService.PaymentIntent)
    (hpk : db.orderKeysUnique)
    (hfind : db.findOrderOfUser orderId userId = some order)
    (hpay : order.payment_status = .pending)
    (huser : ∃ u ∈ db.users, u.id = userId)
    (hst : paymentIntent.status = .succeeded) :
    (stripePaymentService.confirmPayment db (some paymentIntent) orderId userId).result =
      .ok { orderId := order.id, status := .succeeded, paymentIntentId := paymentIntent.id,
            clientSecret := none } ∧
    (stripePaymentService.confirmPayment db (some paymentIntent) orderId userId).db.products =
      db.products.map
        (fun p => { p with quantity := p.quantity - itemQty (db.itemsOf orderId) p.id }) ∧
    (stripePaymentService.confirmPayment db (some paymentIntent) orderId userId).db.findOrderOfUser
        orderId userId =
      some { order with status := .confirmed, payment_status := .paid } ∧
    (stripePaymentService.confirmPayment db (some paymentIntent) orderId userId).db.payments =
      db.payments.map (fun p =>
        if p.order_id = orderId then
          { p with status := .succeeded, payment_intent_id := some paymentIntent.id }
        else p) ∧
    (∀ cart, db.carts.find? (fun c => decide (c.user_id = userId)) = some cart →
      (stripePaymentService.confirmPayment db (some paymentIntent) orderId
        userId).db.cartItemsOf cart.id = []) := by
  obtain ⟨u, hu⟩ := find?_user_isSome db userId huser
  have hkey := db.findOrder_of_findOrderOfUser orderId userId order hpk hfind
  have howner : order.user_id = userId := by
    have := List.find?_some (show db.orders.find? _ = some order from hfind)
    simp at this
    exact this.2
  have hres : stripePaymentService.confirmPaymentBody db (some paymentIntent) orderId userId =
      .ok ({ orderId := order.id, status := .succeeded, paymentIntentId := paymentIntent.id,
             clientSecret := none },
           ((({ db with
                products := db.products.map (fun p =>
                  { p with quantity := p.quantity - itemQty (db.itemsOf orderId) p.id })
                payments := db.payments.map (fun p =>
                  if p.order_id = orderId then
                    { p with payment_intent_id := some paymentIntent.id } else p) } :
              Db).updateOrders orderId
                (fun o => { o with status := .confirmed, payment_status := .paid })).updatePaymentsOf
              orderId (fun p => { p with status := .succeeded })).clearCartOfUser userId) := by
    unfold stripePaymentService.confirmPaymentBody
    simp only [hfind, hpay, hu, hst]
    have hkey1 : (db.updatePaymentsOf orderId
        (fun p => { p with payment_intent_id := some paymentIntent.id })).findOrder orderId =
        some order := hkey
    simp only [stripePaymentService.completeOrderPayment, hkey1, Db.decrementAll_eq, howner]
    simp [Db.updatePaymentsOf, Db.itemsOf]
  unfold stripePaymentService.confirmPayment
  rw [hres]
  refine ⟨rfl, ?_, ?_, ?_, ?_⟩ <;> simp only [transact]
  · unfold Db.clearCartOfUser
    split <;> rfl
  · have hsame : ∀ d : Db, (d.clearCartOfUser userId).findOrderOfUser orderId userId =
        d.findOrderOfUser orderId userId := by
      intro d
      unfold Db.clearCartOfUser
      split <;> rfl
    rw [hsame]
    have := Db.findOrderOfUser_updateOrders
      ({ db with
         products := db.products.map (fun p =>
           { p with quantity := p.quantity - itemQty (db.itemsOf orderId) p.id })
         payments := db.payments.map (fun p =>
           if p.order_id = orderId then
             { p with payment_intent_id := some paymentIntent.id } else p) } : Db)
      orderId userId (fun o => { o with status := .confirmed, payment_status := .paid })
      (fun _ => ⟨rfl, rfl⟩)
    simp only [Db.updatePaymentsOf, Db.findOrderOfUser] at this hfind ⊢
    rw [this, hfind]
    rfl
  · have hsame : ∀ d : Db, (d.clearCartOfUser userId).payments = d.payments := by
      intro d
      unfold Db.clearCartOfUser
      split <;> rfl
    rw [hsame]
    simp only [Db.updatePaymentsOf, Db.updateOrders, List.map_map]
    apply List.map_congr_left
    intro p _
    by_cases hp : p.order_id = orderId <;> simp [hp]
  · intro cart hcart
    exact Db.clearCartOfUser_cartItemsOf _ userId cart hcart

/-- C16: for an order of the calling user whose payment_status is pending, when
the gateway step of `confirmPayment` throws or answers with a payment intent in a
failed status, the call fails and the whole store is as before: the order keeps
its status and payment_status, its payment its status, and stock and cart are
untouched. -/
theorem confirmPayment_gateway_failure_changes_nothing (db : Db) (orderId userId : Nat)
    (order : Order) (gateway : Option stripePaymentService.PaymentIntent)
    (hfind : db.findOrderOfUser orderId userId = some order)
    (hpay : order.payment_status = .pending)
    (huser : ∃ u ∈ db.users, u.id = userId)
    (hgw : gateway = none ∨ ∃ paymentIntent, gateway = some paymentIntent ∧
      paymentIntent.status = .other) :
    (stripePaymentService.confirmPayment db gateway orderId userId).succeeded = false ∧
    ((stripePaymentService.confirmPayment db gateway orderId userId).result =
        .error .gatewayFailure ∨
      (stripePaymentService.confirmPayment db gateway orderId userId).result =
        .error .paymentFailed) ∧
    (stripePaymentService.confirmPayment db gateway orderId userId).db = db ∧
    (stripePaymentService.confirmPayment db gateway orderId userId).db.findOrderOfUser
        orderId userId = some order := by
  obtain ⟨u, hu⟩ := find?_user_isSome db userId huser
  unfold stripePaymentService.confirmPayment stripePaymentService.confirmPaymentBody
  simp only [hfind, hpay, hu]
  rcases hgw with rfl | ⟨paymentIntent, rfl, hst⟩
  · simp [transact, Outcome.succeeded, hfind]
  · simp [transact, Outcome.succeeded, hfind, hst]

/-! ## Gateway-backed order creation (C13) -/

/-- What a successful Stripe `createPaymentOrder` has written, table by table. -/
theorem stripePaymentService.createPaymentOrder_ok_inv (db : Db) (env : Env)
    (cartId shippingAddressId billingAddressId userId : Nat) (r : orderService.Created)
    (h : (stripePaymentService.createPaymentOrder db env cartId shippingAddressId
      billingAddressId userId).result = .ok r) :
    ∃ subtotal,
      stripePaymentService.validateLines (db.cartLines cartId) 0 = .ok subtotal ∧
      r = { orderId := db.nextOrderId, orderNumber := env.orderNumber,
            amount := subtotal + 0 + 0 } ∧
      (stripePaymentService.createPaymentOrder db env cartId shippingAddressId
        billingAddressId userId).db =
        { db with
          orders := db.orders ++
            [{ id := db.nextOrderId, user_id := userId, order_number := env.orderNumber,
               status := .pending, payment_status := .pending, payment_method := .stripe,
               subtotal := subtotal, tax_amount := 0, shipping_cost := 0,
               total_amount := subtotal + 0 + 0, cancellation_reason := none,
               cancellation_notes := none, cancelled_by := none, cancelled_at := none,
               created_at := env.now }]
          orderItems := db.orderItems ++
            stripePaymentService.orderItemsData db.nextOrderId (db.cartLines cartId)
          payments := db.payments ++
            [{ order_id := db.nextOrderId, payment_method := .stripe,
               amount := subtotal + 0 + 0, status := .pending, payment_intent_id := none }] } := by
  unfold stripePaymentService.createPaymentOrder stripePaymentService.createPaymentOrderBody
    transact at *
  simp only [Bool.decide_and] at h ⊢
  cases hc : db.carts.find?
      (fun c => decide (c.id = cartId) && decide (c.user_id = userId)) with
  | none =>
    simp only [hc] at h
    simp at h
  | some cart =>
    have hcid : cart.id = cartId := by
      have := List.find?_some hc
      simp at this
      exact this.1
    simp only [hc, hcid] at h ⊢
    by_cases h4 : (db.cartLines cartId).length = 0
    · simp [h4] at h
    simp only [h4, if_false] at h ⊢
    by_cases haddr :
        (db.addresses.find? (fun a =>
            decide (a.id = shippingAddressId) && decide (a.user_id = userId))).isNone = true ∨
          (db.addresses.find? (fun a =>
            decide (a.id = billingAddressId) && decide (a.user_id = userId))).isNone = true
    · simp only [if_pos haddr] at h
      simp at h
    · simp only [if_neg haddr] at h ⊢
      cases hv : stripePaymentService.validateLines (db.cartLines cartId) 0 with
      | error e =>
        simp only [hv] at h
        simp at h
      | ok subtotal =>
        simp only [hv] at h ⊢
        refine ⟨subtotal, rfl, ?_, ?_⟩
        · simp at h ⊢
          exact h.symm
        · simp

/-- A reused PayPal order is reported as retrieved. -/
theorem paypalPaymentService.reusableOrder_retrieved (db : Db) (env : Env)
    (gateway : paypalPaymentService.Gateway) (userId : Nat)
    (r : paypalPaymentService.CreatedOrder)
    (h : paypalPaymentService.reusableOrder db env gateway userId = some r) :
    r.retrieved = true := by
  unfold paypalPaymentService.reusableOrder at h
  cases he : paypalPaymentService.existingOrder db userId with
  | none => simp [he] at h
  | some o =>
    cases hp : db.paymentOf o.id with
    | none => simp [he, hp] at h
    | some payment =>
      cases hid : gateway.paypal_order_id payment with
      | none => simp [he, hp, hid] at h
      | some pid =>
        cases hl : gateway.lookup with
        | none => simp [he, hp, hid, hl] at h
        | some st =>
          cases st <;> simp [he, hp, hid, hl] at h <;> rw [← h.2]

/-- What a successful PayPal `createPaymentOrder` has written when step 1 found
no order to reuse. -/
theorem paypalPaymentService.createPaymentOrder_ok_of_none (db : Db) (env : Env)
    (gateway : paypalPaymentService.Gateway)
    (cartId shippingAddressId billingAddressId userId : Nat)
    (r : paypalPaymentService.CreatedOrder)
    (hre : paypalPaymentService.reusableOrder db env gateway userId = none)
    (h : (paypalPaymentService.createPaymentOrder db env gateway cartId shippingAddressId
      billingAddressId userId).result = .ok r) :
    ∃ subtotal paypalOrderId,
      paypalPaymentService.validateLines (db.cartLines cartId) 0 = .ok subtotal ∧
      r = { orderId := db.nextOrderId, orderNumber := env.orderNumber,
            paypalOrderId := paypalOrderId, amount := subtotal + 0 + 0, retrieved := false } ∧
      (paypalPaymentService.createPaymentOrder db env gateway cartId shippingAddressId
        billingAddressId userId).db =
        { db with
          orders := db.orders ++
            [{ id := db.nextOrderId, user_id := userId, order_number := env.orderNumber,
               status := .pending, payment_status := .pending, payment_method := .paypal,
               subtotal := subtotal, tax_amount := 0, shipping_cost := 0,
               total_amount := subtotal + 0 + 0, cancellation_reason := none,
               cancellation_notes := none, cancelled_by := none, cancelled_at := none,
               created_at := env.now }]
          orderItems := db.orderItems ++
            paypalPaymentService.orderItemsData db.nextOrderId (db.cartLines cartId)
          payments := db.payments ++
            [{ order_id := db.nextOrderId, payment_method := .paypal,
               amount := subtotal + 0 + 0, status := .pending, payment_intent_id := none }] } := by
  unfold paypalPaymentService.createPaymentOrder paypalPaymentService.createPaymentOrderBody
    transact at *
  simp only [Bool.decide_and] at h ⊢
  simp only [hre] at h ⊢
  cases hc : db.carts.find?
      (fun c => decide (c.id = cartId) && decide (c.user_id = userId)) with
  | none =>
    simp only [hc] at h
    simp at h
  | some cart =>
    have hcid : cart.id = cartId := by
      have := List.find?_some hc
      simp at this
      exact this.1
    simp only [hc, hcid] at h ⊢
    by_cases h4 : (db.cartLines cartId).length = 0
    · simp [h4] at h
    simp only [h4, if_false] at h ⊢
    by_cases haddr :
        (db.addresses.find? (fun a =>
            decide (a.id = shippingAddressId) && decide (a.user_id = userId))).isNone = true ∨
          (db.addresses.find? (fun a =>
            decide (a.id = billingAddressId) && decide (a.user_id = userId))).isNone = true
    · simp only [if_pos haddr] at h
      simp at h
    · simp only [if_neg haddr] at h ⊢
      cases hv : paypalPaymentService.validateLines (db.cartLines cartId) 0 with
      | error e =>
        simp only [hv] at h
        simp at h
      | ok subtotal =>
        simp only [hv] at h ⊢
        by_cases ht : subtotal + 0 + 0 < 1
        · simp only [if_pos ht] at h
          simp at h
        simp only [if_neg ht] at h ⊢
        cases hg : gateway.create with
        | none =>
          simp only [hg] at h
          simp at h
        | some paypalOrderId =>
          simp only [hg] at h ⊢
          refine ⟨subtotal, paypalOrderId, rfl, ?_, ?_⟩
          · simp at h ⊢
            exact h.symm
          · simp

/-- A PayPal `createPaymentOrder` that answers with a reusable order writes
nothing. -/
theorem paypalPaymentService.createPaymentOrder_reuse (db : Db) (env : Env)
    (gateway : paypalPaymentService.Gateway)
    (cartId shippingAddressId billingAddressId userId : Nat)
    (existing : paypalPaymentService.CreatedOrder)
    (hre : paypalPaymentService.reusableOrder db env gateway userId = some existing) :
    (paypalPaymentService.createPaymentOrder db env gateway cartId shippingAddressId
      billingAddressId userId).result = .ok existing ∧
    (paypalPaymentService.createPaymentOrder db env gateway cartId shippingAddressId
      billingAddressId userId).db = db := by
  unfold paypalPaymentService.createPaymentOrder paypalPaymentService.createPaymentOrderBody
  simp only [hre]
  exact ⟨rfl, rfl⟩

/-- What a successful PayPal `createPaymentOrder` that creates a new order has
written, table by table. -/
theorem paypalPaymentService.createPaymentOrder_new_inv (db : Db) (env : Env)
    (gateway : paypalPaymentService.Gateway)
    (cartId shippingAddressId billingAddressId userId : Nat)
    (r : paypalPaymentService.CreatedOrder)
    (h : (paypalPaymentService.createPaymentOrder db env gateway cartId shippingAddressId
      billingAddressId userId).result = .ok r)
    (hnew : r.retrieved = false) :
    ∃ subtotal paypalOrderId,
      paypalPaymentService.validateLines (db.cartLines cartId) 0 = .ok subtotal ∧
      r = { orderId := db.nextOrderId, orderNumber := env.orderNumber,
            paypalOrderId := paypalOrderId, amount := subtotal + 0 + 0, retrieved := false } ∧
      (paypalPaymentService.createPaymentOrder db env gateway cartId shippingAddressId
        billingAddressId userId).db =
        { db with
          orders := db.orders ++
            [{ id := db.nextOrderId, user_id := userId, order_number := env.orderNumber,
               status := .pending, payment_status := .pending, payment_method := .paypal,
               subtotal := subtotal, tax_amount := 0, shipping_cost := 0,
               total_amount := subtotal + 0 + 0, cancellation_reason := none,
               cancellation_notes := none, cancelled_by := none, cancelled_at := none,
               created_at := env.now }]
          orderItems := db.orderItems ++
            paypalPaymentService.orderItemsData db.nextOrderId (db.cartLines cartId)
          payments := db.payments ++
            [{ order_id := db.nextOrderId, payment_method := .paypal,
               amount := subtotal + 0 + 0, status := .pending, payment_intent_id := none }] } := by
  cases hre : paypalPaymentService.reusableOrder db env gateway userId with
  | some existing =>
    have hreuse := (paypalPaymentService.createPaymentOrder_reuse db env gateway cartId
      shippingAddressId billingAddressId userId existing hre).1
    rw [hreuse] at h
    have hex : existing = r := by simpa using h
    have := paypalPaymentService.reusableOrder_retrieved db env gateway userId existing hre
    rw [hex, hnew] at this
    cases this
  | none =>
    exact paypalPaymentService.createPaymentOrder_ok_of_none db env gateway cartId
      shippingAddressId billingAddressId userId r hre h

/-- Every line built for an order carries the key of that order. -/
theorem orderItemsData_order_id (orderId : Nat) (cart_items : List (CartItem × Option Product)) :
    (∀ i ∈ stripePaymentService.orderItemsData orderId cart_items, i.order_id = orderId) ∧
    (∀ i ∈ paypalPaymentService.orderItemsData orderId cart_items, i.order_id = orderId) := by
  constructor <;>
  · intro i hi
    simp only [stripePaymentService.orderItemsData, paypalPaymentService.orderItemsData,
      List.mem_filterMap] at hi
    obtain ⟨line, _, hline⟩ := hi
    cases hp : line.2 with
    | none => simp [hp] at hline
    | some product =>
      simp [hp] at hline
      rw [← hline]

/-- A cart that passed the validation loop of the Stripe path has the product of
every line. -/
theorem stripePaymentService.stripeLines_products :
    ∀ (lines : List (CartItem × Option Product)) (subtotal total : Int),
      stripePaymentService.validateLines lines subtotal = .ok total →
      ∀ l ∈ lines, ∃ p, l.2 = some p := by
  intro lines
  induction lines with
  | nil => intro _ _ _ l hl; cases hl
  | cons line rest ih =>
    intro subtotal total h l hl
    obtain ⟨cartItem, product⟩ := line
    cases product with
    | none => simp [stripePaymentService.validateLines] at h
    | some product =>
      simp only [stripePaymentService.validateLines] at h
      split at h
      · simp at h
      · split at h
        · simp at h
        · rcases List.mem_cons.mp hl with rfl | hl
          · exact ⟨product, rfl⟩
          · exact ih _ _ h l hl

/-- A cart that passed the validation loop of the PayPal path has the product of
every line. -/
theorem paypalPaymentService.paypalLines_products :
    ∀ (lines : List (CartItem × Option Product)) (subtotal total : Int),
      paypalPaymentService.validateLines lines subtotal = .ok total →
      ∀ l ∈ lines, ∃ p, l.2 = some p := by
  intro lines
  induction lines with
  | nil => intro _ _ _ l hl; cases hl
  | cons line rest ih =>
    intro subtotal total h l hl
    obtain ⟨cartItem, product⟩ := line
    cases product with
    | none => simp [paypalPaymentService.validateLines] at h
    | some product =>
      simp only [paypalPaymentService.validateLines] at h
      split at h
      · simp at h
      · split at h
        · simp at h
        · rcases List.mem_cons.mp hl with rfl | hl
          · exact ⟨product, rfl⟩
          · exact ih _ _ h l hl

/-- The lines both gateway paths build for an order, when every cart line has its
product: one order line per cart line, in the order of the cart, with the
product and the quantity of the cart line, the online price of the product as
unit price and their product as total price. -/
theorem orderItemsData_lines (db : Db) (orderId : Nat) :
    ∀ cartItems : List CartItem,
      (∀ ci ∈ cartItems, ∃ p, db.findProduct ci.product_id = some p) →
      List.Forall₂
        (fun (ci : CartItem) (i : OrderItem) =>
          i.order_id = orderId ∧ i.product_id = ci.product_id ∧ i.quantity = ci.quantity ∧
          ∃ product, db.findProduct ci.product_id = some product ∧
            i.unit_price = product.online_price ∧
            i.total_price = product.online_price * ci.quantity)
        cartItems
        (stripePaymentService.orderItemsData orderId
          (cartItems.map (fun ci => (ci, db.findProduct ci.product_id)))) ∧
      paypalPaymentService.orderItemsData orderId
          (cartItems.map (fun ci => (ci, db.findProduct ci.product_id))) =
        stripePaymentService.orderItemsData orderId
          (cartItems.map (fun ci => (ci, db.findProduct ci.product_id))) := by
  intro cartItems
  induction cartItems with
  | nil =>
    intro _
    exact ⟨List.Forall₂.nil, rfl⟩
  | cons ci rest ih =>
    intro h
    obtain ⟨p, hp⟩ := h ci (List.mem_cons_self _ _)
    obtain ⟨h1, h2⟩ := ih (fun c hc => h c (List.mem_cons_of_mem _ hc))
    constructor
    · simp only [stripePaymentService.orderItemsData, List.map_cons, List.filterMap_cons, hp,
        Option.map_some']
      exact List.Forall₂.cons ⟨rfl, rfl, rfl, p, hp, rfl, rfl⟩ h1
    · simp only [stripePaymentService.orderItemsData, paypalPaymentService.orderItemsData]

/-- C13: a successful Stripe `createPaymentOrder`, and a successful PayPal
`createPaymentOrder` that does not answer with a retrieved order, add exactly one
order, pending with payment_status pending and carrying the returned id, one
pending payment of that order, and the lines of that order: one line per item
of the cart, in the order of the cart, with the product and the quantity of the
item, the online price of the product as unit price and price times quantity as
total price; products, with their quantities, and cart items are as before. -/
theorem gateway_order_creation_adds_pending_rows_only :
    (∀ (db : Db) (env : Env) (cartId shippingAddressId billingAddressId userId : Nat)
        (r : orderService.Created),
      (stripePaymentService.createPaymentOrder db env cartId shippingAddressId billingAddressId
        userId).result = .ok r →
      ∃ order items payment,
        (stripePaymentService.createPaymentOrder db env cartId shippingAddressId
          billingAddressId userId).db =
          { db with orders := db.orders ++ [order], orderItems := db.orderItems ++ items,
                    payments := db.payments ++ [payment] } ∧
        order.id = r.orderId ∧ order.status = .pending ∧ order.payment_status = .pending ∧
        (∀ i ∈ items, i.order_id = order.id) ∧
        List.Forall₂
          (fun (ci : CartItem) (i : OrderItem) =>
            i.order_id = order.id ∧ i.product_id = ci.product_id ∧
            i.quantity = ci.quantity ∧
            ∃ product, db.findProduct ci.product_id = some product ∧
              i.unit_price = product.online_price ∧
              i.total_price = product.online_price * ci.quantity)
          (db.cartItemsOf cartId) items ∧
        payment.order_id = order.id ∧ payment.status = .pending) ∧
    (∀ (db : Db) (env : Env) (gateway : paypalPaymentService.Gateway)
        (cartId shippingAddressId billingAddressId userId : Nat)
        (r : paypalPaymentService.CreatedOrder),
      (paypalPaymentService.createPaymentOrder db env gateway cartId shippingAddressId
        billingAddressId userId).result = .ok r → r.retrieved = false →
      ∃ order items payment,
        (paypalPaymentService.createPaymentOrder db env gateway cartId shippingAddressId
          billingAddressId userId).db =
          { db with orders := db.orders ++ [order], orderItems := db.orderItems ++ items,
                    payments := db.payments ++ [payment] } ∧
        order.id = r.orderId ∧ order.status = .pending ∧ order.payment_status = .pending ∧
        (∀ i ∈ items, i.order_id = order.id) ∧
        List.Forall₂
          (fun (ci : CartItem) (i : OrderItem) =>
            i.order_id = order.id ∧ i.product_id = ci.product_id ∧
            i.quantity = ci.quantity ∧
            ∃ product, db.findProduct ci.product_id = some product ∧
              i.unit_price = product.online_price ∧
              i.total_price = product.online_price * ci.quantity)
          (db.cartItemsOf cartId) items ∧
        payment.order_id = order.id ∧ payment.status = .pending) := by
  constructor
  · intro db env cartId shippingAddressId billingAddressId userId r h
    obtain ⟨subtotal, hv, hr, hdb⟩ := stripePaymentService.createPaymentOrder_ok_inv db env
      cartId shippingAddressId billingAddressId userId r h
    have hall : ∀ ci ∈ db.cartItemsOf cartId, ∃ p, db.findProduct ci.product_id = some p := by
      intro ci hci
      exact stripePaymentService.stripeLines_products _ _ _ hv (ci, db.findProduct ci.product_id)
        (List.mem_map.mpr ⟨ci, hci, rfl⟩)
    exact ⟨_, _, _, hdb, by rw [hr], rfl, rfl,
      (orderItemsData_order_id db.nextOrderId (db.cartLines cartId)).1,
      (orderItemsData_lines db db.nextOrderId (db.cartItemsOf cartId) hall).1, rfl, rfl⟩
  · intro db env gateway cartId shippingAddressId billingAddressId userId r h hnew
    obtain ⟨subtotal, paypalOrderId, hv, hr, hdb⟩ :=
      paypalPaymentService.createPaymentOrder_new_inv db env gateway cartId shippingAddressId
        billingAddressId userId r h hnew
    have hall : ∀ ci ∈ db.cartItemsOf cartId, ∃ p, db.findProduct ci.product_id = some p := by
      intro ci hci
      exact paypalPaymentService.paypalLines_products _ _ _ hv (ci, db.findProduct ci.product_id)
        (List.mem_map.mpr ⟨ci, hci, rfl⟩)
    have hl := orderItemsData_lines db db.nextOrderId (db.cartItemsOf cartId) hall
    refine ⟨_, _, _, hdb, by rw [hr], rfl, rfl,
      (orderItemsData_order_id db.nextOrderId (db.cartLines cartId)).2, ?_, rfl, rfl⟩
    have heq : paypalPaymentService.orderItemsData db.nextOrderId (db.cartLines cartId) =
        stripePaymentService.orderItemsData db.nextOrderId (db.cartLines cartId) := hl.2
    rw [heq]
    exact hl.1

/-- Witness of C13: on the store of section 8 both gateways create order 1 with
the lines 2 x product 1 at 10.00 and 1 x product 2 at 25.00 and leave product 1
at 5, product 2 at 1 and both cart lines in place. -/
theorem gateway_order_creation_adds_pending_rows_only_witness :
    (∃ order items payment,
      (stripePaymentService.createPaymentOrder Scenario.shop Scenario.env 1 1 1 1).db =
        { Scenario.shop with orders := Scenario.shop.orders ++ [order],
                             orderItems := Scenario.shop.orderItems ++ items,
                             payments := Scenario.shop.payments ++ [payment] } ∧
      order.id = 1 ∧ order.status = .pending ∧ order.payment_status = .pending ∧
      (∀ i ∈ items, i.order_id = order.id) ∧
      List.Forall₂
        (fun (ci : CartItem) (i : OrderItem) =>
        i.order_id = order.id ∧ i.product_id = ci.product_id ∧
        i.quantity = ci.quantity ∧
        ∃ product, Scenario.shop.findProduct ci.product_id = some product ∧
          i.unit_price = product.online_price ∧
          i.total_price = product.online_price * ci.quantity)
        (Scenario.shop.cartItemsOf 1) items ∧
      payment.order_id = order.id ∧ payment.status = .pending) ∧
    (∃ order items payment,
      (paypalPaymentService.createPaymentOrder Scenario.shop Scenario.env
        Scenario.paypalGateway 1 1 1 1).db =
        { Scenario.shop with orders := Scenario.shop.orders ++ [order],
                             orderItems := Scenario.shop.orderItems ++ items,
                             payments := Scenario.shop.payments ++ [payment] } ∧
      order.id = 1 ∧ order.status = .pending ∧ order.payment_status = .pending ∧
      (∀ i ∈ items, i.order_id = order.id) ∧
      List.Forall₂
        (fun (ci : CartItem) (i : OrderItem) =>
        i.order_id = order.id ∧ i.product_id = ci.product_id ∧
        i.quantity = ci.quantity ∧
        ∃ product, Scenario.shop.findProduct ci.product_id = some product ∧
          i.unit_price = product.online_price ∧
          i.total_price = product.online_price * ci.quantity)
        (Scenario.shop.cartItemsOf 1) items ∧
      payment.order_id = order.id ∧ payment.status = .pending) ∧
    (stripePaymentService.createPaymentOrder Scenario.shop Scenario.env 1 1 1 1).db.orderItems =
      [{ order_id := 1, product_id := 1, quantity := 2, unit_price := 1000,
         total_price := 2000 },
       { order_id := 1, product_id := 2, quantity := 1, unit_price := 2500,
         total_price := 2500 }] ∧
    (paypalPaymentService.createPaymentOrder Scenario.shop Scenario.env
      Scenario.paypalGateway 1 1 1 1).db.orderItems =
      [{ order_id := 1, product_id := 1, quantity := 2, unit_price := 1000,
         total_price := 2000 },
       { order_id := 1, product_id := 2, quantity := 1, unit_price := 2500,
         total_price := 2500 }] :=
  ⟨gateway_order_creation_adds_pending_rows_only.1 Scenario.shop Scenario.env 1 1 1 1
      { orderId := 1, orderNumber := 1001, amount := 4500 } rfl,
   gateway_order_creation_adds_pending_rows_only.2 Scenario.shop Scenario.env
      Scenario.paypalGateway 1 1 1 1
      { orderId := 1, orderNumber := 1001, paypalOrderId := 9001, amount := 4500,
        retrieved := false } rfl rfl,
   by decide, by decide⟩

/-! ## Cancellation and stock (C11, C12) -/

/-- What `cancelOrder` writes for a visible order in a cancellable status. -/
theorem orderService.cancelOrder_ok_db (db : Db) (now orderId userId : Nat) (role : Role)
    (reason notes : String) (order : Order)
    (hfind : orderService.findVisibleOrder db orderId userId role = some order)
    (hst : order.status ∈ [OrderStatus.pending, .confirmed, .processing]) :
    (orderService.cancelOrder db now orderId userId role reason notes).succeeded = true ∧
    (orderService.cancelOrder db now orderId userId role reason notes).db =
      { db with
        orders := db.orders.map (fun o =>
          if o.id = orderId then
            { o with
              status := .cancelled, cancellation_reason := some reason,
              cancellation_notes := some notes,
              cancelled_by := some (if role = .admin then Actor.admin else Actor.customer),
              cancelled_at := some now }
          else o)
        products := db.products.map
                      (fun p => { p with
                                  quantity := p.quantity + itemQty (db.itemsOf orderId) p.id }) } := by
  unfold orderService.cancelOrder orderService.cancelOrderBody
  rw [hfind]
  cases hs : order.status <;> simp [hs] at hst <;>
    simp [hs, transact, Outcome.succeeded, Db.incrementAll_eq, Db.updateOrders, Db.itemsOf]

/-- Lines with the same products and quantities ask the same of every product. -/
theorem itemQty_map_order_id (items : List OrderItem) (orderId productId : Nat) :
    itemQty (items.map (fun item => { item with order_id := orderId })) productId =
      itemQty items productId := by
  simp [itemQty, List.map_map, Function.comp_def]

/-- The lines of the order a successful `createOrder` has stored. -/
theorem orderService.createOrder_itemsOf (db : Db) (items : List OrderItem) (rest : Db)
    (hfk : db.itemsHaveOrders)
    (horders : rest.orderItems =
      db.orderItems ++ items.map (fun item => { item with order_id := db.nextOrderId })) :
    rest.itemsOf db.nextOrderId =
      items.map (fun item => { item with order_id := db.nextOrderId }) := by
  have hold : db.orderItems.filter (fun i => decide (i.order_id = db.nextOrderId)) = [] := by
    rw [List.filter_eq_nil_iff]
    intro i hi
    obtain ⟨o, ho, hoi⟩ := hfk i hi
    have := db.lt_nextOrderId o ho
    simp
    omega
  simp only [Db.itemsOf, horders, List.filter_append, hold, List.nil_append]
  rw [List.filter_eq_self]
  intro i hi
  simp only [List.mem_map] at hi
  obtain ⟨j, _, rfl⟩ := hi
  simp

/-- C11: `cancelOrder` on a visible order in a cancellable status (so on every
order whose stock was committed and that can still be cancelled) gives every
product the total quantity of the order lines that name it, once; and on a store
whose order lines all belong to stored orders, `createOrder` followed by
`cancelOrder` of that order by its owner leaves every product as it was before the
order. -/
theorem cancelOrder_gives_back_each_line_once :
    (∀ (db : Db) (now orderId userId : Nat) (role : Role) (reason notes : String)
        (order : Order),
      orderService.findVisibleOrder db orderId userId role = some order →
      order.status ∈ [OrderStatus.pending, .confirmed, .processing] →
      (orderService.cancelOrder db now orderId userId role reason notes).db.products =
        db.products.map
          (fun p => { p with quantity := p.quantity + itemQty (db.itemsOf orderId) p.id }) ∧
      ∀ productId,
        (orderService.cancelOrder db now orderId userId role reason notes).db.stock productId =
          (db.stock productId).map (fun q => q + itemQty (db.itemsOf orderId) productId)) ∧
    (∀ (db : Db) (env : Env) (d : orderService.OrderData) (r : orderService.Created)
        (now : Nat) (role : Role) (reason notes : String),
      db.itemsHaveOrders →
      (orderService.createOrder db env d).result = .ok r →
      (orderService.cancelOrder (orderService.createOrder db env d).db now r.orderId
          d.user_id role reason notes).succeeded = true ∧
      (orderService.cancelOrder (orderService.createOrder db env d).db now r.orderId
          d.user_id role reason notes).db.products = db.products) := by
  constructor
  · intro db now orderId userId role reason notes order hfind hst
    have h := (orderService.cancelOrder_ok_db db now orderId userId role reason notes order
      hfind hst).2
    have hprod : (orderService.cancelOrder db now orderId userId role reason notes).db.products =
        db.products.map
          (fun p => { p with quantity := p.quantity + itemQty (db.itemsOf orderId) p.id }) := by
      rw [h]
    exact ⟨hprod, Db.stock_map_quantity db _
      (fun productId q => q + itemQty (db.itemsOf orderId) productId) hprod⟩
  · intro db env d r now role reason notes hfk hok
    obtain ⟨subtotal, items, _, hr, hdb⟩ := orderService.createOrder_ok_inv db env d r hok
    have hitems := orderService.createOrder_itemsOf db items
      (orderService.createOrder db env d).db hfk (by rw [hdb])
    have hfresh : db.orders.find?
        (fun o => decide (o.id = db.nextOrderId ∧ (role ≠ .admin → o.user_id = d.user_id))) =
        none := by
      rw [List.find?_eq_none]
      intro o ho
      have := db.lt_nextOrderId o ho
      simp
      intro hid
      omega
    have hfind : orderService.findVisibleOrder (orderService.createOrder db env d).db
        r.orderId d.user_id role =
        some { id := db.nextOrderId, user_id := d.user_id, order_number := env.orderNumber,
               status := .pending, payment_status := .pending,
               payment_method := d.payment_method, subtotal := subtotal, tax_amount := 0,
               shipping_cost := 0, total_amount := subtotal + 0 + 0,
               cancellation_reason := none, cancellation_notes := none, cancelled_by := none,
               cancelled_at := none, created_at := env.now } := by
      rw [hdb, hr]
      simp only [orderService.findVisibleOrder, List.find?_append, hfresh, Option.none_or]
      simp [List.find?]
    have hcancel := orderService.cancelOrder_ok_db (orderService.createOrder db env d).db now
      r.orderId d.user_id role reason notes _ hfind (by simp)
    refine ⟨hcancel.1, ?_⟩
    rw [hcancel.2]
    have hrid : r.orderId = db.nextOrderId := by rw [hr]
    simp only [hrid, hitems]
    rw [hdb]
    simp only [List.map_map]
    conv_rhs => rw [← List.map_id db.products]
    apply List.map_congr_left
    intro p _
    simp [itemQty_map_order_id]

/-- Witness of C11: on the store of section 8 the cash-on-delivery order takes
product 1 from 5 to 3 and product 2 from 1 to 0, and its cancellation by the
owner brings them back to 5 and 1. -/
theorem cancelOrder_gives_back_each_line_once_witness :
    Scenario.afterCod.stock 1 = some 3 ∧ Scenario.afterCod.stock 2 = some 0 ∧
    (orderService.cancelOrder Scenario.afterCod 9 1 1 .customer "changed my mind" "").db.stock 1
      = some 5 ∧
    (orderService.cancelOrder Scenario.afterCod 9 1 1 .customer "changed my mind" "").db.stock 2
      = some 1 ∧
    (orderService.cancelOrder Scenario.afterCod 9 1 1 .customer "changed my mind" "").db.products
      = Scenario.shop.products :=
  have h1 := cancelOrder_gives_back_each_line_once.1 Scenario.afterCod 9 1 1 .customer
    "changed my mind" "" Scenario.codOrder rfl (by decide)
  have h2 := cancelOrder_gives_back_each_line_once.2 Scenario.shop Scenario.env
    Scenario.codRequest { orderId := 1, orderNumber := 1001, amount := 4500 } 9 .customer
    "changed my mind" "" (fun _ hi => nomatch hi) rfl
  ⟨rfl, rfl, h1.2 1, h1.2 2, h2.2⟩

/-- C12, evaluated on the code: the pending Stripe order and the pending PayPal
order of the section 8 cart never took stock (product 1 is at 5), and cancelling
them, through `cancelOrder` or through `updateOrderStatus` to cancelled, succeeds
and puts product 1 at 7 and product 2 at 2. -/
theorem cancelling_pending_gateway_order_adds_stock :
    Scenario.stripePending.stock 1 = some 5 ∧
    Scenario.stripePending.findOrder 1 = some Scenario.stripeOrder ∧
    (orderService.cancelOrder Scenario.stripePending 9 1 1 .customer "" "").succeeded = true ∧
    (orderService.cancelOrder Scenario.stripePending 9 1 1 .customer "" "").db.stock 1 =
      some 7 ∧
    (orderService.cancelOrder Scenario.stripePending 9 1 1 .customer "" "").db.stock 2 =
      some 2 ∧
    (orderService.updateOrderStatus Scenario.stripePending 1 .cancelled).succeeded = true ∧
    (orderService.updateOrderStatus Scenario.stripePending 1 .cancelled).db.stock 1 = some 7 ∧
    Scenario.paypalPending.stock 1 = some 5 ∧
    Scenario.paypalPending.findOrder 1 = some Scenario.paypalOrder ∧
    (orderService.cancelOrder Scenario.paypalPending 9 1 1 .customer "" "").db.stock 1 =
      some 7 ∧
    (orderService.updateOrderStatus Scenario.paypalPending 1 .cancelled).db.stock 1 = some 7 := by
  decide

/-! ## Witnesses of C14 to C16 -/

/-- Witness of C14: the gateway asks for 3-D Secure on the pending Stripe order 1
of the section 8 cart. -/
theorem confirmPayment_requires_action_only_records_intent_witness :
    (stripePaymentService.confirmPayment Scenario.stripePending
        (some Scenario.intentRequiresAction) 1 1).result =
      .ok { orderId := 1, status := .requires_action, paymentIntentId := 101,
            clientSecret := some 77 } ∧
    ((stripePaymentService.confirmPayment Scenario.stripePending
        (some Scenario.intentRequiresAction) 1 1).db.payments.map (fun p => p.status)) =
      [PayStatus.pending] ∧
    (stripePaymentService.confirmPayment Scenario.stripePending
        (some Scenario.intentRequiresAction) 1 1).db.findOrderOfUser 1 1 =
      some Scenario.stripeOrder :=
  have h := confirmPayment_requires_action_only_records_intent Scenario.stripePending 1 1
    Scenario.stripeOrder Scenario.intentRequiresAction rfl rfl (by decide) rfl
  ⟨h.1, h.2.2.1, h.2.2.2⟩

/-- Witness of C15: the gateway answers `succeeded` for the pending Stripe order 1
of the section 8 cart: product 1 goes from 5 to 3 and the cart is emptied. -/
theorem confirmPayment_succeeded_settles_order_witness :
    (stripePaymentService.confirmPayment Scenario.stripePending Scenario.intent 1 1).result =
      .ok { orderId := 1, status := .succeeded, paymentIntentId := 101,
            clientSecret := none } ∧
    (stripePaymentService.confirmPayment Scenario.stripePending Scenario.intent
        1 1).db.findOrderOfUser 1 1 =
      some { Scenario.stripeOrder with status := .confirmed, payment_status := .paid } ∧
    (stripePaymentService.confirmPayment Scenario.stripePending Scenario.intent
        1 1).db.stock 1 = some 3 ∧
    (stripePaymentService.confirmPayment Scenario.stripePending Scenario.intent
        1 1).db.cartItemsOf 1 = [] :=
  have h := confirmPayment_succeeded_settles_order Scenario.stripePending 1 1
    Scenario.stripeOrder { id := 101, status := .succeeded }
    (List.pairwise_singleton _ _) rfl rfl (by decide) rfl
  ⟨h.1, h.2.2.1, rfl, h.2.2.2.2 { id := 1, user_id := 1 } rfl⟩

/-- Witness of C16: the Stripe calls throw, or the intent comes back in a failed
status, for the pending Stripe order 1 of the section 8 cart. -/
theorem confirmPayment_gateway_failure_changes_nothing_witness :
    (stripePaymentService.confirmPayment Scenario.stripePending none 1 1).succeeded = false ∧
    (stripePaymentService.confirmPayment Scenario.stripePending none 1 1).db =
      Scenario.stripePending ∧
    (stripePaymentService.confirmPayment Scenario.stripePending
      (some { id := 101, status := .other }) 1 1).succeeded = false ∧
    (stripePaymentService.confirmPayment Scenario.stripePending
      (some { id := 101, status := .other }) 1 1).db = Scenario.stripePending :=
  have h1 := confirmPayment_gateway_failure_changes_nothing Scenario.stripePending 1 1
    Scenario.stripeOrder none rfl rfl (by decide) (Or.inl rfl)
  have h2 := confirmPayment_gateway_failure_changes_nothing Scenario.stripePending 1 1
    Scenario.stripeOrder (some { id := 101, status := .other }) rfl rfl (by decide)
    (Or.inr ⟨_, rfl, rfl⟩)
  ⟨h1.1, h1.2.2.1, h2.1, h2.2.2.1⟩

/-! ## Payment on delivery (C18) -/

/-- C18: for a stored order in status shipped, `updateOrderStatus` to delivered
succeeds; when the order's payment_status is pending the order becomes delivered
and paid and the payment rows of the order become succeeded, and when it is not
pending the order becomes delivered with its payment_status as before and no
payment row changes. -/
theorem updateOrderStatus_delivered_settles_pending_payment (db : Db) (orderId : Nat)
    (order : Order) (hfind : db.findOrder orderId = some order)
    (hshipped : order.status = .shipped) :
    (orderService.updateOrderStatus db orderId .delivered).succeeded = true ∧
    (order.payment_status = .pending →
      (orderService.updateOrderStatus db orderId .delivered).db.findOrder orderId =
        some { order with status := .delivered, payment_status := .paid } ∧
      (orderService.updateOrderStatus db orderId .delivered).db.payments =
        db.payments.map (fun p =>
          if p.order_id = orderId then { p with status := .succeeded } else p)) ∧
    (order.payment_status ≠ .pending →
      (orderService.updateOrderStatus db orderId .delivered).db.findOrder orderId =
        some { order with status := .delivered } ∧
      (orderService.updateOrderStatus db orderId .delivered).db.payments = db.payments) := by
  have h1 := db.findOrder_updateOrders orderId (fun o => { o with status := .delivered })
    (fun _ => rfl)
  have h2 := (db.updateOrders orderId (fun o => { o with status := .delivered })).findOrder_updateOrders
    orderId (fun o => { o with payment_status := .paid }) (fun _ => rfl)
  rw [h1, hfind] at h2
  rw [hfind] at h1
  unfold orderService.updateOrderStatus orderService.updateOrderStatusBody
  rw [hfind]
  refine ⟨by simp [hshipped, orderService.validTransitions, transact, Outcome.succeeded],
    ?_, ?_⟩
  · intro hpay
    simp only [hshipped, hpay, orderService.validTransitions]
    simp only [transact, Db.updatePaymentsOf, Db.findOrder] at h2 ⊢
    exact ⟨by simpa using h2, by simp [Db.updateOrders]⟩
  · intro hpay
    simp only [hshipped, orderService.validTransitions]
    simp only [transact, Db.findOrder] at h1 ⊢
    exact ⟨by simpa [hpay] using h1, by simp [hpay, Db.updateOrders]⟩

/-- Witness of C18: the shipped cash-on-delivery order 1 of section 8 is paid on
delivery; the shipped PayPal order 1, already paid, keeps payment_status paid and
its payment succeeded. -/
theorem updateOrderStatus_delivered_settles_pending_payment_witness :
    (orderService.updateOrderStatus Scenario.codShipped 1 .delivered).db.findOrder 1 =
      some { Scenario.codOrder with status := .delivered, payment_status := .paid } ∧
    (orderService.updateOrderStatus Scenario.codShipped 1 .delivered).db.payments.map
      (fun p => p.status) = [PayStatus.succeeded] ∧
    (orderService.updateOrderStatus Scenario.paypalShipped 1 .delivered).db.findOrder 1 =
      some { Scenario.paypalOrder with status := .delivered, payment_status := .paid } ∧
    (orderService.updateOrderStatus Scenario.paypalShipped 1 .delivered).db.payments =
      Scenario.paypalShipped.payments :=
  have h1 := updateOrderStatus_delivered_settles_pending_payment Scenario.codShipped 1
    { Scenario.codOrder with status := .shipped } rfl rfl
  have h2 := updateOrderStatus_delivered_settles_pending_payment Scenario.paypalShipped 1
    { Scenario.paypalOrder with status := .shipped, payment_status := .paid } rfl rfl
  ⟨(h1.2.1 rfl).1, rfl, (h2.2.2 (by decide)).1, (h2.2.2 (by decide)).2⟩

/-! ## Orders and payments along a sequence of operations (C19, C20) -/

/-- A property of the store a transaction leaves behind holds when it holds of
the store before and of every store the body can commit. -/
theorem transact_db_cases {α : Type} (P : Db → Prop) (db : Db) (body : Except Err (α × Db))
    (h0 : P db) (h1 : ∀ a db', body = .ok (a, db') → P db') : P (transact db body).db := by
  cases body with
  | error e => exact h0
  | ok v => exact h1 v.1 v.2 rfl

theorem statusAdvances_trans (a b c : PayStatus) (h1 : statusAdvances a b)
    (h2 : statusAdvances b c) : statusAdvances a c := by
  unfold statusAdvances at *
  rcases h2 with h | h | h | h
  · rw [h]; exact h1
  · exact Or.inr (Or.inl h)
  · exact Or.inr (Or.inr (Or.inl h))
  · exact Or.inr (Or.inr (Or.inr h))

theorem forall₂_statusAdvances_trans {l1 l2 l3 : List PayStatus}
    (h1 : List.Forall₂ statusAdvances l1 l2) :
    List.Forall₂ statusAdvances l2 l3 → List.Forall₂ statusAdvances l1 l3 := by
  induction h1 generalizing l3 with
  | nil =>
    intro h2
    cases h2
    exact .nil
  | cons hab _ ih =>
    intro h2
    cases h2 with
    | cons hbc htl => exact .cons (statusAdvances_trans _ _ _ hab hbc) (ih htl)

theorem Db.Keeps.refl (db : Db) : db.Keeps db :=
  ⟨rfl, List.forall₂_same.mpr (fun _ _ => Or.inl rfl)⟩

theorem Db.Keeps.trans {a b c : Db} (h1 : a.Keeps b) (h2 : b.Keeps c) : a.Keeps c :=
  ⟨h2.1.trans h1.1, forall₂_statusAdvances_trans h1.2 h2.2⟩

/-- An order update that keeps key and amounts. -/
theorem Db.Keeps.updateOrders {a d : Db} (orderId : Nat) (f : Order → Order)
    (hf : ∀ o, (f o).id = o.id ∧ (f o).amounts = o.amounts) (h : a.Keeps d) :
    a.Keeps (d.updateOrders orderId f) := by
  refine h.trans ⟨?_, (Db.Keeps.refl d).2⟩
  simp only [Db.orderAmounts, Db.updateOrders, List.map_map]
  apply List.map_congr_left
  intro o _
  by_cases ho : o.id = orderId <;> simp [ho, (hf o).1, (hf o).2]

/-- A rewrite of the payment rows that advances every status. -/
theorem Db.Keeps.mapPayments {a d : Db} (g : Payment → Payment)
    (hg : ∀ p, statusAdvances p.status (g p).status) (h : a.Keeps d) :
    a.Keeps { d with payments := d.payments.map g } := by
  refine h.trans ⟨rfl, ?_⟩
  simp only [Db.paymentStatuses, List.forall₂_map_left_iff, List.forall₂_map_right_iff]
  exact List.forall₂_same.mpr (fun p _ => hg p)

theorem Db.Keeps.updatePaymentsOf {a d : Db} (orderId : Nat) (f : Payment → Payment)
    (hf : ∀ p, statusAdvances p.status (f p).status) (h : a.Keeps d) :
    a.Keeps (d.updatePaymentsOf orderId f) := by
  apply Db.Keeps.mapPayments _ _ h
  intro p
  by_cases hp : p.order_id = orderId
  · simp [hp, hf p]
  · simp [hp, statusAdvances]

theorem Db.Keeps.decrementAll {a d : Db} (items : List OrderItem) (h : a.Keeps d) :
    a.Keeps (d.decrementAll items) := by
  rw [Db.decrementAll_eq]
  exact h

theorem Db.Keeps.incrementAll {a d : Db} (items : List OrderItem) (h : a.Keeps d) :
    a.Keeps (d.incrementAll items) := by
  rw [Db.incrementAll_eq]
  exact h

theorem Db.Keeps.clearCartOfUser {a d : Db} (userId : Nat) (h : a.Keeps d) :
    a.Keeps (d.clearCartOfUser userId) := by
  unfold Db.clearCartOfUser
  split
  · exact h
  · exact h

/-- The Stripe settlement keeps amounts and advances payment statuses. -/
theorem stripePaymentService.settlement_keeps (db db' : Db) (orderId : Nat)
    (h : stripePaymentService.completeOrderPayment db orderId = .ok db') : db.Keeps db' := by
  simp only [stripePaymentService.completeOrderPayment] at h
  split at h
  · simp at h
  · simp only [Except.ok.injEq] at h
    subst h
    repeat (first
        | exact Db.Keeps.refl _
        | refine Db.Keeps.clearCartOfUser _ ?_
        | refine Db.Keeps.incrementAll _ ?_
        | refine Db.Keeps.decrementAll _ ?_
        | refine Db.Keeps.updateOrders _ _ (by intro o; exact ⟨rfl, rfl⟩) ?_
        | refine Db.Keeps.updatePaymentsOf _ _ (by intro p; simp [statusAdvances]) ?_
        | refine Db.Keeps.mapPayments _ (by intro p; split_ifs <;> simp [statusAdvances]) ?_)

/-- `confirmPayment` keeps amounts and advances payment statuses. -/
theorem stripePaymentService.confirmPayment_keeps (db : Db)
    (gateway : Option stripePaymentService.PaymentIntent) (orderId userId : Nat) :
    db.Keeps (stripePaymentService.confirmPayment db gateway orderId userId).db := by
  apply transact_db_cases (fun d => db.Keeps d) _ _ (Db.Keeps.refl db)
  intro a db' hbody
  simp only [stripePaymentService.confirmPaymentBody] at hbody
  repeat' split at hbody
  all_goals first
    | (simp at hbody; done)
    | (simp only [Except.ok.injEq, Prod.mk.injEq] at hbody
       obtain ⟨_, rfl⟩ := hbody
       repeat (first
         | exact Db.Keeps.refl _
         | refine Db.Keeps.trans ?_
             (stripePaymentService.settlement_keeps _ _ _ (by assumption))
         | refine Db.Keeps.clearCartOfUser _ ?_
         | refine Db.Keeps.incrementAll _ ?_
         | refine Db.Keeps.decrementAll _ ?_
         | refine Db.Keeps.updateOrders _ _ (by intro o; exact ⟨rfl, rfl⟩) ?_
         | refine Db.Keeps.updatePaymentsOf _ _ (by intro p; simp [statusAdvances]) ?_
         | refine Db.Keeps.mapPayments _ (by intro p; split_ifs <;> simp [statusAdvances]) ?_))

/-- `handle3DSecureAction` keeps amounts and advances payment statuses. -/
theorem stripePaymentService.handle3DSecureAction_keeps (db : Db)
    (gateway : Option stripePaymentService.PaymentIntent) (orderId userId : Nat) :
    db.Keeps (stripePaymentService.handle3DSecureAction db gateway orderId userId).db := by
  apply transact_db_cases (fun d => db.Keeps d) _ _ (Db.Keeps.refl db)
  intro a db' hbody
  simp only [stripePaymentService.handle3DSecureActionBody] at hbody
  repeat' split at hbody
  all_goals first
    | (simp at hbody; done)
    | (simp only [Except.ok.injEq, Prod.mk.injEq] at hbody
       obtain ⟨_, rfl⟩ := hbody
       repeat (first
         | exact Db.Keeps.refl _
         | refine Db.Keeps.trans ?_
             (stripePaymentService.settlement_keeps _ _ _ (by assumption))
         | refine Db.Keeps.clearCartOfUser _ ?_
         | refine Db.Keeps.incrementAll _ ?_
         | refine Db.Keeps.decrementAll _ ?_
         | refine Db.Keeps.updateOrders _ _ (by intro o; exact ⟨rfl, rfl⟩) ?_
         | refine Db.Keeps.updatePaymentsOf _ _ (by intro p; simp [statusAdvances]) ?_
         | refine Db.Keeps.mapPayments _ (by intro p; split_ifs <;> simp [statusAdvances]) ?_))

/-- `updateOrderStatus` keeps amounts and advances payment statuses. -/
theorem orderService.updateOrderStatus_keeps (db : Db) (orderId : Nat) (status : OrderStatus) :
    db.Keeps (orderService.updateOrderStatus db orderId status).db := by
  apply transact_db_cases (fun d => db.Keeps d) _ _ (Db.Keeps.refl db)
  intro a db' hbody
  simp only [orderService.updateOrderStatusBody] at hbody
  repeat' split at hbody
  all_goals first
    | (simp at hbody; done)
    | (simp only [Except.ok.injEq, Prod.mk.injEq] at hbody
       obtain ⟨_, rfl⟩ := hbody
       repeat (first
         | exact Db.Keeps.refl _
         | refine Db.Keeps.clearCartOfUser _ ?_
         | refine Db.Keeps.incrementAll _ ?_
         | refine Db.Keeps.decrementAll _ ?_
         | refine Db.Keeps.updateOrders _ _ (by intro o; exact ⟨rfl, rfl⟩) ?_
         | refine Db.Keeps.updatePaymentsOf _ _ (by intro p; simp [statusAdvances]) ?_
         | refine Db.Keeps.mapPayments _ (by intro p; split_ifs <;> simp [statusAdvances]) ?_))

/-- `cancelOrder` keeps amounts and payment statuses. -/
theorem orderService.cancelOrder_keeps (db : Db)
    (now orderId userId : Nat) (role : Role) (reason notes : String) :
    db.Keeps (orderService.cancelOrder db now orderId userId role reason notes).db := by
  apply transact_db_cases (fun d => db.Keeps d) _ _ (Db.Keeps.refl db)
  intro a db' hbody
  simp only [orderService.cancelOrderBody] at hbody
  repeat' split at hbody
  all_goals first
    | (simp at hbody; done)
    | (simp only [Except.ok.injEq, Prod.mk.injEq] at hbody
       obtain ⟨_, rfl⟩ := hbody
       repeat (first
         | exact Db.Keeps.refl _
         | refine Db.Keeps.clearCartOfUser _ ?_
         | refine Db.Keeps.incrementAll _ ?_
         | refine Db.Keeps.decrementAll _ ?_
         | refine Db.Keeps.updateOrders _ _ (by intro o; exact ⟨rfl, rfl⟩) ?_
         | refine Db.Keeps.updatePaymentsOf _ _ (by intro p; simp [statusAdvances]) ?_
         | refine Db.Keeps.mapPayments _ (by intro p; split_ifs <;> simp [statusAdvances]) ?_))

/-- The PayPal settlement keeps amounts and advances payment statuses. -/
theorem paypalPaymentService.completeOrderPayment_keeps (db : Db) (orderId : Nat) :
    db.Keeps (paypalPaymentService.completeOrderPayment db orderId).db := by
  apply transact_db_cases (fun d => db.Keeps d) _ _ (Db.Keeps.refl db)
  intro a db' hbody
  simp only [paypalPaymentService.completeOrderPaymentBody] at hbody
  repeat' split at hbody
  all_goals first
    | (simp at hbody; done)
    | (simp only [Except.ok.injEq, Prod.mk.injEq] at hbody
       obtain ⟨_, rfl⟩ := hbody
       repeat (first
         | exact Db.Keeps.refl _
         | refine Db.Keeps.clearCartOfUser _ ?_
         | refine Db.Keeps.incrementAll _ ?_
         | refine Db.Keeps.decrementAll _ ?_
         | refine Db.Keeps.updateOrders _ _ (by intro o; exact ⟨rfl, rfl⟩) ?_
         | refine Db.Keeps.updatePaymentsOf _ _ (by intro p; simp [statusAdvances]) ?_
         | refine Db.Keeps.mapPayments _ (by intro p; split_ifs <;> simp [statusAdvances]) ?_))

/-- `refundPayment` keeps amounts and advances payment statuses. -/
theorem paypalPaymentService.refundPayment_keeps (db : Db)
    (refunded : Bool) (hasCapture : Payment → Bool) (orderId : Nat) :
    db.Keeps (paypalPaymentService.refundPayment db refunded hasCapture orderId).db := by
  apply transact_db_cases (fun d => db.Keeps d) _ _ (Db.Keeps.refl db)
  intro a db' hbody
  simp only [paypalPaymentService.refundPaymentBody] at hbody
  repeat' split at hbody
  all_goals first
    | (simp at hbody; done)
    | (simp only [Except.ok.injEq, Prod.mk.injEq] at hbody
       obtain ⟨_, rfl⟩ := hbody
       repeat (first
         | exact Db.Keeps.refl _
         | refine Db.Keeps.clearCartOfUser _ ?_
         | refine Db.Keeps.incrementAll _ ?_
         | refine Db.Keeps.decrementAll _ ?_
         | refine Db.Keeps.updateOrders _ _ (by intro o; exact ⟨rfl, rfl⟩) ?_
         | refine Db.Keeps.updatePaymentsOf _ _ (by intro p; simp [statusAdvances]) ?_
         | refine Db.Keeps.mapPayments _ (by intro p; split_ifs <;> simp [statusAdvances]) ?_))

/-- The Stripe webhook keeps amounts and advances payment statuses. -/
theorem stripePaymentService.handleWebhook_keeps (db : Db)
    (event : Option stripePaymentService.Event) :
    db.Keeps (stripePaymentService.handleWebhook db event).db := by
  unfold stripePaymentService.handleWebhook
  repeat' split
  all_goals
    repeat (first
          | exact Db.Keeps.refl _
          | refine Db.Keeps.trans ?_
              (stripePaymentService.settlement_keeps _ _ _ (by assumption))
          | refine Db.Keeps.clearCartOfUser _ ?_
          | refine Db.Keeps.incrementAll _ ?_
          | refine Db.Keeps.decrementAll _ ?_
          | refine Db.Keeps.updateOrders _ _ (by intro o; exact ⟨rfl, rfl⟩) ?_
          | refine Db.Keeps.updatePaymentsOf _ _ (by intro p; simp [statusAdvances]) ?_
          | refine Db.Keeps.mapPayments _ (by intro p; split_ifs <;> simp [statusAdvances]) ?_)

/-- The PayPal capture keeps amounts and advances payment statuses, whether it
settles the order or marks it failed. -/
theorem paypalPaymentService.capture_keeps (db : Db)
    (gateway : Option paypalPaymentService.CaptureResult) (orderId userId : Nat) :
    db.Keeps
      (paypalPaymentService.capturePayPalOrderAndCreateOrder db gateway orderId userId).db := by
  unfold paypalPaymentService.capturePayPalOrderAndCreateOrder
  split
  · rename_i r db' hbody
    simp only [paypalPaymentService.capturePayPalOrderAndCreateOrderBody] at hbody
    repeat' split at hbody
    all_goals first
      | (simp at hbody; done)
      | (simp only [Except.ok.injEq, Prod.mk.injEq] at hbody
         obtain ⟨_, rfl⟩ := hbody
         repeat (first
               | exact Db.Keeps.refl _
               | refine Db.Keeps.clearCartOfUser _ ?_
               | refine Db.Keeps.incrementAll _ ?_
               | refine Db.Keeps.decrementAll _ ?_
               | refine Db.Keeps.updateOrders _ _ (by intro o; exact ⟨rfl, rfl⟩) ?_
               | refine Db.Keeps.updatePaymentsOf _ _ (by intro p; simp [statusAdvances]) ?_
               | refine Db.Keeps.mapPayments _ (by intro p; split_ifs <;> simp [statusAdvances]) ?_))
  · unfold paypalPaymentService.markCaptureFailed
    repeat (first
          | exact Db.Keeps.refl _
          | refine Db.Keeps.clearCartOfUser _ ?_
          | refine Db.Keeps.incrementAll _ ?_
          | refine Db.Keeps.decrementAll _ ?_
          | refine Db.Keeps.updateOrders _ _ (by intro o; exact ⟨rfl, rfl⟩) ?_
          | refine Db.Keeps.updatePaymentsOf _ _ (by intro p; simp [statusAdvances]) ?_
          | refine Db.Keeps.mapPayments _ (by intro p; split_ifs <;> simp [statusAdvances]) ?_)

/-- The PayPal webhook keeps amounts and advances payment statuses. -/
theorem paypalPaymentService.captureWebhook_keeps (db : Db)
    (environment : paypalPaymentService.Environment) (event : paypalPaymentService.Event) :
    db.Keeps (paypalPaymentService.handleWebhook db environment event).db := by
  unfold paypalPaymentService.handleWebhook
  split
  · exact Db.Keeps.refl _
  · cases event with
    | checkout_order_approved => exact Db.Keeps.refl _
    | unhandled => exact Db.Keeps.refl _
    | payment_capture_completed custom_id =>
      cases custom_id with
      | none => exact Db.Keeps.refl _
      | some orderId =>
        have h := paypalPaymentService.completeOrderPayment_keeps db orderId
        show db.Keeps (match (paypalPaymentService.completeOrderPayment db orderId).result with
          | .ok _ => (⟨.ok (), (paypalPaymentService.completeOrderPayment db orderId).db⟩ :
              Outcome Unit)
          | .error e => ⟨.error e, (paypalPaymentService.completeOrderPayment db orderId).db⟩).db
        split <;> exact h

/-- The capture status branches of the PayPal webhook keep amounts and advance
payment statuses. -/
theorem paypalPaymentService.handleCaptureStatusWebhook_keeps (db : Db)
    (event : paypalPaymentService.CaptureEvent) (hasCapture : Payment → Bool) :
    db.Keeps (paypalPaymentService.handleCaptureStatusWebhook db event hasCapture).db := by
  unfold paypalPaymentService.handleCaptureStatusWebhook
  cases event <;>
  · refine Db.Keeps.mapPayments _ (by intro p; split_ifs <;> simp [statusAdvances]) ?_
    exact Db.Keeps.refl _

/-- Every operation that neither creates an order nor is `updatePaymentStatus`
keeps amounts and advances payment statuses. -/
theorem Op.run_keeps (op : Op) (db : Db) (hc : op.creates = false)
    (hu : op.isUpdatePaymentStatus = false) : db.Keeps (op.run db) := by
  cases op with
  | createOrder env orderData => simp [Op.creates] at hc
  | stripeCreatePaymentOrder env c s b u => simp [Op.creates] at hc
  | paypalCreatePaymentOrder env g c s b u => simp [Op.creates] at hc
  | updatePaymentStatus orderId paymentStatus => simp [Op.isUpdatePaymentStatus] at hu
  | updateOrderStatus orderId status => exact orderService.updateOrderStatus_keeps db _ _
  | cancelOrder now orderId userId userRole reason notes =>
    exact orderService.cancelOrder_keeps db _ _ _ _ _ _
  | stripeConfirmPayment gateway orderId userId =>
    exact stripePaymentService.confirmPayment_keeps db _ _ _
  | stripeHandle3DSecureAction gateway orderId userId =>
    exact stripePaymentService.handle3DSecureAction_keeps db _ _ _
  | stripeHandleWebhook event => exact stripePaymentService.handleWebhook_keeps db _
  | paypalCapture gateway orderId userId => exact paypalPaymentService.capture_keeps db _ _ _
  | paypalHandleWebhook environment event =>
    exact paypalPaymentService.captureWebhook_keeps db _ _
  | paypalCaptureStatusWebhook event hasCapture =>
    exact paypalPaymentService.handleCaptureStatusWebhook_keeps db _ _
  | paypalRefundPayment refunded hasCapture orderId =>
    exact paypalPaymentService.refundPayment_keeps db _ _ _

theorem Db.orderAmounts_updateOrders (d : Db) (orderId : Nat) (f : Order → Order)
    (hf : ∀ o, (f o).id = o.id ∧ (f o).amounts = o.amounts) :
    (d.updateOrders orderId f).orderAmounts = d.orderAmounts :=
  (Db.Keeps.updateOrders orderId f hf (Db.Keeps.refl d)).1

/-- `updatePaymentStatus` keeps key and amounts of every order. -/
theorem orderService.updatePaymentStatus_orderAmounts (db : Db) (orderId : Nat)
    (paymentStatus : PayStatus) :
    (orderService.updatePaymentStatus db orderId paymentStatus).db.orderAmounts =
      db.orderAmounts := by
  apply transact_db_cases (fun d => d.orderAmounts = db.orderAmounts) _ _ rfl
  intro a db' hbody
  simp only [orderService.updatePaymentStatusBody] at hbody
  split at hbody
  · simp at hbody
  · simp only [Except.ok.injEq, Prod.mk.injEq] at hbody
    obtain ⟨_, rfl⟩ := hbody
    have hu : ∀ (d : Db) (f : Order → Order),
        (∀ o, (f o).id = o.id ∧ (f o).amounts = o.amounts) →
        (d.updateOrders orderId f).orderAmounts = d.orderAmounts :=
      fun d f hf => Db.orderAmounts_updateOrders d orderId f hf
    have hp : ∀ (d : Db) (f : Payment → Payment),
        (d.updatePaymentsOf orderId f).orderAmounts = d.orderAmounts := fun _ _ => rfl
    split_ifs <;>
      repeat (first
        | rw [Db.decrementAll_eq]
        | rw [Db.incrementAll_eq]
        | rfl
        | rw [hu _ _ (by intro o; exact ⟨rfl, rfl⟩)]
        | rw [hp]
        | (show Db.orderAmounts (Db.updateOrders _ _ _) = _))

/-- `updatePaymentStatus` on a stored order writes the requested status (succeeded
for paid) on every payment row of that order, whatever the row held before, and
no other payment row. -/
theorem orderService.updatePaymentStatus_payments (db : Db) (orderId : Nat)
    (paymentStatus : PayStatus) (order : Order) (hfind : db.findOrder orderId = some order) :
    (orderService.updatePaymentStatus db orderId paymentStatus).db.payments =
      db.payments.map (fun p =>
        if p.order_id = orderId then
          { p with status := if paymentStatus = .paid then .succeeded else paymentStatus }
        else p) := by
  simp only [orderService.updatePaymentStatus, orderService.updatePaymentStatusBody, hfind,
    transact]
  split_ifs <;> simp [Db.decrementAll_eq, Db.incrementAll_eq, Db.updateOrders,
    Db.updatePaymentsOf]


theorem transact_db_of_result_error {α : Type} (db : Db) (body : Except Err (α × Db)) (e : Err)
    (h : (transact db body).result = .error e) : (transact db body).db = db :=
  transact_failed db body (by simp [Outcome.succeeded, h])

/-- An operation that creates an order leaves the order and payment tables as
they are, or appends one order whose amounts add up and one pending payment. -/
theorem Op.run_creates (op : Op) (db : Db) (hc : op.creates = true) :
    ((op.run db).orders = db.orders ∧ (op.run db).payments = db.payments) ∨
    ∃ o p, (op.run db).orders = db.orders ++ [o] ∧ (op.run db).payments = db.payments ++ [p] ∧
      o.total_amount = o.subtotal + o.tax_amount + o.shipping_cost ∧ p.status = .pending := by
  cases op with
  | createOrder env orderData =>
    simp only [Op.run]
    cases hr : (orderService.createOrder db env orderData).result with
    | error e =>
      left
      rw [orderService.createOrder, transact_db_of_result_error db _ e hr]
      exact ⟨rfl, rfl⟩
    | ok r =>
      right
      obtain ⟨subtotal, items, _, _, hdb⟩ := orderService.createOrder_ok_inv db env orderData r hr
      rw [hdb]
      exact ⟨_, _, rfl, rfl, rfl, rfl⟩
  | stripeCreatePaymentOrder env c s b u =>
    simp only [Op.run]
    cases hr : (stripePaymentService.createPaymentOrder db env c s b u).result with
    | error e =>
      left
      rw [stripePaymentService.createPaymentOrder, transact_db_of_result_error db _ e hr]
      exact ⟨rfl, rfl⟩
    | ok r =>
      right
      obtain ⟨subtotal, _, _, hdb⟩ :=
        stripePaymentService.createPaymentOrder_ok_inv db env c s b u r hr
      rw [hdb]
      exact ⟨_, _, rfl, rfl, rfl, rfl⟩
  | paypalCreatePaymentOrder env g c s b u =>
    simp only [Op.run]
    cases hre : paypalPaymentService.reusableOrder db env g u with
    | some existing =>
      left
      rw [(paypalPaymentService.createPaymentOrder_reuse db env g c s b u existing hre).2]
      exact ⟨rfl, rfl⟩
    | none =>
      cases hr : (paypalPaymentService.createPaymentOrder db env g c s b u).result with
      | error e =>
        left
        rw [paypalPaymentService.createPaymentOrder, transact_db_of_result_error db _ e hr]
        exact ⟨rfl, rfl⟩
      | ok r =>
        right
        obtain ⟨subtotal, _, _, _, hdb⟩ :=
          paypalPaymentService.createPaymentOrder_ok_of_none db env g c s b u r hre hr
        rw [hdb]
        exact ⟨_, _, rfl, rfl, rfl, rfl⟩
  | updatePaymentStatus orderId paymentStatus => simp [Op.creates] at hc
  | updateOrderStatus orderId status => simp [Op.creates] at hc
  | cancelOrder now orderId userId userRole reason notes => simp [Op.creates] at hc
  | stripeConfirmPayment gateway orderId userId => simp [Op.creates] at hc
  | stripeHandle3DSecureAction gateway orderId userId => simp [Op.creates] at hc
  | stripeHandleWebhook event => simp [Op.creates] at hc
  | paypalCapture gateway orderId userId => simp [Op.creates] at hc
  | paypalHandleWebhook environment event => simp [Op.creates] at hc
  | paypalCaptureStatusWebhook event hasCapture => simp [Op.creates] at hc
  | paypalRefundPayment refunded hasCapture orderId => simp [Op.creates] at hc

/-- An operation that creates no order keeps key and amounts of every order. -/
theorem Op.run_orderAmounts (op : Op) (db : Db) (hc : op.creates = false) :
    (op.run db).orderAmounts = db.orderAmounts := by
  cases hu : op.isUpdatePaymentStatus with
  | false => exact (Op.run_keeps op db hc hu).1
  | true =>
    cases op with
    | updatePaymentStatus orderId paymentStatus =>
      exact orderService.updatePaymentStatus_orderAmounts db orderId paymentStatus
    | createOrder env orderData => simp [Op.creates] at hc
    | stripeCreatePaymentOrder env c s b u => simp [Op.creates] at hc
    | paypalCreatePaymentOrder env g c s b u => simp [Op.creates] at hc
    | updateOrderStatus orderId status => simp [Op.isUpdatePaymentStatus] at hu
    | cancelOrder now orderId userId userRole reason notes =>
      simp [Op.isUpdatePaymentStatus] at hu
    | stripeConfirmPayment gateway orderId userId => simp [Op.isUpdatePaymentStatus] at hu
    | stripeHandle3DSecureAction gateway orderId userId => simp [Op.isUpdatePaymentStatus] at hu
    | stripeHandleWebhook event => simp [Op.isUpdatePaymentStatus] at hu
    | paypalCapture gateway orderId userId => simp [Op.isUpdatePaymentStatus] at hu
    | paypalHandleWebhook environment event => simp [Op.isUpdatePaymentStatus] at hu
    | paypalCaptureStatusWebhook event hasCapture => simp [Op.isUpdatePaymentStatus] at hu
    | paypalRefundPayment refunded hasCapture orderId => simp [Op.isUpdatePaymentStatus] at hu

/-- The equation on the totals goes from a store to any store with the same keys
and amounts. -/
theorem Db.totalsAddUp_of_orderAmounts (db db' : Db) (h : db'.orderAmounts = db.orderAmounts)
    (hdb : db.totalsAddUp) : db'.totalsAddUp := by
  intro o ho
  have hm : (o.id, o.amounts) ∈ db'.orderAmounts := List.mem_map.mpr ⟨o, ho, rfl⟩
  rw [h] at hm
  obtain ⟨o0, ho0, heq⟩ := List.mem_map.mp hm
  have h0 := hdb o0 ho0
  simp only [Order.amounts, Prod.mk.injEq] at heq
  obtain ⟨_, h1, h2, h3, h4⟩ := heq
  rw [← h1, ← h2, ← h3, ← h4]
  exact h0

/-- One operation keeps the equation on the totals. -/
theorem Op.run_totalsAddUp (op : Op) (db : Db) (hdb : db.totalsAddUp) :
    (op.run db).totalsAddUp := by
  cases hc : op.creates with
  | false => exact Db.totalsAddUp_of_orderAmounts db _ (Op.run_orderAmounts op db hc) hdb
  | true =>
    rcases Op.run_creates op db hc with ⟨h, _⟩ | ⟨o, p, h, _, ho, _⟩
    · intro x hx
      rw [h] at hx
      exact hdb x hx
    · intro x hx
      rw [h, List.mem_append, List.mem_singleton] at hx
      rcases hx with hx | hx
      · exact hdb x hx
      · rw [hx]
        exact ho

theorem runAll_totalsAddUp (ops : List Op) : ∀ db : Db, db.totalsAddUp →
    (runAll ops db).totalsAddUp := by
  induction ops with
  | nil => intro db h; exact h
  | cons op rest ih =>
    intro db h
    exact ih (op.run db) (Op.run_totalsAddUp op db h)

/-- C19. Totals add up in every reachable state: every sequence of core
operations keeps `total_amount = subtotal + tax_amount + shipping_cost` on every
stored order; an operation that creates no order (status update, payment-status
update, settlement, cancellation, refund, webhook) leaves key and the four
amounts of every order as they are; a creation path (cash on delivery, Stripe,
PayPal) leaves the order table as it is or appends one order on which the
equation holds. -/
theorem order_totals_add_up_in_every_reachable_state :
    (∀ (ops : List Op) (db : Db), db.totalsAddUp → (runAll ops db).totalsAddUp) ∧
    (∀ (op : Op) (db : Db), op.creates = false →
      (op.run db).orderAmounts = db.orderAmounts) ∧
    (∀ (op : Op) (db : Db), op.creates = true →
      (op.run db).orders = db.orders ∨
      ∃ o, (op.run db).orders = db.orders ++ [o] ∧
        o.total_amount = o.subtotal + o.tax_amount + o.shipping_cost) := by
  refine ⟨runAll_totalsAddUp, Op.run_orderAmounts, ?_⟩
  intro op db hc
  rcases Op.run_creates op db hc with ⟨h, _⟩ | ⟨o, p, h, _, ho, _⟩
  · exact Or.inl h
  · exact Or.inr ⟨o, h, ho⟩


/-- Witness of C19: the store of section 8 holds no order; after a
cash-on-delivery order is created, confirmed, marked paid and cancelled order 1
still has subtotal 45.00, tax 0, shipping 0 and total 45.00. -/
theorem order_totals_add_up_in_every_reachable_state_witness :
    Scenario.shop.totalsAddUp ∧
    (runAll Scenario.codLife Scenario.shop).totalsAddUp ∧
    (runAll Scenario.codLife Scenario.shop).orderAmounts = [(1, 4500, 0, 0, 4500)] ∧
    ((Op.updatePaymentStatus 1 .paid).run Scenario.afterCod).orderAmounts =
      Scenario.afterCod.orderAmounts ∧
    (((Op.createOrder Scenario.env Scenario.codRequest).run Scenario.shop).orders =
        Scenario.shop.orders ∨
      ∃ o, ((Op.createOrder Scenario.env Scenario.codRequest).run Scenario.shop).orders =
          Scenario.shop.orders ++ [o] ∧
        o.total_amount = o.subtotal + o.tax_amount + o.shipping_cost) :=
  ⟨(by intro o ho; cases ho),
   order_totals_add_up_in_every_reachable_state.1 Scenario.codLife Scenario.shop
     (by intro o ho; cases ho),
   by decide,
   order_totals_add_up_in_every_reachable_state.2.1 (.updatePaymentStatus 1 .paid)
     Scenario.afterCod rfl,
   order_totals_add_up_in_every_reachable_state.2.2
     (.createOrder Scenario.env Scenario.codRequest) Scenario.shop rfl⟩

/-! ## Payment status along a sequence of operations (C20) -/

/-- C20 as stated does not hold: `updatePaymentStatus` with the accepted value
pending turns the succeeded payment of a captured order into pending; a second
capture call for that paid order turns its succeeded payment into failed; the
capture-completed webhook turns the failed payment of a failed capture, and the
refunded payment of a refunded order, into succeeded. -/
theorem payment_status_moves_backwards :
    Scenario.paypalCaptured.paymentStatuses = [.succeeded] ∧
    (orderService.updatePaymentStatus Scenario.paypalCaptured 1 .pending).db.paymentStatuses =
      [.pending] ∧
    (paypalPaymentService.capturePayPalOrderAndCreateOrder Scenario.paypalCaptured
      Scenario.captureCompleted 1 1).db.paymentStatuses = [.failed] ∧
    Scenario.paypalCaptureFailed.paymentStatuses = [.failed] ∧
    (paypalPaymentService.handleWebhook Scenario.paypalCaptureFailed .sandbox
      (.payment_capture_completed (some 1))).db.paymentStatuses = [.succeeded] ∧
    Scenario.paypalRefundPaid.paymentStatuses = [.refunded] ∧
    (paypalPaymentService.handleWebhook Scenario.paypalRefundPaid .sandbox
      (.payment_capture_completed (some 1))).db.paymentStatuses = [.succeeded] := by
  decide

theorem Db.decrementAll_orders_payments (db : Db) (items : List OrderItem) :
    (db.decrementAll items).orders = db.orders ∧
    (db.decrementAll items).payments = db.payments := by
  rw [Db.decrementAll_eq]
  exact ⟨rfl, rfl⟩

theorem Db.incrementAll_orders_payments (db : Db) (items : List OrderItem) :
    (db.incrementAll items).orders = db.orders ∧
    (db.incrementAll items).payments = db.payments := by
  rw [Db.incrementAll_eq]
  exact ⟨rfl, rfl⟩

theorem Db.clearCartOfUser_orders_payments (db : Db) (userId : Nat) :
    (db.clearCartOfUser userId).orders = db.orders ∧
    (db.clearCartOfUser userId).payments = db.payments := by
  unfold Db.clearCartOfUser
  split <;> exact ⟨rfl, rfl⟩

/-- A store that follows its orders does so with itself as the next store. -/
theorem Db.paymentsForward_refl (db : Db) : db.paymentsForward db :=
  ⟨db.paymentStatuses, [], (List.append_nil _).symm,
    List.forall₂_same.mpr (fun _ _ => Or.inl rfl), fun _ h => nomatch h⟩

/-- Orders and payments rewritten row by row, keys kept: when every payment moves
forward and the payments of the orders left pending stay pending, the payments
moved forward and still follow their orders. -/
theorem Db.follows_of_map (db d : Db) (F : Order → Order) (G : Payment → Payment)
    (hH : db.paymentsFollowOrders)
    (ho : d.orders = db.orders.map F) (hp : d.payments = db.payments.map G)
    (hF : ∀ o, (F o).id = o.id) (hG : ∀ p, (G p).order_id = p.order_id)
    (hfw : ∀ p ∈ db.payments, statusForward p.status (G p).status)
    (hst : ∀ o ∈ db.orders, ∀ p ∈ db.payments, p.order_id = o.id →
      (F o).payment_status = .pending → (G p).status = .pending) :
    db.paymentsForward d ∧ d.paymentsFollowOrders := by
  refine ⟨⟨d.paymentStatuses, [], (List.append_nil _).symm, ?_, fun _ h => nomatch h⟩, ?_, ?_⟩
  · simp only [Db.paymentStatuses, hp, List.map_map, List.forall₂_map_left_iff,
      List.forall₂_map_right_iff]
    exact List.forall₂_same.mpr (fun p hpm => hfw p hpm)
  · intro o' ho' hpend p' hp' hid
    rw [ho] at ho'
    rw [hp] at hp'
    obtain ⟨o, hom, rfl⟩ := List.mem_map.mp ho'
    obtain ⟨p, hpm, rfl⟩ := List.mem_map.mp hp'
    rw [hF, hG] at hid
    exact hst o hom p hpm hid hpend
  · intro p' hp'
    rw [hp] at hp'
    obtain ⟨p, hpm, rfl⟩ := List.mem_map.mp hp'
    obtain ⟨o, hom, hid⟩ := hH.2 p hpm
    exact ⟨F o, by rw [ho]; exact List.mem_map.mpr ⟨o, hom, rfl⟩, by rw [hF, hG, hid]⟩

/-- An order found by key is a stored order with that key. -/
theorem Db.findOrder_mem (db : Db) (orderId : Nat) (order : Order)
    (h : db.findOrder orderId = some order) : order ∈ db.orders ∧ order.id = orderId := by
  unfold Db.findOrder at h
  exact ⟨List.mem_of_find?_eq_some h, by simpa using List.find?_some h⟩

/-- An order found by key and owner is a stored order with that key. -/
theorem Db.findOrderOfUser_mem (db : Db) (orderId userId : Nat) (order : Order)
    (h : db.findOrderOfUser orderId userId = some order) :
    order ∈ db.orders ∧ order.id = orderId := by
  unfold Db.findOrderOfUser at h
  have := List.find?_some h
  simp only [decide_eq_true_eq] at this
  exact ⟨List.mem_of_find?_eq_some h, this.1⟩

/-- The rows of one order rewritten, keys kept: when the payments of that order
move forward and stay pending where the order is left pending, the payments of
the store moved forward and still follow their orders. -/
theorem Db.follows_of_update (db d : Db) (orderId : Nat) (f : Order → Order)
    (g : Payment → Payment) (hH : db.paymentsFollowOrders)
    (ho : d.orders = db.orders.map (fun o => if o.id = orderId then f o else o))
    (hp : d.payments = db.payments.map (fun p => if p.order_id = orderId then g p else p))
    (hf : ∀ o, (f o).id = o.id) (hg : ∀ p, (g p).order_id = p.order_id)
    (hfw : ∀ p ∈ db.payments, p.order_id = orderId → statusForward p.status (g p).status)
    (hst : ∀ o ∈ db.orders, o.id = orderId → ∀ p ∈ db.payments, p.order_id = orderId →
      (f o).payment_status = .pending → (g p).status = .pending) :
    db.paymentsForward d ∧ d.paymentsFollowOrders := by
  refine Db.follows_of_map db d _ _ hH ho hp ?_ ?_ ?_ ?_
  · intro o
    dsimp only
    split_ifs
    · exact hf o
    · rfl
  · intro p
    dsimp only
    split_ifs
    · exact hg p
    · rfl
  · intro p hpm
    by_cases hpo : p.order_id = orderId
    · simp only [if_pos hpo]
      exact hfw p hpm hpo
    · simp only [if_neg hpo]
      exact Or.inl rfl
  · intro o hom p hpm hpo hpend
    by_cases hoo : o.id = orderId
    · have hpo' : p.order_id = orderId := by rw [hpo]; exact hoo
      simp only [if_pos hoo] at hpend
      simp only [if_pos hpo']
      exact hst o hom hoo p hpm hpo' hpend
    · have hpo' : ¬ p.order_id = orderId := by rw [hpo]; exact hoo
      simp only [if_neg hoo] at hpend
      simp only [if_neg hpo']
      exact hH.1 o hom hpend p hpm hpo

/-- `updateOrderStatus` moves payments forward and keeps them following. -/
theorem orderService.updateOrderStatus_forward (db : Db) (orderId : Nat) (status : OrderStatus)
    (hH : db.paymentsFollowOrders) :
    db.paymentsForward (orderService.updateOrderStatus db orderId status).db ∧
    (orderService.updateOrderStatus db orderId status).db.paymentsFollowOrders := by
  apply transact_db_cases (fun d => db.paymentsForward d ∧ d.paymentsFollowOrders) _ _
    ⟨db.paymentsForward_refl, hH⟩
  intro a db' hbody
  simp only [orderService.updateOrderStatusBody] at hbody
  cases hfind : db.findOrder orderId with
  | none => simp [hfind] at hbody
  | some order =>
    obtain ⟨hmem, hid⟩ := db.findOrder_mem orderId order hfind
    simp only [hfind] at hbody
    split at hbody
    · simp at hbody
    · simp only [Except.ok.injEq, Prod.mk.injEq] at hbody
      obtain ⟨_, rfl⟩ := hbody
      by_cases hd : status = .delivered ∧ order.payment_status = .pending
      · have hpend : ∀ p ∈ db.payments, p.order_id = orderId → p.status = .pending :=
          fun p hp hpo => hH.1 order hmem hd.2 p hp (by rw [hpo, hid])
        refine Db.follows_of_update db _ orderId
          (fun o => { o with status := status, payment_status := .paid })
          (fun p => { p with status := .succeeded }) hH ?_ ?_ (fun _ => rfl) (fun _ => rfl) ?_ ?_
        · simp only [if_pos hd]
          split_ifs <;>
            simp only [Db.updatePaymentsOf, Db.updateOrders,
              (Db.incrementAll_orders_payments _ _).1, List.map_map] <;>
            (apply List.map_congr_left; intro o _; by_cases ho : o.id = orderId <;> simp [ho])
        · simp only [if_pos hd]
          split_ifs <;>
            simp only [Db.updatePaymentsOf, Db.updateOrders,
              (Db.incrementAll_orders_payments _ _).2]
        · intro p hp hpo
          exact Or.inr (Or.inl ⟨hpend p hp hpo, rfl⟩)
        · intro o _ _ p _ _ hst
          simp at hst
      · refine Db.follows_of_update db _ orderId
          (fun o => { o with status := status }) (fun p => p) hH ?_ ?_
          (fun _ => rfl) (fun _ => rfl) (fun _ _ _ => Or.inl rfl) ?_
        · simp only [if_neg hd]
          split_ifs <;>
            simp only [Db.updateOrders, (Db.incrementAll_orders_payments _ _).1]
        · simp only [if_neg hd]
          split_ifs <;>
            simp [Db.updateOrders, (Db.incrementAll_orders_payments _ _).2]
        · intro o ho hoo p hp hpo hst
          exact hH.1 o ho hst p hp (by rw [hpo, hoo])

/-- `cancelOrder` leaves every payment status and keeps payments following. -/
theorem orderService.cancelOrder_forward (db : Db) (now orderId userId : Nat) (role : Role)
    (reason notes : String) (hH : db.paymentsFollowOrders) :
    db.paymentsForward (orderService.cancelOrder db now orderId userId role reason notes).db ∧
    (orderService.cancelOrder db now orderId userId role reason
      notes).db.paymentsFollowOrders := by
  apply transact_db_cases (fun d => db.paymentsForward d ∧ d.paymentsFollowOrders) _ _
    ⟨db.paymentsForward_refl, hH⟩
  intro a db' hbody
  simp only [orderService.cancelOrderBody] at hbody
  split at hbody
  · simp at hbody
  · split at hbody
    · simp at hbody
    · simp only [Except.ok.injEq, Prod.mk.injEq] at hbody
      obtain ⟨_, rfl⟩ := hbody
      refine Db.follows_of_update db _ orderId
        (fun o => { o with
            status := .cancelled, cancellation_reason := some reason,
            cancellation_notes := some notes,
            cancelled_by := some (if role = .admin then Actor.admin else Actor.customer),
            cancelled_at := some now })
        (fun p => p) hH ?_ ?_ (fun _ => rfl) (fun _ => rfl) (fun _ _ _ => Or.inl rfl) ?_
      · simp only [Db.updateOrders, (Db.incrementAll_orders_payments _ _).1]
      · simp [Db.updateOrders, (Db.incrementAll_orders_payments _ _).2]
      · intro o ho hoo p hp hpo hst
        exact hH.1 o ho hst p hp (by rw [hpo, hoo])

/-- The settlement writes paid on the orders and succeeded on the payments of one
order key. -/
theorem stripePaymentService.completeOrderPayment_rows (db db' : Db) (orderId : Nat)
    (h : stripePaymentService.completeOrderPayment db orderId = .ok db') :
    db'.orders = db.orders.map (fun o =>
      if o.id = orderId then { o with status := .confirmed, payment_status := .paid } else o) ∧
    db'.payments = db.payments.map (fun p =>
      if p.order_id = orderId then { p with status := .succeeded } else p) := by
  simp only [stripePaymentService.completeOrderPayment] at h
  split at h
  · simp at h
  · simp only [Except.ok.injEq] at h
    subst h
    simp only [(Db.clearCartOfUser_orders_payments _ _).1,
      (Db.clearCartOfUser_orders_payments _ _).2, Db.updatePaymentsOf, Db.updateOrders,
      (Db.decrementAll_orders_payments _ _).1, (Db.decrementAll_orders_payments _ _).2,
      and_self]

/-- `confirmPayment` moves payments forward and keeps them following. -/
theorem stripePaymentService.confirmPayment_forward (db : Db)
    (gateway : Option stripePaymentService.PaymentIntent) (orderId userId : Nat)
    (hH : db.paymentsFollowOrders) :
    db.paymentsForward (stripePaymentService.confirmPayment db gateway orderId userId).db ∧
    (stripePaymentService.confirmPayment db gateway orderId userId).db.paymentsFollowOrders := by
  apply transact_db_cases (fun d => db.paymentsForward d ∧ d.paymentsFollowOrders) _ _
    ⟨db.paymentsForward_refl, hH⟩
  intro a db' hbody
  simp only [stripePaymentService.confirmPaymentBody] at hbody
  cases hfind : db.findOrderOfUser orderId userId with
  | none => simp [hfind] at hbody
  | some order =>
    obtain ⟨hmem, hid⟩ := db.findOrderOfUser_mem orderId userId order hfind
    simp only [hfind] at hbody
    by_cases hpay : order.payment_status = .pending
    · have hpend : ∀ p ∈ db.payments, p.order_id = orderId → p.status = .pending :=
        fun p hp hpo => hH.1 order hmem hpay p hp (by rw [hpo, hid])
      simp only [hpay, ne_eq, not_true_eq_false, if_false] at hbody
      cases hu : db.users.find? (fun u => decide (u.id = userId)) with
      | none => simp [hu] at hbody
      | some u =>
        simp only [hu] at hbody
        cases gateway with
        | none => simp at hbody
        | some paymentIntent =>
          simp only at hbody
          cases hs : paymentIntent.status with
          | succeeded =>
            simp only [hs] at hbody
            split at hbody
            · simp at hbody
            · rename_i db2 hsettle
              simp only [Except.ok.injEq, Prod.mk.injEq] at hbody
              obtain ⟨_, rfl⟩ := hbody
              obtain ⟨h1, h2⟩ :=
                stripePaymentService.completeOrderPayment_rows _ _ _ hsettle
              refine Db.follows_of_update db _ orderId
                (fun o => { o with status := .confirmed, payment_status := .paid })
                (fun p => { p with status := .succeeded,
                                   payment_intent_id := some paymentIntent.id })
                hH ?_ ?_ (fun _ => rfl) (fun _ => rfl) ?_ ?_
              · rw [h1]
                rfl
              · rw [h2]
                simp only [Db.updatePaymentsOf, List.map_map]
                apply List.map_congr_left
                intro p _
                by_cases hp : p.order_id = orderId <;> simp [hp]
              · intro p hp hpo
                exact Or.inr (Or.inl ⟨hpend p hp hpo, rfl⟩)
              · intro o _ _ p _ _ hst
                simp at hst
          | processing =>
            simp only [hs, Except.ok.injEq, Prod.mk.injEq] at hbody
            obtain ⟨_, rfl⟩ := hbody
            refine Db.follows_of_update db _ orderId
              (fun o => { o with payment_status := .processing })
              (fun p => { p with payment_intent_id := some paymentIntent.id })
              hH rfl rfl (fun _ => rfl) (fun _ => rfl) (fun _ _ _ => Or.inl rfl) ?_
            intro o _ _ p _ _ hst
            simp at hst
          | requires_action =>
            simp only [hs, Except.ok.injEq, Prod.mk.injEq] at hbody
            obtain ⟨_, rfl⟩ := hbody
            refine Db.follows_of_update db _ orderId (fun o => o)
              (fun p => { p with payment_intent_id := some paymentIntent.id })
              hH (by simp [Db.updatePaymentsOf]) rfl (fun _ => rfl) (fun _ => rfl)
              (fun _ _ _ => Or.inl rfl) ?_
            intro o ho hoo p hp hpo hst
            exact hpend p hp hpo
          | requires_confirmation =>
            simp only [hs, Except.ok.injEq, Prod.mk.injEq] at hbody
            obtain ⟨_, rfl⟩ := hbody
            refine Db.follows_of_update db _ orderId (fun o => o)
              (fun p => { p with payment_intent_id := some paymentIntent.id })
              hH (by simp [Db.updatePaymentsOf]) rfl (fun _ => rfl) (fun _ => rfl)
              (fun _ _ _ => Or.inl rfl) ?_
            intro o ho hoo p hp hpo hst
            exact hpend p hp hpo
          | other => simp [hs] at hbody
    · simp [hpay] at hbody

/-- A capture that passes its own checks (the order is the caller's and its
payment_status is pending) moves the payments of the order from pending to
succeeded, or to failed when the capture fails, and keeps payments following. -/
theorem paypalPaymentService.capture_forward (db : Db)
    (gateway : Option paypalPaymentService.CaptureResult) (orderId userId : Nat)
    (order : Order) (hH : db.paymentsFollowOrders)
    (hfind : db.findOrderOfUser orderId userId = some order)
    (hpay : order.payment_status = .pending) :
    db.paymentsForward
      (paypalPaymentService.capturePayPalOrderAndCreateOrder db gateway orderId userId).db ∧
    (paypalPaymentService.capturePayPalOrderAndCreateOrder db gateway orderId
      userId).db.paymentsFollowOrders := by
  obtain ⟨hmem, hid⟩ := db.findOrderOfUser_mem orderId userId order hfind
  have hpend : ∀ p ∈ db.payments, p.order_id = orderId → p.status = .pending :=
    fun p hp hpo => hH.1 order hmem hpay p hp (by rw [hpo, hid])
  unfold paypalPaymentService.capturePayPalOrderAndCreateOrder
  split
  · rename_i r db' hbody
    simp only [paypalPaymentService.capturePayPalOrderAndCreateOrderBody, hfind, hpay, ne_eq,
      not_true_eq_false, if_false] at hbody
    split at hbody
    · simp at hbody
    · split at hbody
      · simp at hbody
      · split at hbody
        · simp at hbody
        · simp only [Except.ok.injEq, Prod.mk.injEq] at hbody
          obtain ⟨_, rfl⟩ := hbody
          refine Db.follows_of_update db _ orderId
            (fun o => { o with status := .confirmed, payment_status := .paid })
            (fun p => { p with status := .succeeded })
            hH ?_ ?_ (fun _ => rfl) (fun _ => rfl) ?_ ?_
          · simp only [(Db.clearCartOfUser_orders_payments _ _).1, Db.updatePaymentsOf,
              Db.updateOrders, (Db.decrementAll_orders_payments _ _).1]
          · simp only [(Db.clearCartOfUser_orders_payments _ _).2, Db.updatePaymentsOf,
              Db.updateOrders, (Db.decrementAll_orders_payments _ _).2]
          · intro p hp hpo
            exact Or.inr (Or.inl ⟨hpend p hp hpo, rfl⟩)
          · intro o _ _ p _ _ hst
            simp at hst
  · refine Db.follows_of_update db _ orderId
      (fun o => { o with payment_status := .failed, status := .cancelled })
      (fun p => { p with status := .failed })
      hH rfl rfl (fun _ => rfl) (fun _ => rfl) ?_ ?_
    · intro p hp hpo
      exact Or.inr (Or.inr (Or.inl ⟨hpend p hp hpo, rfl⟩))
    · intro o _ _ p _ _ hst
      simp at hst

/-- A refund whose payments, the rows of the order that carry the capture, are
succeeded moves them to refunded and keeps payments following. -/
theorem paypalPaymentService.refundPayment_forward (db : Db) (refunded : Bool)
    (hasCapture : Payment → Bool) (orderId : Nat) (hH : db.paymentsFollowOrders)
    (hsel : ∀ p ∈ db.payments, p.order_id = orderId → hasCapture p = true →
      p.status = .succeeded) :
    db.paymentsForward (paypalPaymentService.refundPayment db refunded hasCapture orderId).db ∧
    (paypalPaymentService.refundPayment db refunded hasCapture
      orderId).db.paymentsFollowOrders := by
  apply transact_db_cases (fun d => db.paymentsForward d ∧ d.paymentsFollowOrders) _ _
    ⟨db.paymentsForward_refl, hH⟩
  intro a db' hbody
  simp only [paypalPaymentService.refundPaymentBody] at hbody
  split at hbody
  · simp at hbody
  · simp only [Except.ok.injEq, Prod.mk.injEq] at hbody
    obtain ⟨_, rfl⟩ := hbody
    refine Db.follows_of_update db _ orderId
      (fun o => { o with payment_status := .refunded, status := .refunded })
      (fun p => if hasCapture p = true then { p with status := .refunded } else p)
      hH ?_ ?_ (fun _ => rfl) ?_ ?_ ?_
    · simp only [(Db.incrementAll_orders_payments _ _).1, Db.updateOrders]
    · simp only [(Db.incrementAll_orders_payments _ _).2, Db.updateOrders]
      apply List.map_congr_left
      intro p _
      by_cases hp : p.order_id = orderId <;> simp [hp]
    · intro p
      dsimp only
      split_ifs <;> rfl
    · intro p hp hpo
      by_cases hc : hasCapture p = true
      · simp only [if_pos hc]
        exact Or.inr (Or.inr (Or.inr ⟨hsel p hp hpo hc, rfl⟩))
      · simp only [if_neg hc]
        exact Or.inl rfl
    · intro o _ _ p _ _ hst
      simp at hst

/-- What a creation path appends: nothing, or one order with the next key and
payment_status pending and one pending payment of that order. -/
theorem Op.run_creates_rows (op : Op) (db : Db) (hc : op.creates = true) :
    ((op.run db).orders = db.orders ∧ (op.run db).payments = db.payments) ∨
    ∃ o p, (op.run db).orders = db.orders ++ [o] ∧ (op.run db).payments = db.payments ++ [p] ∧
      o.id = db.nextOrderId ∧ o.payment_status = .pending ∧ p.order_id = o.id ∧
      p.status = .pending := by
  cases op with
  | createOrder env orderData =>
    simp only [Op.run]
    cases hr : (orderService.createOrder db env orderData).result with
    | error e =>
      left
      rw [orderService.createOrder, transact_db_of_result_error db _ e hr]
      exact ⟨rfl, rfl⟩
    | ok r =>
      right
      obtain ⟨subtotal, items, _, _, hdb⟩ := orderService.createOrder_ok_inv db env orderData r hr
      rw [hdb]
      exact ⟨_, _, rfl, rfl, rfl, rfl, rfl, rfl⟩
  | stripeCreatePaymentOrder env c s b u =>
    simp only [Op.run]
    cases hr : (stripePaymentService.createPaymentOrder db env c s b u).result with
    | error e =>
      left
      rw [stripePaymentService.createPaymentOrder, transact_db_of_result_error db _ e hr]
      exact ⟨rfl, rfl⟩
    | ok r =>
      right
      obtain ⟨subtotal, _, _, hdb⟩ :=
        stripePaymentService.createPaymentOrder_ok_inv db env c s b u r hr
      rw [hdb]
      exact ⟨_, _, rfl, rfl, rfl, rfl, rfl, rfl⟩
  | paypalCreatePaymentOrder env g c s b u =>
    simp only [Op.run]
    cases hre : paypalPaymentService.reusableOrder db env g u with
    | some existing =>
      left
      rw [(paypalPaymentService.createPaymentOrder_reuse db env g c s b u existing hre).2]
      exact ⟨rfl, rfl⟩
    | none =>
      cases hr : (paypalPaymentService.createPaymentOrder db env g c s b u).result with
      | error e =>
        left
        rw [paypalPaymentService.createPaymentOrder, transact_db_of_result_error db _ e hr]
        exact ⟨rfl, rfl⟩
      | ok r =>
        right
        obtain ⟨subtotal, _, _, _, hdb⟩ :=
          paypalPaymentService.createPaymentOrder_ok_of_none db env g c s b u r hre hr
        rw [hdb]
        exact ⟨_, _, rfl, rfl, rfl, rfl, rfl, rfl⟩
  | updatePaymentStatus orderId paymentStatus => simp [Op.creates] at hc
  | updateOrderStatus orderId status => simp [Op.creates] at hc
  | cancelOrder now orderId userId userRole reason notes => simp [Op.creates] at hc
  | stripeConfirmPayment gateway orderId userId => simp [Op.creates] at hc
  | stripeHandle3DSecureAction gateway orderId userId => simp [Op.creates] at hc
  | stripeHandleWebhook event => simp [Op.creates] at hc
  | paypalCapture gateway orderId userId => simp [Op.creates] at hc
  | paypalHandleWebhook environment event => simp [Op.creates] at hc
  | paypalCaptureStatusWebhook event hasCapture => simp [Op.creates] at hc
  | paypalRefundPayment refunded hasCapture orderId => simp [Op.creates] at hc

/-- A creation path leaves the payments that were there and keeps payments
following their orders. -/
theorem Op.run_creates_forward (op : Op) (db : Db) (hc : op.creates = true)
    (hH : db.paymentsFollowOrders) :
    db.paymentsForward (op.run db) ∧ (op.run db).paymentsFollowOrders := by
  rcases Op.run_creates_rows op db hc with ⟨ho, hp⟩ | ⟨o, p, ho, hp, hid, hpay, hpo, hps⟩
  · refine ⟨⟨db.paymentStatuses, [], ?_,
      List.forall₂_same.mpr (fun _ _ => Or.inl rfl), fun _ h => nomatch h⟩, ?_, ?_⟩
    · simp [Db.paymentStatuses, hp]
    · intro o' ho' hpend p' hp' hid'
      rw [ho] at ho'
      rw [hp] at hp'
      exact hH.1 o' ho' hpend p' hp' hid'
    · intro p' hp'
      rw [hp] at hp'
      rw [ho]
      exact hH.2 p' hp'
  · refine ⟨⟨db.paymentStatuses, [p.status], ?_,
      List.forall₂_same.mpr (fun _ _ => Or.inl rfl), ?_⟩, ?_, ?_⟩
    · simp [Db.paymentStatuses, hp]
    · intro s hs
      rw [List.mem_singleton] at hs
      rw [hs, hps]
    · intro o' ho' hpend p' hp' hid'
      rw [ho, List.mem_append, List.mem_singleton] at ho'
      rw [hp, List.mem_append, List.mem_singleton] at hp'
      rcases hp' with hp' | hp'
      · rcases ho' with ho' | ho'
        · exact hH.1 o' ho' hpend p' hp' hid'
        · obtain ⟨o0, ho0, hid0⟩ := hH.2 p' hp'
          have := db.lt_nextOrderId o0 ho0
          rw [ho', hid] at hid'
          omega
      · rw [hp', hps]
    · intro p' hp'
      rw [hp, List.mem_append, List.mem_singleton] at hp'
      rcases hp' with hp' | hp'
      · obtain ⟨o0, ho0, hid0⟩ := hH.2 p' hp'
        exact ⟨o0, by rw [ho]; exact List.mem_append_left _ ho0, hid0⟩
      · exact ⟨o, by rw [ho]; exact List.mem_append_right _ (List.mem_singleton.mpr rfl),
          by rw [hp', hpo]⟩

/-- One call that looks at the order first moves the payments forward and keeps
them following their orders. -/
theorem Op.run_forward (op : Op) (db : Db) (hH : db.paymentsFollowOrders)
    (hc : op.checksOrderFirst db = true) :
    db.paymentsForward (op.run db) ∧ (op.run db).paymentsFollowOrders := by
  cases op with
  | createOrder env orderData => exact Op.run_creates_forward _ db rfl hH
  | stripeCreatePaymentOrder env c s b u => exact Op.run_creates_forward _ db rfl hH
  | paypalCreatePaymentOrder env g c s b u => exact Op.run_creates_forward _ db rfl hH
  | updateOrderStatus orderId status => exact orderService.updateOrderStatus_forward db _ _ hH
  | cancelOrder now orderId userId userRole reason notes =>
    exact orderService.cancelOrder_forward db _ _ _ _ _ _ hH
  | stripeConfirmPayment gateway orderId userId =>
    exact stripePaymentService.confirmPayment_forward db _ _ _ hH
  | paypalCapture gateway orderId userId =>
    simp only [Op.checksOrderFirst] at hc
    cases hfind : db.findOrderOfUser orderId userId with
    | none => simp [hfind] at hc
    | some order =>
      simp only [hfind, decide_eq_true_eq] at hc
      exact paypalPaymentService.capture_forward db _ _ _ order hH hfind hc
  | paypalRefundPayment refunded hasCapture orderId =>
    refine paypalPaymentService.refundPayment_forward db _ _ _ hH ?_
    intro p hp hpo hcap
    simp only [Op.checksOrderFirst, List.all_eq_true] at hc
    have := hc p hp
    simpa [hpo, hcap] using this
  | updatePaymentStatus orderId paymentStatus => simp [Op.checksOrderFirst] at hc
  | stripeHandle3DSecureAction gateway orderId userId => simp [Op.checksOrderFirst] at hc
  | stripeHandleWebhook event => simp [Op.checksOrderFirst] at hc
  | paypalHandleWebhook environment event => simp [Op.checksOrderFirst] at hc
  | paypalCaptureStatusWebhook event hasCapture => simp [Op.checksOrderFirst] at hc

/-- Along a sequence of calls that look at the order first every call moves the
payments forward, and the payments follow their orders at the end. -/
theorem runAll_forward (ops : List Op) : ∀ db : Db, db.paymentsFollowOrders →
    checkedAlong ops db = true →
    stepsForward ops db ∧ (runAll ops db).paymentsFollowOrders := by
  induction ops with
  | nil => intro db hH _; exact ⟨trivial, hH⟩
  | cons op rest ih =>
    intro db hH hc
    simp only [checkedAlong, Bool.and_eq_true] at hc
    obtain ⟨h1, h2⟩ := Op.run_forward op db hH hc.1
    obtain ⟨h3, h4⟩ := ih (op.run db) h2 hc.2
    exact ⟨⟨h1, h3⟩, h4⟩

/-- C20, amended: on the calls that look at the order first a payment status only
moves forward. `updatePaymentStatus` on a stored order writes the requested
status, one of pending, paid, failed, refunded (succeeded for paid), on every
payment of that order, whatever it was. A store without orders and payments has
its payments following their orders. From a store whose payments follow their
orders, one call that looks at the order first, and so every call of a sequence
of them, leaves each payment status as it is or makes one of the changes
pending to succeeded, pending to failed, succeeded to refunded, appends only
pending payments, and keeps the payments following their orders. Such a change
never turns succeeded or refunded into failed or pending, nor failed or
refunded into succeeded. -/
theorem payment_status_moves_forward_on_checked_calls :
    (∀ (db : Db) (orderId : Nat) (paymentStatus : PayStatus) (order : Order),
      db.findOrder orderId = some order →
      paymentStatus = .pending ∨ paymentStatus = .paid ∨ paymentStatus = .failed ∨
        paymentStatus = .refunded →
      (orderService.updatePaymentStatus db orderId paymentStatus).db.payments =
        db.payments.map (fun p =>
          if p.order_id = orderId then
            { p with status := if paymentStatus = .paid then .succeeded else paymentStatus }
          else p)) ∧
    (∀ db : Db, db.orders = [] → db.payments = [] → db.paymentsFollowOrders) ∧
    (∀ (op : Op) (db : Db), db.paymentsFollowOrders → op.checksOrderFirst db = true →
      db.paymentsForward (op.run db) ∧ (op.run db).paymentsFollowOrders) ∧
    (∀ (ops : List Op) (db : Db), db.paymentsFollowOrders → checkedAlong ops db = true →
      stepsForward ops db ∧ (runAll ops db).paymentsFollowOrders) ∧
    (∀ before after : PayStatus, statusForward before after →
      (before = .succeeded ∨ before = .refunded → after ≠ .failed ∧ after ≠ .pending) ∧
      (before = .failed ∨ before = .refunded → after ≠ .succeeded)) := by
  refine ⟨fun db orderId paymentStatus order hfind _ =>
      orderService.updatePaymentStatus_payments db orderId paymentStatus order hfind,
    ?_, Op.run_forward, runAll_forward, ?_⟩
  · intro db ho hp
    refine ⟨?_, ?_⟩
    · intro o hmem
      rw [ho] at hmem
      cases hmem
    · intro p hmem
      rw [hp] at hmem
      cases hmem
  · intro before after h
    cases before <;> cases after <;> simp [statusForward] at h ⊢

/-- Witness of C20, amended: on the captured PayPal order `updatePaymentStatus`
with failed writes failed on its payment; the store of section 8 has no order
and no payment; the refund of the captured order moves its payment from
succeeded to refunded; a PayPal order created, captured and refunded has its
payment pending, then succeeded, then refunded. -/
theorem payment_status_moves_forward_on_checked_calls_witness :
    Scenario.paypalCaptured.findOrder 1 =
      some { Scenario.paypalOrder with status := .confirmed, payment_status := .paid } ∧
    (orderService.updatePaymentStatus Scenario.paypalCaptured 1 .failed).db.payments =
      Scenario.paypalCaptured.payments.map (fun p =>
        if p.order_id = 1 then
          { p with status := if PayStatus.failed = .paid then .succeeded else .failed }
        else p) ∧
    Scenario.shop.paymentsFollowOrders ∧
    Scenario.paypalCaptured.paymentsFollowOrders ∧
    (Op.paypalRefundPayment true (fun _ => true) 1).checksOrderFirst Scenario.paypalCaptured =
      true ∧
    (Scenario.paypalCaptured.paymentsForward
        ((Op.paypalRefundPayment true (fun _ => true) 1).run Scenario.paypalCaptured) ∧
      ((Op.paypalRefundPayment true (fun _ => true) 1).run
        Scenario.paypalCaptured).paymentsFollowOrders) ∧
    checkedAlong Scenario.paypalLife Scenario.shop = true ∧
    (stepsForward Scenario.paypalLife Scenario.shop ∧
      (runAll Scenario.paypalLife Scenario.shop).paymentsFollowOrders) ∧
    (runAll (Scenario.paypalLife.take 1) Scenario.shop).paymentStatuses = [.pending] ∧
    (runAll (Scenario.paypalLife.take 2) Scenario.shop).paymentStatuses = [.succeeded] ∧
    (runAll Scenario.paypalLife Scenario.shop).paymentStatuses = [.refunded] ∧
    statusForward .succeeded .refunded ∧
    ((PayStatus.succeeded = .succeeded ∨ PayStatus.succeeded = .refunded →
        PayStatus.refunded ≠ .failed ∧ PayStatus.refunded ≠ .pending) ∧
      (PayStatus.succeeded = .failed ∨ PayStatus.succeeded = .refunded →
        PayStatus.refunded ≠ .succeeded)) :=
  ⟨by decide,
   payment_status_moves_forward_on_checked_calls.1 Scenario.paypalCaptured 1 .failed
     { Scenario.paypalOrder with status := .confirmed, payment_status := .paid } (by decide)
     (by decide),
   payment_status_moves_forward_on_checked_calls.2.1 Scenario.shop rfl rfl,
   by decide,
   by decide,
   payment_status_moves_forward_on_checked_calls.2.2.1
     (.paypalRefundPayment true (fun _ => true) 1) Scenario.paypalCaptured (by decide)
     (by decide),
   by decide,
   payment_status_moves_forward_on_checked_calls.2.2.2.1 Scenario.paypalLife Scenario.shop
     (by decide) (by decide),
   by decide, by decide, by decide,
   Or.inr (Or.inr (Or.inr ⟨rfl, rfl⟩)),
   payment_status_moves_forward_on_checked_calls.2.2.2.2 .succeeded .refunded
     (Or.inr (Or.inr (Or.inr ⟨rfl, rfl⟩)))⟩

/-! ## Settlement when a write fails (C17) -/

/-- A fault placed on one of the writes makes the run throw. -/
theorem runWrites_throws (ws : List (Db → Db)) : ∀ (k : Nat) (db : Db), k < ws.length →
    (runWrites ws (some k) db).2 = true := by
  induction ws with
  | nil => intro k db h; simp at h
  | cons w rest ih =>
    intro k db h
    cases k with
    | zero => rfl
    | succ k =>
      simp only [runWrites]
      exact ih k (w db) (by simpa using h)

/-- Without a fault every write is made and nothing is thrown. -/
theorem runWrites_none (ws : List (Db → Db)) : ∀ db : Db,
    runWrites ws none db = (ws.foldl (fun acc w => w acc) db, false) := by
  induction ws with
  | nil => intro db; rfl
  | cons w rest ih => intro db; simp only [runWrites, List.foldl_cons]; exact ih (w db)

theorem settlementWrites_length (items : List OrderItem) (orderId userId : Nat) :
    (settlementWrites items orderId userId).length = items.length + 3 := by
  simp [settlementWrites]

/-- Without a fault the writes of the settlement give the store of the
settlement transition. -/
theorem runWrites_settlementWrites_none (items : List OrderItem) (orderId userId : Nat)
    (db : Db) :
    runWrites (settlementWrites items orderId userId) none db =
      ((((db.decrementAll items).updateOrders orderId
          (fun o => { o with status := .confirmed, payment_status := .paid })).updatePaymentsOf
          orderId (fun p => { p with status := .succeeded })).clearCartOfUser userId, false) := by
  rw [runWrites_none]
  simp [settlementWrites, List.foldl_append, List.foldl_map, Db.decrementAll]

/-- A fault on one of the writes of the settlement makes it throw. -/
theorem settlementWrites_throws (items : List OrderItem) (orderId userId k : Nat) (db : Db)
    (hk : k < items.length + 3) :
    (runWrites (settlementWrites items orderId userId) (some k) db).2 = true :=
  runWrites_throws _ k db (by rw [settlementWrites_length]; exact hk)

/-- The Stripe settlement with a fault on one of its writes rethrows. -/
theorem stripePaymentService.completeOrderPaymentUnder_throws (db : Db) (orderId k : Nat)
    (hk : k < (db.itemsOf orderId).length + 3) :
    (stripePaymentService.completeOrderPaymentUnder (some k) db orderId).2 =
      some .orderCompletionFailed := by
  unfold stripePaymentService.completeOrderPaymentUnder
  split
  · rfl
  · simp [settlementWrites_throws _ _ _ k db hk]


/-- With no fault the services of this section are the services themselves. -/
theorem settlement_without_fault :
    (∀ (db : Db) (gateway : Option stripePaymentService.PaymentIntent) (orderId userId : Nat),
      stripePaymentService.confirmPaymentUnder none db gateway orderId userId =
        stripePaymentService.confirmPayment db gateway orderId userId) ∧
    (∀ (db : Db) (gateway : Option stripePaymentService.PaymentIntent) (orderId userId : Nat),
      stripePaymentService.handle3DSecureActionUnder none db gateway orderId userId =
        stripePaymentService.handle3DSecureAction db gateway orderId userId) ∧
    (∀ (db : Db) (event : Option stripePaymentService.Event),
      stripePaymentService.handleWebhookUnder none db event =
        stripePaymentService.handleWebhook db event) ∧
    (∀ (db : Db) (gateway : Option paypalPaymentService.CaptureResult) (orderId userId : Nat),
      paypalPaymentService.capturePayPalOrderAndCreateOrderUnder none db gateway orderId userId =
        paypalPaymentService.capturePayPalOrderAndCreateOrder db gateway orderId userId) ∧
    (∀ (db : Db) (environment : paypalPaymentService.Environment)
        (event : paypalPaymentService.Event),
      paypalPaymentService.handleWebhookUnder none db environment event =
        paypalPaymentService.handleWebhook db environment event) := by
  have hs : ∀ (db : Db) (orderId : Nat),
      stripePaymentService.completeOrderPaymentUnder none db orderId =
        match stripePaymentService.completeOrderPayment db orderId with
        | .ok db' => (db', none)
        | .error e => (db, some e) := by
    intro db orderId
    unfold stripePaymentService.completeOrderPaymentUnder
      stripePaymentService.completeOrderPayment
    cases db.findOrder orderId with
    | none => rfl
    | some order => simp [runWrites_settlementWrites_none]
  have hp : ∀ (db : Db) (orderId : Nat),
      paypalPaymentService.completeOrderPaymentUnder none db orderId =
        paypalPaymentService.completeOrderPayment db orderId := by
    intro db orderId
    unfold paypalPaymentService.completeOrderPaymentUnder
      paypalPaymentService.completeOrderPayment paypalPaymentService.completeOrderPaymentBody
    cases db.findOrder orderId with
    | none => rfl
    | some order => simp [runWrites_settlementWrites_none]
  refine ⟨?_, ?_, ?_, ?_, ?_⟩
  · intro db gateway orderId userId
    unfold stripePaymentService.confirmPaymentUnder stripePaymentService.confirmPayment
      stripePaymentService.confirmPaymentBodyUnder stripePaymentService.confirmPaymentBody
    congr 1
    simp only [hs]
    cases db.findOrderOfUser orderId userId with
    | none => rfl
    | some order =>
      dsimp only
      split_ifs
      · rfl
      · cases db.users.find? (fun u => u.id = userId) with
        | none => rfl
        | some u =>
          cases gateway with
          | none => rfl
          | some paymentIntent =>
            dsimp only
            cases paymentIntent.status with
            | succeeded =>
              dsimp only
              cases stripePaymentService.completeOrderPayment _ orderId <;> rfl
            | requires_action => rfl
            | requires_confirmation => rfl
            | processing => rfl
            | other => rfl
  · intro db gateway orderId userId
    unfold stripePaymentService.handle3DSecureActionUnder
      stripePaymentService.handle3DSecureAction
      stripePaymentService.handle3DSecureActionBodyUnder
      stripePaymentService.handle3DSecureActionBody
    congr 1
    simp only [hs]
    cases db.findOrderOfUser orderId userId with
    | none => rfl
    | some order =>
      cases gateway with
      | none => rfl
      | some paymentIntent =>
        dsimp only
        cases paymentIntent.status with
        | succeeded =>
          dsimp only
          cases stripePaymentService.completeOrderPayment _ orderId <;> rfl
        | requires_action => rfl
        | requires_confirmation => rfl
        | processing => rfl
        | other => rfl
  · intro db event
    unfold stripePaymentService.handleWebhookUnder
    cases event with
    | none => rfl
    | some event =>
      dsimp only
      split
      · rename_i orderId ht ho
        simp only [stripePaymentService.handleWebhook, ht, ho, hs]
        cases stripePaymentService.completeOrderPayment db orderId <;> rfl
      · rfl
  · intro db gateway orderId userId
    unfold paypalPaymentService.capturePayPalOrderAndCreateOrderUnder
      paypalPaymentService.capturePayPalOrderAndCreateOrder
    have hb : paypalPaymentService.capturePayPalOrderAndCreateOrderBodyUnder none db gateway
        orderId userId =
        paypalPaymentService.capturePayPalOrderAndCreateOrderBody db gateway orderId userId := by
      unfold paypalPaymentService.capturePayPalOrderAndCreateOrderBodyUnder
        paypalPaymentService.capturePayPalOrderAndCreateOrderBody
      simp only [runWrites_settlementWrites_none]
      rfl
    rw [hb]
  · intro db environment event
    unfold paypalPaymentService.handleWebhookUnder
    split
    · simp [paypalPaymentService.handleWebhook, *]
    · split
      · simp only [hp, paypalPaymentService.handleWebhook, if_neg, *]
        rfl
      · rfl

/-- C17 as stated does not hold. On the pending PayPal order of section 8 a
capture whose second write throws is rolled back, and its `catch` then leaves
order 1 cancelled with payment_status failed and its payment failed. On the
pending Stripe order the `payment_intent.succeeded` webhook whose second write
throws leaves product 1 at 3 instead of 5 with order 1 still pending, and when
its fourth write throws stock is taken and order 1 is confirmed and paid while
its payment is still pending and the cart is still full. -/
theorem settlement_failure_leaves_changes_behind :
    (paypalPaymentService.capturePayPalOrderAndCreateOrderUnder (some 1) Scenario.paypalPending
      Scenario.captureCompleted 1 1).result = .error .orderCompletionFailed ∧
    Scenario.paypalPending.findOrder 1 = some Scenario.paypalOrder ∧
    Scenario.paypalPending.paymentStatuses = [.pending] ∧
    (paypalPaymentService.capturePayPalOrderAndCreateOrderUnder (some 1) Scenario.paypalPending
      Scenario.captureCompleted 1 1).db.findOrder 1 =
      some { Scenario.paypalOrder with status := .cancelled, payment_status := .failed } ∧
    (paypalPaymentService.capturePayPalOrderAndCreateOrderUnder (some 1) Scenario.paypalPending
      Scenario.captureCompleted 1 1).db.paymentStatuses = [.failed] ∧
    (stripePaymentService.handleWebhookUnder (some 1) Scenario.stripePending
      Scenario.intentSucceeded).result = .error .orderCompletionFailed ∧
    Scenario.stripePending.stock 1 = some 5 ∧
    (stripePaymentService.handleWebhookUnder (some 1) Scenario.stripePending
      Scenario.intentSucceeded).db.stock 1 = some 3 ∧
    (stripePaymentService.handleWebhookUnder (some 1) Scenario.stripePending
      Scenario.intentSucceeded).db.findOrder 1 = some Scenario.stripeOrder ∧
    (stripePaymentService.handleWebhookUnder (some 3) Scenario.stripePending
      Scenario.intentSucceeded).result = .error .orderCompletionFailed ∧
    (stripePaymentService.handleWebhookUnder (some 3) Scenario.stripePending
      Scenario.intentSucceeded).db.findOrder 1 =
      some { Scenario.stripeOrder with status := .confirmed, payment_status := .paid } ∧
    (stripePaymentService.handleWebhookUnder (some 3) Scenario.stripePending
      Scenario.intentSucceeded).db.paymentStatuses = [.pending] ∧
    (stripePaymentService.handleWebhookUnder (some 3) Scenario.stripePending
      Scenario.intentSucceeded).db.cartItems = Scenario.stripePending.cartItems :=
  ⟨rfl, by decide, by decide, by decide, by decide, rfl, by decide, by decide, by decide, rfl,
   by decide, by decide, by decide⟩

/-- C17, amended: on the paths that run the settlement inside a transaction, a
settlement in which write number `k` of the store throws (any of the decrements,
the order update, the payment update, the cart deletion) fails with the
completion error and leaves nothing of the attempt behind. Stripe
`confirmPayment` and `handle3DSecureAction` and the PayPal capture-completed
webhook leave the store exactly as it was. The PayPal capture leaves products,
carts, cart items and order lines as they were and the store is the one its
`catch` writes from the store of before: the order cancelled with payment_status
failed, its payments failed. -/
theorem settlement_failure_rolls_back_inside_transaction (db : Db) (orderId userId k : Nat)
    (order : Order) (intentId captureId : Nat)
    (hfind : db.findOrderOfUser orderId userId = some order)
    (hpay : order.payment_status = .pending)
    (huser : ∃ u ∈ db.users, u.id = userId)
    (hk : k < (db.itemsOf orderId).length + 3) :
    ((stripePaymentService.confirmPaymentUnder (some k) db
        (some { id := intentId, status := .succeeded }) orderId userId).result =
        .error .orderCompletionFailed ∧
      (stripePaymentService.confirmPaymentUnder (some k) db
        (some { id := intentId, status := .succeeded }) orderId userId).db = db) ∧
    ((stripePaymentService.handle3DSecureActionUnder (some k) db
        (some { id := intentId, status := .succeeded }) orderId userId).result =
        .error .orderCompletionFailed ∧
      (stripePaymentService.handle3DSecureActionUnder (some k) db
        (some { id := intentId, status := .succeeded }) orderId userId).db = db) ∧
    ((paypalPaymentService.handleWebhookUnder (some k) db .sandbox
        (.payment_capture_completed (some orderId))).result = .error .orderCompletionFailed ∧
      (paypalPaymentService.handleWebhookUnder (some k) db .sandbox
        (.payment_capture_completed (some orderId))).db = db) ∧
    ((paypalPaymentService.capturePayPalOrderAndCreateOrderUnder (some k) db
        (some { completed := true, captureId := some captureId }) orderId userId).result =
        .error .orderCompletionFailed ∧
      (paypalPaymentService.capturePayPalOrderAndCreateOrderUnder (some k) db
        (some { completed := true, captureId := some captureId }) orderId userId).db =
        { db with
          orders := db.orders.map (fun o =>
            if o.id = orderId then { o with payment_status := .failed, status := .cancelled }
            else o)
          payments := db.payments.map (fun p =>
            if p.order_id = orderId then { p with status := .failed } else p) }) := by
  obtain ⟨u, hu⟩ := find?_user_isSome db userId huser
  have hitems : ∀ f : Payment → Payment,
      (db.updatePaymentsOf orderId f).itemsOf orderId = db.itemsOf orderId := fun _ => rfl
  refine ⟨?_, ?_, ?_, ?_⟩
  · have ht := stripePaymentService.completeOrderPaymentUnder_throws
      (db.updatePaymentsOf orderId (fun p => { p with payment_intent_id := some intentId }))
      orderId k (by rw [hitems]; exact hk)
    have hb : stripePaymentService.confirmPaymentBodyUnder (some k) db
        (some { id := intentId, status := .succeeded }) orderId userId =
        .error .orderCompletionFailed := by
      simp only [stripePaymentService.confirmPaymentBodyUnder, hfind, hpay, hu]
      simp only [ne_eq, not_true_eq_false, if_false]
      split
      · rename_i heq
        rw [heq] at ht
        simp at ht
        rw [ht]
      · rename_i heq
        rw [heq] at ht
        simp at ht
    simp only [stripePaymentService.confirmPaymentUnder, hb, transact, and_self]
  · have ht := stripePaymentService.completeOrderPaymentUnder_throws db orderId k hk
    have hb : stripePaymentService.handle3DSecureActionBodyUnder (some k) db
        (some { id := intentId, status := .succeeded }) orderId userId =
        .error .orderCompletionFailed := by
      simp only [stripePaymentService.handle3DSecureActionBodyUnder, hfind]
      split
      · rename_i heq
        rw [heq] at ht
        simp at ht
        rw [ht]
      · rename_i heq
        rw [heq] at ht
        simp at ht
    simp only [stripePaymentService.handle3DSecureActionUnder, hb, transact, and_self]
  · have hb : paypalPaymentService.completeOrderPaymentUnder (some k) db orderId =
        ⟨.error .orderCompletionFailed, db⟩ := by
      unfold paypalPaymentService.completeOrderPaymentUnder
      split
      · rfl
      · simp [settlementWrites_throws _ _ _ k db hk, transact]
    simp [paypalPaymentService.handleWebhookUnder, hb]
  · have hb : paypalPaymentService.capturePayPalOrderAndCreateOrderBodyUnder (some k) db
        (some { completed := true, captureId := some captureId }) orderId userId =
        .error .orderCompletionFailed := by
      simp [paypalPaymentService.capturePayPalOrderAndCreateOrderBodyUnder, hfind, hpay,
        settlementWrites_throws _ _ _ k db hk]
    simp only [paypalPaymentService.capturePayPalOrderAndCreateOrderUnder, hb,
      paypalPaymentService.markCaptureFailed, Db.updateOrders, Db.updatePaymentsOf, and_self]

/-- Witness of C17, amended: on the pending Stripe and PayPal orders of section 8
(two lines, five writes) a throw at write 1, after the first line was
decremented, leaves the store as it was on the three rolled-back paths. -/
theorem settlement_failure_rolls_back_inside_transaction_witness :
    Scenario.stripePending.findOrderOfUser 1 1 = some Scenario.stripeOrder ∧
    ((stripePaymentService.confirmPaymentUnder (some 1) Scenario.stripePending
        (some { id := 101, status := .succeeded }) 1 1).result =
        .error .orderCompletionFailed ∧
      (stripePaymentService.confirmPaymentUnder (some 1) Scenario.stripePending
        (some { id := 101, status := .succeeded }) 1 1).db = Scenario.stripePending) :=
  ⟨by decide,
   (settlement_failure_rolls_back_inside_transaction Scenario.stripePending 1 1 1
      Scenario.stripeOrder 101 55 (by decide) rfl ⟨{ id := 1 }, by decide, rfl⟩
      (by decide)).1⟩

/-! ## Reuse of a pending PayPal order (C21) -/

/-- C21, evaluated on the code: user 1 has the pending PayPal order 1 with a
pending payment, created one minute before the call, and the remote order is
reported `CREATED`; `createPaymentOrder` answers with a new order 2 and stores a
second order and a second payment. With `payment.paypal_order_id` read through
the model of `models/Payment.js`, which does not declare the attribute, step 1
never answers with an existing order, whatever the store, the clock and the
remote status. -/
theorem paypal_pending_order_is_never_reused :
    paypalPaymentService.existingOrder Scenario.paypalPending 1 = some Scenario.paypalOrder ∧
    Scenario.paypalPending.paymentStatuses = [.pending] ∧
    (paypalPaymentService.createPaymentOrder Scenario.paypalPending Scenario.oneMinuteLater
      Scenario.remoteStillCreated 1 1 1 1).result =
      .ok { orderId := 2, orderNumber := 1002, paypalOrderId := 9002, amount := 4500,
            retrieved := false } ∧
    (paypalPaymentService.createPaymentOrder Scenario.paypalPending Scenario.oneMinuteLater
      Scenario.remoteStillCreated 1 1 1 1).db.orders.map (fun o => o.id) = [1, 2] ∧
    (paypalPaymentService.createPaymentOrder Scenario.paypalPending Scenario.oneMinuteLater
      Scenario.remoteStillCreated 1 1 1 1).db.paymentStatuses = [.pending, .pending] ∧
    (∀ (db : Db) (env : Env) (lookup : Option paypalPaymentService.RemoteStatus)
        (create : Option Nat) (userId : Nat),
      paypalPaymentService.reusableOrder db env
        { paypal_order_id := fun _ => none, lookup := lookup, create := create } userId =
        none) := by
  refine ⟨by decide, by decide, rfl, by decide, by decide, ?_⟩
  intro db env lookup create userId
  unfold paypalPaymentService.reusableOrder
  cases paypalPaymentService.existingOrder db userId with
  | none => rfl
  | some o =>
    dsimp only
    split
    · cases db.paymentOf o.id <;> rfl
    · rfl

/-! ## Answers of the endpoints (C22, C24) -/

/-- C22, evaluated on the code: the Stripe handler answers 400 when the
signature of the request does not verify, and 400 when the settlement throws on
a verified `payment_intent.succeeded`, where the PayPal handler answers 200 in
`live`, in which its service throws; and a request without a bearer token that
verifies is answered 401 by `authenticate` in front of both handlers. -/
theorem stripe_webhook_answers_400_when_processing_throws :
    (stripePaymentController.handleWebhook none Scenario.stripePending
      { signatureVerifies := false,
        event := { type := .payment_intent_succeeded, paymentIntentId := 101,
                   order_id := some 1 } }).status = 400 ∧
    (stripePaymentController.handleWebhook (some 1) Scenario.stripePending
      { signatureVerifies := true,
        event := { type := .payment_intent_succeeded, paymentIntentId := 101,
                   order_id := some 1 } }).status = 400 ∧
    (authenticate false Scenario.stripePending
      (stripePaymentController.handleWebhook none Scenario.stripePending
        { signatureVerifies := true,
          event := { type := .payment_intent_succeeded, paymentIntentId := 101,
                     order_id := some 1 } })).status = 401 ∧
    (authenticate false Scenario.paypalPending
      (paypalPaymentController.handlePayPalWebhook Scenario.paypalPending .sandbox
        { signatureVerifies := true,
          body := .order (.payment_capture_completed (some 1)) })).status = 401 ∧
    (paypalPaymentService.handleWebhookRequest Scenario.paypalPending .live
      { signatureVerifies := true,
        body := .order (.payment_capture_completed (some 1)) }).result =
      .error .webhookSignatureFailed ∧
    (paypalPaymentController.handlePayPalWebhook Scenario.paypalPending .live
      { signatureVerifies := true,
        body := .order (.payment_capture_completed (some 1)) }).status = 200 :=
  ⟨by decide, by decide, by decide, by decide, rfl, by decide⟩

/-- Answers of the two webhook handlers: the PayPal handler answers 200 whether
the service returns or throws, for every request, environment and store; the
Stripe handler answers 200 when the service returns and 400 when it throws, a
failed signature check included. -/
theorem webhook_handlers_answer_by_outcome :
    (∀ called : Outcome Unit, (paypalPaymentController.respond called).status = 200) ∧
    (∀ (db : Db) (environment : paypalPaymentService.Environment)
        (req : paypalPaymentService.Request),
      (paypalPaymentController.handlePayPalWebhook db environment req).status = 200) ∧
    (∀ called : Outcome Unit,
      (stripePaymentController.respond called).status =
        if called.succeeded then 200 else 400) ∧
    (∀ (fault : Option Nat) (db : Db) (req : stripePaymentService.Request),
      (stripePaymentController.handleWebhook fault db req).status =
        if (stripePaymentService.handleWebhookUnder fault db
              (stripePaymentService.constructEvent req)).succeeded then 200 else 400) ∧
    (∀ (fault : Option Nat) (db : Db) (req : stripePaymentService.Request),
      req.signatureVerifies = false →
      (stripePaymentController.handleWebhook fault db req).status = 400) := by
  have hp : ∀ called : Outcome Unit, (paypalPaymentController.respond called).status = 200 := by
    intro called
    unfold paypalPaymentController.respond
    split <;> rfl
  have hs : ∀ called : Outcome Unit,
      (stripePaymentController.respond called).status =
        if called.succeeded then 200 else 400 := by
    intro called
    cases hr : called.result <;>
      simp [stripePaymentController.respond, Outcome.succeeded, hr]
  refine ⟨hp, fun db environment req => hp _, hs, fun fault db req => hs _, ?_⟩
  intro fault db req hreq
  unfold stripePaymentController.handleWebhook
  rw [hs]
  simp [stripePaymentService.constructEvent, hreq, stripePaymentService.handleWebhookUnder,
    Outcome.succeeded]

/-- C24 as stated does not hold: for an address that is not one of the user the
service fails with address not found and the endpoint answers 400, not 404; and
for a creation that fails because a statement of the store throws the endpoint
answers 400, not 500. -/
theorem createOrder_endpoint_answers_400_for_address_and_store :
    (orderService.createOrder Scenario.shop Scenario.env
      { user_id := 1, cart_id := 1, address_id := 9 }).result = .error .addressNotFound ∧
    (orderController.createOrder Scenario.shop Scenario.env false
      { user_id := 1, cart_id := 1, address_id := 9 }).status = 400 ∧
    (orderController.respond ⟨.error .storeFailure, Scenario.shop⟩).status = 400 :=
  ⟨rfl, by decide, by decide⟩

/-- C24, amended: the create-order endpoint answers 201 when the creation
succeeds and 400 for every failure, whatever its cause: a request the validators
refuse, and whatever the service throws (insufficient stock, empty cart, address
not found, a statement of the store that throws); after a failure of the service
the store is the one the service left. -/
theorem createOrder_endpoint_answers_400_on_every_failure :
    (∀ called : Outcome orderService.Created,
      (orderController.respond called).status = if called.succeeded then 201 else 400) ∧
    (∀ (db : Db) (e : Err), (orderController.respond ⟨.error e, db⟩).status = 400) ∧
    (∀ (db : Db) (env : Env) (validationFailed : Bool) (orderData : orderService.OrderData),
      (orderController.createOrder db env validationFailed orderData).status =
        if validationFailed = false ∧
            (orderService.createOrder db env orderData).succeeded = true then 201
        else 400) := by
  have h : ∀ called : Outcome orderService.Created,
      (orderController.respond called).status = if called.succeeded then 201 else 400 := by
    intro called
    cases hr : called.result <;> simp [orderController.respond, Outcome.succeeded, hr]
  refine ⟨h, fun db e => rfl, ?_⟩
  intro db env validationFailed orderData
  unfold orderController.createOrder
  cases validationFailed with
  | true => simp
  | false =>
    simp only [Bool.false_eq_true, if_false, true_and]
    rw [h]

/-- Witness of C24, amended: on the store of section 8 the endpoint answers 201
for the cash-on-delivery request, and 400 for the same request when the second
line asks for more than the stock, when the cart is empty and when the address
is not one of the user. -/
theorem createOrder_endpoint_answers_400_on_every_failure_witness :
    (orderController.createOrder Scenario.shop Scenario.env false
      Scenario.codRequest).status = 201 ∧
    (orderService.createOrder Scenario.overAsked Scenario.env Scenario.codRequest).result =
      .error (.insufficientStock 2 1 5) ∧
    (orderController.createOrder Scenario.overAsked Scenario.env false
      Scenario.codRequest).status = 400 ∧
    (orderService.createOrder Scenario.emptyCart Scenario.env Scenario.codRequest).result =
      .error .cartEmpty ∧
    (orderController.createOrder Scenario.emptyCart Scenario.env false
      Scenario.codRequest).status = 400 ∧
    (orderController.createOrder Scenario.shop Scenario.env false
      { user_id := 1, cart_id := 1, address_id := 9 }).status = 400 :=
  ⟨(createOrder_endpoint_answers_400_on_every_failure.2.2 Scenario.shop Scenario.env false
      Scenario.codRequest).trans (by decide),
   rfl,
   (createOrder_endpoint_answers_400_on_every_failure.2.2 Scenario.overAsked Scenario.env
      false Scenario.codRequest).trans (by decide),
   rfl,
   (createOrder_endpoint_answers_400_on_every_failure.2.2 Scenario.emptyCart Scenario.env
      false Scenario.codRequest).trans (by decide),
   (createOrder_endpoint_answers_400_on_every_failure.2.2 Scenario.shop Scenario.env false
      { user_id := 1, cart_id := 1, address_id := 9 }).trans (by decide)⟩

/-! ## Webhook requests whose signature does not verify (C23) -/

/-- C23 as stated does not hold: in the sandbox environment, the default, the
PayPal handler settles order 1 on a `PAYMENT.CAPTURE.COMPLETED` request whose
signature does not verify: product 1 goes from 5 to 3, the order is confirmed
and paid, its payment succeeded and the cart of the user emptied. -/
theorem paypal_sandbox_webhook_is_processed_unverified :
    Scenario.paypalPending.stock 1 = some 5 ∧
    (paypalPaymentService.handleWebhookRequest Scenario.paypalPending .sandbox
      { signatureVerifies := false,
        body := .order (.payment_capture_completed (some 1)) }).result = .ok () ∧
    (paypalPaymentService.handleWebhookRequest Scenario.paypalPending .sandbox
      { signatureVerifies := false,
        body := .order (.payment_capture_completed (some 1)) }).db.stock 1 = some 3 ∧
    (paypalPaymentService.handleWebhookRequest Scenario.paypalPending .sandbox
      { signatureVerifies := false,
        body := .order (.payment_capture_completed (some 1)) }).db.findOrder 1 =
      some { Scenario.paypalOrder with status := .confirmed, payment_status := .paid } ∧
    (paypalPaymentService.handleWebhookRequest Scenario.paypalPending .sandbox
      { signatureVerifies := false,
        body := .order (.payment_capture_completed (some 1)) }).db.paymentStatuses =
      [.succeeded] ∧
    (paypalPaymentService.handleWebhookRequest Scenario.paypalPending .sandbox
      { signatureVerifies := false,
        body := .order (.payment_capture_completed (some 1)) }).db.cartItems = [] :=
  ⟨by decide, rfl, by decide, by decide, by decide, by decide⟩

/-- C23, amended: for every webhook request whose signature does not verify,
whatever event type and order id it carries, `stripePaymentService.handleWebhook`
fails at the signature check and leaves the store as it was, and so does
`paypalPaymentService.handleWebhook` when the configured environment is `live`. -/
theorem unverified_webhook_is_dropped (db : Db) (card : stripePaymentService.Request)
    (paypal : paypalPaymentService.Request)
    (hcard : card.signatureVerifies = false) (hpaypal : paypal.signatureVerifies = false) :
    (stripePaymentService.handleWebhook db (stripePaymentService.constructEvent card)).result =
      .error .webhookSignatureFailed ∧
    (stripePaymentService.handleWebhook db (stripePaymentService.constructEvent card)).db =
      db ∧
    (paypalPaymentService.handleWebhookRequest db .live paypal).succeeded = false ∧
    (paypalPaymentService.handleWebhookRequest db .live paypal).db = db := by
  have hl : paypal.signatureVerifies = false →
      paypalPaymentService.handleWebhookRequest db .live paypal =
        ⟨.error .webhookSignatureFailed, db⟩ := by
    intro _
    simp [paypalPaymentService.handleWebhookRequest]
  rw [hl hpaypal]
  simp [stripePaymentService.constructEvent, hcard, stripePaymentService.handleWebhook,
    Outcome.succeeded]

/-- Witness of C23, amended: the `payment_intent.succeeded` and
`PAYMENT.CAPTURE.COMPLETED` requests for the pending order 1, with signatures
that do not verify, leave the store of section 8 as it was. -/
theorem unverified_webhook_is_dropped_witness :
    (stripePaymentService.handleWebhook Scenario.stripePending
      (stripePaymentService.constructEvent
        { signatureVerifies := false,
          event := { type := .payment_intent_succeeded, paymentIntentId := 101,
                     order_id := some 1 } })).db = Scenario.stripePending ∧
    (paypalPaymentService.handleWebhookRequest Scenario.stripePending .live
      { signatureVerifies := false,
        body := .order (.payment_capture_completed (some 1)) }).db = Scenario.stripePending :=
  have h := unverified_webhook_is_dropped Scenario.stripePending
    { signatureVerifies := false,
      event := { type := .payment_intent_succeeded, paymentIntentId := 101,
                 order_id := some 1 } }
    { signatureVerifies := false, body := .order (.payment_capture_completed (some 1)) }
    rfl rfl
  ⟨h.2.1, h.2.2.2⟩

/-! ## Two requests for the last unit (C25) -/

/-- The two moves of a call of `createOrder`, made with nothing in between, are
the service `createOrder`. -/
theorem orderService.createOrder_eq_two_steps (db : Db) (env : Env)
    (orderData : orderService.OrderData) :
    (orderService.Progress.step env orderData
      (orderService.Progress.step env orderData .started db).1
      (orderService.Progress.step env orderData .started db).2) =
      (.returned (orderService.createOrder db env orderData).result,
        (orderService.createOrder db env orderData).db) := by
  have hbody : orderService.createOrderBody db env orderData =
      match orderService.createOrderReads db orderData with
      | .error e => .error e
      | .ok (subtotal, orderItemsData) =>
        .ok (orderService.createOrderWrites db env orderData subtotal orderItemsData) := by
    unfold orderService.createOrderBody orderService.createOrderReads
      orderService.createOrderWrites
    by_cases h1 : orderData.user_id = 0
    · simp only [h1, if_true]
    by_cases h2 : orderData.cart_id = 0
    · simp only [h1, h2, if_true, if_false]
    by_cases h3 : orderData.address_id = 0
    · simp only [h1, h2, h3, if_true, if_false]
    simp only [h1, h2, h3, if_false]
    cases db.carts.find?
        (fun c => decide (c.id = orderData.cart_id ∧ c.user_id = orderData.user_id)) with
    | none => rfl
    | some cart =>
      dsimp only
      split
      · rfl
      · cases db.addresses.find?
            (fun a => decide (a.id = orderData.address_id ∧ a.user_id = orderData.user_id)) with
        | none => rfl
        | some address => rfl
  unfold orderService.createOrder
  rw [hbody]
  cases hr : orderService.createOrderReads db orderData with
  | error e => simp [orderService.Progress.step, hr, transact]
  | ok v => simp [orderService.Progress.step, hr, transact]

/-- C25, evaluated on the code: product 1 has one unit left and users 1 and 2 each
ask for it. When both calls of `createOrder` have read and validated before
either writes, both return an order and product 1 ends at -1. Only when one call
has written before the other reads does the second fail with insufficient stock
and product 1 end at 0. -/
theorem concurrent_createOrder_sells_last_unit_twice :
    Scenario.lastUnit.stock 1 = some 1 ∧
    (orderService.race Scenario.env Scenario.codRequest Scenario.env2 Scenario.codRequest2
      [true, false, true, false] Scenario.lastUnit).first =
      .returned (.ok { orderId := 1, orderNumber := 1001, amount := 1000 }) ∧
    (orderService.race Scenario.env Scenario.codRequest Scenario.env2 Scenario.codRequest2
      [true, false, true, false] Scenario.lastUnit).second =
      .returned (.ok { orderId := 2, orderNumber := 1002, amount := 1000 }) ∧
    (orderService.race Scenario.env Scenario.codRequest Scenario.env2 Scenario.codRequest2
      [true, false, true, false] Scenario.lastUnit).db.stock 1 = some (-1) ∧
    (orderService.race Scenario.env Scenario.codRequest Scenario.env2 Scenario.codRequest2
      [true, true, false, false] Scenario.lastUnit).first =
      .returned (.ok { orderId := 1, orderNumber := 1001, amount := 1000 }) ∧
    (orderService.race Scenario.env Scenario.codRequest Scenario.env2 Scenario.codRequest2
      [true, true, false, false] Scenario.lastUnit).second =
      .returned (.error (.insufficientStock 1 0 1)) ∧
    (orderService.race Scenario.env Scenario.codRequest Scenario.env2 Scenario.codRequest2
      [true, true, false, false] Scenario.lastUnit).db.stock 1 = some 0 :=
  ⟨by decide, rfl, rfl, by decide, rfl, rfl, by decide⟩

/-! ## Values written to the status columns (C26) -/

/-- C26, evaluated on the code: when the gateway answers `processing`,
`confirmPayment` and `handle3DSecureAction` write `processing` to
`orders.payment_status`, which `models/Order.js` does not declare; and
`updatePaymentStatus` with the accepted value `cancelled` writes `cancelled` to
`payments.status`, which `models/Payment.js` does not declare. -/
theorem undeclared_status_values_are_written :
    (stripePaymentService.confirmPayment Scenario.stripePending
      (some { id := 101, status := .processing }) 1 1).db.findOrder 1 =
      some { Scenario.stripeOrder with payment_status := .processing } ∧
    (stripePaymentService.handle3DSecureAction Scenario.stripePending
      (some { id := 101, status := .processing }) 1 1).db.findOrder 1 =
      some { Scenario.stripeOrder with payment_status := .processing } ∧
    declaredOrderPaymentStatus .processing = false ∧
    (orderService.updatePaymentStatus Scenario.afterCod 1 .cancelled).result = .ok () ∧
    (orderService.updatePaymentStatus Scenario.afterCod 1 .cancelled).db.paymentStatuses =
      [.cancelled] ∧
    declaredPaymentStatus .cancelled = false :=
  ⟨by decide, by decide, rfl, rfl, by decide, rfl⟩

/-! ## Capture and 3-D Secure calls that should change nothing (C27, C28) -/

/-- C27, evaluated on the code: user 2 calls the capture for order 1 of user 1,
pending with a pending payment: the call fails with order not found and leaves
order 1 cancelled with payment_status failed and its payment failed. User 1 calls
the capture for the already paid order 1: the call fails with payment already
processed and leaves the confirmed, paid order cancelled with payment_status
failed and its succeeded payment failed. -/
theorem rejected_capture_marks_the_order_failed :
    Scenario.paypalPending.findOrder 1 = some Scenario.paypalOrder ∧
    (paypalPaymentService.capturePayPalOrderAndCreateOrder Scenario.paypalPending
      Scenario.captureCompleted 1 2).result = .error .orderNotFound ∧
    (paypalPaymentService.capturePayPalOrderAndCreateOrder Scenario.paypalPending
      Scenario.captureCompleted 1 2).db.findOrder 1 =
      some { Scenario.paypalOrder with status := .cancelled, payment_status := .failed } ∧
    (paypalPaymentService.capturePayPalOrderAndCreateOrder Scenario.paypalPending
      Scenario.captureCompleted 1 2).db.paymentStatuses = [.failed] ∧
    Scenario.paypalCaptured.findOrder 1 =
      some { Scenario.paypalOrder with status := .confirmed, payment_status := .paid } ∧
    Scenario.paypalCaptured.paymentStatuses = [.succeeded] ∧
    (paypalPaymentService.capturePayPalOrderAndCreateOrder Scenario.paypalCaptured
      Scenario.captureCompleted 1 1).result = .error (.paymentAlreadyProcessed .paid) ∧
    (paypalPaymentService.capturePayPalOrderAndCreateOrder Scenario.paypalCaptured
      Scenario.captureCompleted 1 1).db.findOrder 1 =
      some { Scenario.paypalOrder with status := .cancelled, payment_status := .failed } ∧
    (paypalPaymentService.capturePayPalOrderAndCreateOrder Scenario.paypalCaptured
      Scenario.captureCompleted 1 1).db.paymentStatuses = [.failed] :=
  ⟨by decide, rfl, by decide, by decide, by decide, by decide, rfl, by decide, by decide⟩

/-- C28, evaluated on the code: payment intent 101 is recorded on the payment of
order 1 and has succeeded; user 2, whose order 2 is pending with no payment
intent recorded, calls `handle3DSecureAction` for order 2 with intent 101: order
2 is settled, confirmed and paid, and product 1 goes from 0 to -1. And a second
call for the already paid order 1 of the section 8 cart takes its lines from
stock again: product 1 goes from 5 to 3 and then to 1. -/
theorem handle3DSecureAction_settles_without_checks :
    Scenario.firstConfirmed.payments.map (fun p => (p.order_id, p.payment_intent_id)) =
      [(1, some 101), (2, none)] ∧
    (Scenario.firstConfirmed.findOrder 2).map (fun o => (o.status, o.payment_status)) =
      some (.pending, .pending) ∧
    Scenario.firstConfirmed.stock 1 = some 0 ∧
    (stripePaymentService.handle3DSecureAction Scenario.firstConfirmed
      (some { id := 101, status := .succeeded }) 2 2).result =
      .ok { orderId := 2, status := .succeeded, paymentIntentId := 101,
            clientSecret := none } ∧
    ((stripePaymentService.handle3DSecureAction Scenario.firstConfirmed
      (some { id := 101, status := .succeeded }) 2 2).db.findOrder 2).map
        (fun o => (o.status, o.payment_status)) = some (.confirmed, .paid) ∧
    (stripePaymentService.handle3DSecureAction Scenario.firstConfirmed
      (some { id := 101, status := .succeeded }) 2 2).db.stock 1 = some (-1) ∧
    Scenario.stripePending.stock 1 = some 5 ∧
    ((stripePaymentService.handle3DSecureAction Scenario.stripePending Scenario.intent
      1 1).db.findOrder 1).map (fun o => (o.status, o.payment_status)) =
      some (.confirmed, .paid) ∧
    (stripePaymentService.handle3DSecureAction Scenario.stripePending Scenario.intent
      1 1).db.stock 1 = some 3 ∧
    (stripePaymentService.handle3DSecureAction
      (stripePaymentService.handle3DSecureAction Scenario.stripePending Scenario.intent
        1 1).db Scenario.intent 1 1).result =
      .ok { orderId := 1, status := .succeeded, paymentIntentId := 101,
            clientSecret := none } ∧
    (stripePaymentService.handle3DSecureAction
      (stripePaymentService.handle3DSecureAction Scenario.stripePending Scenario.intent
        1 1).db Scenario.intent 1 1).db.stock 1 = some 1 :=
  ⟨by decide, by decide, by decide, rfl, by decide, by decide, by decide, by decide,
   by decide, rfl, by decide⟩

/-! ## Quantities of cart items (C29) -/

/-- C29, evaluated on the code: `addItem` with quantity -3, and with quantity 0,
succeeds on the empty cart of user 1 and stores a line with that quantity;
`addItem` with quantity -2 brings the line of 2 units of the section 8 cart to 0.
`createOrder` on the cart with the line of -3 succeeds: the order line has
quantity -3, the order total is -30.00 and product 1 goes from 5 to 8. -/
theorem addItem_stores_non_positive_quantity :
    (cartService.addItem Scenario.emptyCart 1 1 (-3)).result = .ok () ∧
    (cartService.addItem Scenario.emptyCart 1 1 (-3)).db.cartItems =
      [{ id := 1, cart_id := 1, product_id := 1, quantity := -3 }] ∧
    (cartService.addItem Scenario.emptyCart 1 1 0).result = .ok () ∧
    (cartService.addItem Scenario.emptyCart 1 1 0).db.cartItems =
      [{ id := 1, cart_id := 1, product_id := 1, quantity := 0 }] ∧
    (cartService.addItem Scenario.shop 1 1 (-2)).result = .ok () ∧
    (cartService.addItem Scenario.shop 1 1 (-2)).db.cartItems =
      [{ id := 1, cart_id := 1, product_id := 1, quantity := 0 },
       { id := 2, cart_id := 1, product_id := 2, quantity := 1 }] ∧
    (orderService.createOrder Scenario.negativeLine Scenario.env Scenario.codRequest).result =
      .ok { orderId := 1, orderNumber := 1001, amount := -3000 } ∧
    (orderService.createOrder Scenario.negativeLine Scenario.env
      Scenario.codRequest).db.orderItems =
      [{ order_id := 1, product_id := 1, quantity := -3, unit_price := 1000,
         total_price := -3000 }] ∧
    Scenario.negativeLine.stock 1 = some 5 ∧
    (orderService.createOrder Scenario.negativeLine Scenario.env
      Scenario.codRequest).db.stock 1 = some 8 :=
  ⟨rfl, by decide, rfl, by decide, rfl, by decide, rfl, by decide, by decide, by decide⟩

/-! ## Who may cancel an order (C30) -/

/-- With unique order keys the order found by key is the only one with that key. -/
theorem find?_key_owner_eq (l : List Order) (orderId userId : Nat) (order other : Order)
    (hpk : l.Pairwise (fun a b => a.id ≠ b.id))
    (hfind : l.find? (fun o => decide (o.id = orderId)) = some order)
    (hother : l.find? (fun o => decide (o.id = orderId ∧ o.user_id = userId)) = some other) :
    other = order := by
  have h := find?_key_of_find?_key_owner l orderId userId other hpk hother
  rw [hfind] at h
  exact (Option.some.inj h).symm

/-- The owner check of `cancelOrder`, in a store with unique order keys: for every
role other than the literal `admin`, `ADMIN` included, and every order owned by a
different user the call fails with order not found and leaves the store as it
was; with the literal `admin` every order in status pending, confirmed or
processing is cancelled, whoever calls. -/
theorem orderService.cancelOrder_owner_check (db : Db) (now orderId userId : Nat)
    (role : Role) (reason notes : String) (order : Order)
    (hpk : db.orderKeysUnique)
    (hfind : db.findOrder orderId = some order) :
    (role ≠ .admin → order.user_id ≠ userId →
      (orderService.cancelOrder db now orderId userId role reason notes).result =
        .error .orderNotFound ∧
      (orderService.cancelOrder db now orderId userId role reason notes).db = db) ∧
    (role = .admin → order.status ∈ [OrderStatus.pending, .confirmed, .processing] →
      (orderService.cancelOrder db now orderId userId role reason notes).succeeded = true ∧
      (orderService.cancelOrder db now orderId userId role reason notes).db.findOrder
          orderId =
        some { order with
               status := .cancelled, cancellation_reason := some reason,
               cancellation_notes := some notes, cancelled_by := some Actor.admin,
               cancelled_at := some now }) := by
  constructor
  · intro hrole howner
    have hnone : orderService.findVisibleOrder db orderId userId role = none := by
      have hpred : (fun o : Order =>
          decide (o.id = orderId ∧ (role ≠ .admin → o.user_id = userId))) =
          fun o : Order => decide (o.id = orderId ∧ o.user_id = userId) := by
        funext o
        simp [hrole]
      unfold orderService.findVisibleOrder
      rw [hpred]
      cases hv : db.orders.find? (fun o => decide (o.id = orderId ∧ o.user_id = userId)) with
      | none => rfl
      | some other =>
        have heq := find?_key_owner_eq db.orders orderId userId order other hpk hfind hv
        have hmem := List.find?_some hv
        simp only [decide_eq_true_eq] at hmem
        rw [heq] at hmem
        exact absurd hmem.2 howner
    simp [orderService.cancelOrder, orderService.cancelOrderBody, hnone, transact]
  · intro hrole hst
    subst hrole
    have hvis : orderService.findVisibleOrder db orderId userId .admin = some order := by
      have hpred : (fun o : Order =>
          decide (o.id = orderId ∧ (Role.admin ≠ .admin → o.user_id = userId))) =
          fun o : Order => decide (o.id = orderId) := by
        funext o
        simp
      unfold orderService.findVisibleOrder
      rw [hpred]
      exact hfind
    obtain ⟨hok, hdb⟩ := orderService.cancelOrder_ok_db db now orderId userId .admin reason
      notes order hvis hst
    refine ⟨hok, ?_⟩
    rw [hdb]
    have := Db.findOrder_updateOrders db orderId
      (fun o => { o with
                  status := .cancelled, cancellation_reason := some reason,
                  cancellation_notes := some notes, cancelled_by := some Actor.admin,
                  cancelled_at := some now }) (fun _ => rfl)
    rw [hfind] at this
    simpa [Db.findOrder, Db.updateOrders] using this

/-- C30, evaluated on the code: order 1 of the section 8 store is pending and
belongs to user 1. User 2 calls `cancelOrder` with role `ADMIN`, the value that
`users.role` holds for an administrator and that the controller passes on: no
order is visible to the call, it fails with order not found and the store stays
as it was. Only with the literal `admin`, which no stored user carries, does the
call of user 2 cancel the order. -/
theorem administrator_cannot_cancel_another_users_order :
    Scenario.afterCod.findOrder 1 = some Scenario.codOrder ∧
    orderService.findVisibleOrder Scenario.afterCod 1 2 .ADMIN = none ∧
    (orderService.cancelOrder Scenario.afterCod 9 1 2 .ADMIN "" "").result =
      .error .orderNotFound ∧
    (orderService.cancelOrder Scenario.afterCod 9 1 2 .ADMIN "" "").db = Scenario.afterCod ∧
    orderService.findVisibleOrder Scenario.afterCod 1 2 .admin = some Scenario.codOrder ∧
    (orderService.cancelOrder Scenario.afterCod 9 1 2 .admin "" "").succeeded = true :=
  ⟨by decide, by decide, rfl, by decide, by decide, by decide⟩

end LiquiKart
